import Mathlib

/-!
# RoboScape firmware (`roboscape.c`): protocol engine

A shallow embedding of the application-layer protocol engine of
`src/server/services/procedures/roboscape/firmware/roboscape.c`:
the software millisecond clock, the frame codec working on the shared byte
buffer, the command dispatcher, the sensor event emitter, the heartbeat and the
button hold detector.

Conventions.
* `unsigned int` values are `Nat` reduced modulo `2^32`; `int` values are `Int`
  in the range of a 32-bit two's-complement integer; `short` is 16-bit.
* The target (Parallax Propeller) is little-endian, so `memcpy` of an integer
  into the buffer stores its least significant byte first.
* Memory areas (`buffer`, `mac_addr`, `ip4_addr`, `ip4_port`) are total maps
  from index to byte value.
* Calls into the absent driver libraries are recorded, in program order, as a
  list of `Effect`s; values the drivers return are fields of `Input`.
* A result of `none` stands for a call that does not return a defined value:
  the normalisation loop of `get_time` never ending (`CLKFREQ = 0`) or the
  division by `CLKFREQ / 1000 = 0`.
-/

namespace Roboscape

/-! ## Constants (the anonymous `enum` and the two `static const` arrays) -/

def BUFFER_SIZE : Nat := 200
def WHISKERS_LEFT_PIN : Nat := 8
def WHISKERS_RIGHT_PIN : Nat := 9
def PIEZO_SPEAKER_PIN : Nat := 2
def PING_SENSOR_PIN : Nat := 6
def BUTTON_PIN : Nat := 7
def LED_0_PIN : Nat := 26
def LED_1_PIN : Nat := 27
def INFRA_LIGHT_PIN : Nat := 5
def INFRA_LEFT_PIN : Nat := 11
def INFRA_RIGHT_PIN : Nat := 10
def PRESSED : Nat := 0
def LONG_HOLD_DURATION : Nat := 3000

/-- The peer address `server_addr` (netsblox.org). -/
def server_addr : List Nat := [52, 73, 65, 98]

/-- The peer port `server_port` (1973, big-endian). -/
def server_port : List Nat := [0x07, 0xb5]

/-! ## Machine integers -/

/-- The value of a 32-bit pattern read as `int`. -/
def toInt32 (n : Nat) : Int :=
  if n % 2 ^ 32 < 2 ^ 31 then ((n % 2 ^ 32 : Nat) : Int) else ((n % 2 ^ 32 : Nat) : Int) - 2 ^ 32

/-- The 32-bit pattern of an `int` (conversion to `unsigned int`). -/
def ofInt32 (i : Int) : Nat := (i % 2 ^ 32).toNat

/-- The value of a 16-bit pattern read as `short`. -/
def toInt16 (n : Nat) : Int :=
  if n % 2 ^ 16 < 2 ^ 15 then ((n % 2 ^ 16 : Nat) : Int) else ((n % 2 ^ 16 : Nat) : Int) - 2 ^ 16

/-- The 16-bit pattern of an integer converted to `short`. -/
def ofInt16 (i : Int) : Nat := (i % 2 ^ 16).toNat

/-- Subtraction of `unsigned int` values. -/
def sub32 (a b : Nat) : Nat := (a % 2 ^ 32 + (2 ^ 32 - b % 2 ^ 32)) % 2 ^ 32

/-- The `n` bytes of a bit pattern, least significant first. -/
def le_bytes : Nat → Nat → List Nat
  | 0, _ => []
  | n + 1, v => v % 256 :: le_bytes n (v / 256)

/-- The number encoded by a list of bytes, least significant first. -/
def le_value : List Nat → Nat
  | [] => 0
  | b :: bs => b + 256 * le_value bs

/-! ## Memory areas -/

/-- A byte area indexed from zero. -/
abbrev Mem := Nat → Nat

/-- The assignment `area[i] = v` for an `unsigned char` area. -/
def store (m : Mem) (i v : Nat) : Mem := fun j => if j = i then v % 256 else m j

/-- The call `memcpy(dst + off, bytes, bytes.length)` with the source bytes given as a list. -/
def memcpy (m : Mem) (off : Nat) (bytes : List Nat) : Mem :=
  fun j => if off ≤ j ∧ j < off + bytes.length then bytes.getD (j - off) 0 else m j

/-- The `n` bytes of an area starting at `off`. -/
def bytes_at (m : Mem) (off n : Nat) : List Nat := (List.range n).map (fun i => m (off + i))

/-- The expression `*(short*)(area + off)`. -/
def read_short (m : Mem) (off : Nat) : Int := toInt16 (m off + 256 * m (off + 1))

/-! ## Effects and inputs -/

/-- Calls into the driver libraries, as they appear in the source, and the calls that
only print. `buffer_print` records the length passed and the bytes printed; the other
`print_*` constructors stand for the `print` calls of the branch they are named after.
`setup_mode` stands for the call of `setup_mode()`, a blocking exchange with the
transport that is outside the protocol engine. -/
inductive Effect where
  | xbee_send_api (frame : List Nat)
  | pause (ms : Nat)
  | freqout (pin : Nat) (msec : Int) (freq : Int)
  | get_output (pin : Nat)
  | dac_ctr (pin : Nat) (channel : Nat) (value : Int)
  | dac_ctr_stop
  | set_output (pin : Nat) (value : Int)
  | drive_speed (left right : Int)
  | drive_goto (left right : Int)
  | ping_cm (pin : Nat)
  | drive_getTicks
  | low (pin : Nat)
  | high (pin : Nat)
  | toggle (pin : Nat)
  | buffer_print (len : Int) (bytes : List Nat)
  | print_restoring
  | print_mac (mac : List Nat)
  | print_ip4 (addr : List Nat) (port : Nat)
  | print_entering_setup
  | setup_mode
  deriving DecidableEq, Repr

/-- The clock state: the globals `time_ref` and `last_cnt`. -/
structure Clock where
  time_ref : Nat
  last_cnt : Nat
  deriving DecidableEq, Repr

/-- The globals of the program and the locals of `main` that live across iterations. -/
structure State where
  buffer : Mem
  buffer_len : Int
  mac_addr : Mem
  ip4_addr : Mem
  ip4_port : Mem
  clock : Clock
  buttonState : Nat
  lastButtonState : Nat
  startPressed : Nat
  endPressed : Nat
  timeHold : Nat
  timeReleased : Nat
  whiskers : Int
  button : Int
  infrared : Int
  slower : Int

/-- The state when `main` reaches its loop: zero-initialised globals,
`lastButtonState = 1`, and the four locals set to zero. -/
def State.init : State where
  buffer := fun _ => 0
  buffer_len := 0
  mac_addr := fun _ => 0
  ip4_addr := fun _ => 0
  ip4_port := fun _ => 0
  clock := ⟨0, 0⟩
  buttonState := 0
  lastButtonState := 1
  startPressed := 0
  endPressed := 0
  timeHold := 0
  timeReleased := 0
  whiskers := 0
  button := 0
  infrared := 0
  slower := 0

/-- What the environment supplies during one loop iteration: the result of
`xbee_recv_api`, the value of the hardware counter `CNT` seen by each call of
`get_time`, and the values returned by the drivers. -/
structure Input where
  /-- The return value of `xbee_recv_api`. -/
  recv_ret : Int
  /-- The bytes `xbee_recv_api` stored at the start of `buffer`. -/
  recv_data : List Nat
  /-- The counter `CNT` seen by the `get_time` call of the dispatch step. -/
  cnt_dispatch : Nat
  /-- The counter `CNT` seen when the whiskers frame is built. -/
  cnt_whiskers : Nat
  /-- The counter `CNT` seen when the button frame is built. -/
  cnt_button : Nat
  /-- The counter `CNT` seen when the infrared frame is built. -/
  cnt_infrared : Nat
  /-- The counter `CNT` seen by the button hold detector. -/
  cnt_hold : Nat
  /-- The value of `get_output(26)`. -/
  output26 : Int
  /-- The value of `ping_cm(PING_SENSOR_PIN)`. -/
  ping : Int
  /-- The left value of `drive_getTicks`. -/
  ticks_left : Int
  /-- The right value of `drive_getTicks`. -/
  ticks_right : Int
  /-- The level `input(WHISKERS_LEFT_PIN)`. -/
  whiskers_left : Bool
  /-- The level `input(WHISKERS_RIGHT_PIN)`. -/
  whiskers_right : Bool
  /-- The level `input(BUTTON_PIN)`. -/
  button_level : Bool
  /-- The level `input(INFRA_LEFT_PIN)`. -/
  infra_left : Bool
  /-- The level `input(INFRA_RIGHT_PIN)`. -/
  infra_right : Bool

/-! ## Clock service: `get_time` -/

/-- The loop `while (elapsed >= CLKFREQ) { ... }` of `get_time`, run for at most
`fuel` evaluations of its condition; the result is `(elapsed, last_cnt, time_ref, n)`
with `n` the number of times the body ran, or `none` when the fuel is used up. -/
def get_time_loop (clkfreq : Nat) : Nat → Nat → Nat → Nat → Nat → Option (Nat × Nat × Nat × Nat)
  | 0, _, _, _, _ => none
  | fuel + 1, elapsed, last_cnt, time_ref, n =>
    if elapsed ≥ clkfreq then
      get_time_loop clkfreq fuel (sub32 elapsed clkfreq) ((last_cnt + clkfreq) % 2 ^ 32)
        ((time_ref + 1000) % 2 ^ 32) (n + 1)
    else some (elapsed, last_cnt, time_ref, n)

/-- The function `get_time` for tick frequency `clkfreq` (the macro `CLKFREQ`) and
counter value `cnt` (the register `CNT`). The loop gets `2^32 + 1` evaluations of its
condition, which is more than an `unsigned int` can need when `CLKFREQ > 0`. -/
def get_time (clkfreq cnt : Nat) (c : Clock) : Option (Int × Clock) :=
  match get_time_loop clkfreq (2 ^ 32 + 1) (sub32 cnt c.last_cnt) c.last_cnt c.time_ref 0 with
  | none => none
  | some (elapsed, last_cnt, time_ref, _) =>
    if clkfreq / 1000 = 0 then none
    else some (toInt32 ((time_ref + elapsed / (clkfreq / 1000)) % 2 ^ 32), ⟨time_ref, last_cnt⟩)

/-! ## Frame codec -/

/-- The function `cmp_api_response`; `prefix5` is the five bytes of the string
literal that the loop reads: its four characters and the terminating NUL. -/
def cmp_api_response (s : State) (len : Int) (prefix5 : List Nat) : Bool :=
  if s.buffer_len ≠ len then false
  else (List.range 5).all (fun i => prefix5.getD i 0 == s.buffer i)

/-- The function `cmp_rx_headers`. -/
def cmp_rx_headers (s : State) (len : Int) (cmd : Nat) : Bool :=
  s.buffer_len == len && s.buffer 0 == 0xb0 && s.buffer 11 == cmd

/-- The function `set_tx_headers`. -/
def set_tx_headers (clkfreq cnt : Nat) (cmd : Nat) (s : State) : Option State :=
  match get_time clkfreq cnt s.clock with
  | none => none
  | some (time, clock) =>
    let b := store s.buffer 0 0x20
    let b := store b 1 0x10
    let b := memcpy b 2 server_addr
    let b := memcpy b 6 server_port
    let b := memcpy b 8 (bytes_at s.ip4_port 0 2)
    let b := store b 10 0x00
    let b := store b 11 0x00
    let b := memcpy b 12 (bytes_at s.mac_addr 0 6)
    let b := memcpy b 18 (le_bytes 4 (ofInt32 time))
    let b := store b 22 cmd
    some { s with buffer := b, buffer_len := 23, clock := clock }

/-- The function `write_le16`. -/
def write_le16 (data : Int) (s : State) : State :=
  { s with buffer := memcpy s.buffer s.buffer_len.toNat (le_bytes 2 (ofInt16 data)),
           buffer_len := s.buffer_len + 2 }

/-- The function `write_le32`. -/
def write_le32 (data : Int) (s : State) : State :=
  { s with buffer := memcpy s.buffer s.buffer_len.toNat (le_bytes 4 (ofInt32 data)),
           buffer_len := s.buffer_len + 4 }

/-- The statement `buffer[buffer_len++] = v`. -/
def push_byte (v : Int) (s : State) : State :=
  { s with buffer := store s.buffer s.buffer_len.toNat (v % 256).toNat,
           buffer_len := s.buffer_len + 1 }

/-- The call `xbee_send_api(xbee, buffer, buffer_len)`. -/
def send_buffer (s : State) : Effect :=
  Effect.xbee_send_api (bytes_at s.buffer 0 s.buffer_len.toNat)

/-- The function `buffer_print`: the length and the at most `BUFFER_SIZE` bytes it prints. -/
def buffer_print (s : State) (len : Int) : Effect :=
  Effect.buffer_print len (bytes_at s.buffer 0 (min len.toNat BUFFER_SIZE))

/-! ## The main loop -/

/-- The call `buffer_len = xbee_recv_api(xbee, buffer, BUFFER_SIZE, 10)`: the driver
stores the received bytes at the start of `buffer` and returns their number, or a
negative value (`-1` on a timeout) having stored nothing. -/
def xbee_recv (inp : Input) (s : State) : State :=
  { s with buffer := memcpy s.buffer 0 inp.recv_data, buffer_len := inp.recv_ret }

/-- The branch `buffer_len == -1`: the heartbeat. -/
def handle_timeout (clkfreq : Nat) (inp : Input) (s : State) : Option (State × List Effect) :=
  let s := { s with slower := s.slower + 1 }
  if s.slower ≥ (100 : Int) then
    let s := { s with slower := 0 }
    match set_tx_headers clkfreq inp.cnt_dispatch 0x49 s with
    | none => none
    | some s => some (s, [Effect.xbee_send_api [0x08, 0x04, 0x4d, 0x59], send_buffer s])
  else some (s, [])

/-- The branch of the association-status reply `AI`. -/
def handle_AI (s : State) : State × List Effect :=
  if s.buffer 5 = 0x23 then
    (s, [Effect.print_restoring,
         Effect.xbee_send_api [0x08, 0x00, 0x4e, 0x52],
         Effect.pause 500,
         Effect.xbee_send_api [0x08, 0x00, 0x49, 0x44, 0x72, 0x6f, 0x62, 0x6f, 0x6e, 0x65, 0x74],
         Effect.xbee_send_api [0x08, 0x00, 0x45, 0x45, 0x02],
         Effect.xbee_send_api
           [0x08, 0x00, 0x50, 0x4b, 0x63, 0x79, 0x62, 0x65, 0x72, 0x63, 0x61, 0x6d, 0x70],
         Effect.xbee_send_api [0x08, 0x00, 0x57, 0x52],
         Effect.pause 1000,
         Effect.xbee_send_api [0x08, 0x00, 0x46, 0x52],
         Effect.pause 1000,
         Effect.xbee_send_api [0x08, 0x03, 0x43, 0x30],
         Effect.xbee_send_api [0x08, 0x04, 0x4d, 0x59]])
  else (s, [])

/-- The branch of the serial-number-low reply `SL`. -/
def handle_SL (s : State) : State × List Effect :=
  ({ s with mac_addr := memcpy s.mac_addr 2 (bytes_at s.buffer 5 4) }, [])

/-- The branch of the serial-number-high reply `SH`. -/
def handle_SH (s : State) : State × List Effect :=
  let s := { s with mac_addr := memcpy s.mac_addr 0 (bytes_at s.buffer 5 2) }
  (s, [Effect.print_mac (bytes_at s.mac_addr 0 6)])

/-- The branch of the local-port reply `C0`. -/
def handle_C0 (s : State) : State × List Effect :=
  ({ s with ip4_port := memcpy s.ip4_port 0 (bytes_at s.buffer 5 2) }, [])

/-- The function `ntohs`. -/
def ntohs (m : Mem) : Nat := ((m 0 <<< 8) + m 1) % 2 ^ 16

/-- The branch of the local-address reply `MY`. -/
def handle_MY (s : State) : State × List Effect :=
  let s := { s with ip4_addr := memcpy s.ip4_addr 0 (bytes_at s.buffer 5 4) }
  (s, [Effect.print_ip4 (bytes_at s.ip4_addr 0 4) (ntohs s.ip4_port)])

/-- The branch of command `B` (beep). -/
def handle_B (clkfreq : Nat) (inp : Input) (s : State) : Option (State × List Effect) :=
  let msec := read_short s.buffer 12
  let tone := read_short s.buffer 14
  match set_tx_headers clkfreq inp.cnt_dispatch 0x42 s with
  | none => none
  | some s =>
    let s := write_le16 msec s
    let s := write_le16 tone s
    some (s, [Effect.freqout PIEZO_SPEAKER_PIN msec tone, send_buffer s])

/-- The branch of command `G` (infra light). -/
def handle_G (clkfreq : Nat) (inp : Input) (s : State) : Option (State × List Effect) :=
  let msec := read_short s.buffer 12
  let pwr : Int := (s.buffer 14 : Nat)
  let old := inp.output26
  match set_tx_headers clkfreq inp.cnt_dispatch 0x47 s with
  | none => none
  | some s =>
    let s := write_le16 msec s
    let s := push_byte pwr s
    some (s, [Effect.get_output 26, Effect.dac_ctr 26 0 pwr,
              Effect.freqout INFRA_LIGHT_PIN msec 38000, Effect.dac_ctr_stop,
              Effect.set_output 26 old, send_buffer s])

/-- The branch of command `S` (setSpeed). -/
def handle_S (clkfreq : Nat) (inp : Input) (s : State) : Option (State × List Effect) :=
  let left := read_short s.buffer 12
  let right := read_short s.buffer 14
  match set_tx_headers clkfreq inp.cnt_dispatch 0x53 s with
  | none => none
  | some s =>
    let s := write_le16 left s
    let s := write_le16 right s
    some (s, [Effect.drive_speed left right, send_buffer s])

/-- The branch of command `R` (getRange). -/
def handle_R (clkfreq : Nat) (inp : Input) (s : State) : Option (State × List Effect) :=
  let dist := inp.ping
  match set_tx_headers clkfreq inp.cnt_dispatch 0x52 s with
  | none => none
  | some s =>
    let s := write_le16 dist s
    some (s, [Effect.ping_cm PING_SENSOR_PIN, send_buffer s])

/-- The branch of command `T` (getTicks). -/
def handle_T (clkfreq : Nat) (inp : Input) (s : State) : Option (State × List Effect) :=
  let left := inp.ticks_left
  let right := inp.ticks_right
  match set_tx_headers clkfreq inp.cnt_dispatch 0x54 s with
  | none => none
  | some s =>
    let s := write_le32 left s
    let s := write_le32 (-right) s
    some (s, [Effect.drive_getTicks, send_buffer s])

/-- The branch of command `D` (drive). -/
def handle_D (clkfreq : Nat) (inp : Input) (s : State) : Option (State × List Effect) :=
  let left := read_short s.buffer 12
  let right := read_short s.buffer 14
  match set_tx_headers clkfreq inp.cnt_dispatch 0x44 s with
  | none => none
  | some s =>
    let s := write_le16 left s
    let s := write_le16 right s
    some (s, [send_buffer s, Effect.drive_goto left right])

/-- The branch of command `L` (setLed). -/
def handle_L (clkfreq : Nat) (inp : Input) (s : State) : Option (State × List Effect) :=
  let led : Int := (s.buffer 12 : Nat)
  let state : Int := (s.buffer 13 : Nat)
  match set_tx_headers clkfreq inp.cnt_dispatch 0x4c s with
  | none => none
  | some s =>
    let s := push_byte led s
    let s := push_byte state s
    let led := if led = 0 then LED_0_PIN else LED_1_PIN
    let action :=
      if state = 0 then Effect.low led
      else if state = 1 then Effect.high led
      else Effect.toggle led
    some (s, [action, send_buffer s])

/-- The `if ... else if ...` chain of the main loop, applied to the state that
`xbee_recv_api` left. -/
def dispatch (clkfreq : Nat) (inp : Input) (s : State) : Option (State × List Effect) :=
  if s.buffer_len = -1 then handle_timeout clkfreq inp s
  else if cmp_api_response s 6 [0x88, 0x05, 0x41, 0x49, 0x00] then some (handle_AI s)
  else if cmp_api_response s 9 [0x88, 0x01, 0x53, 0x4c, 0x00] then some (handle_SL s)
  else if cmp_api_response s 7 [0x88, 0x02, 0x53, 0x48, 0x00] then some (handle_SH s)
  else if cmp_api_response s 7 [0x88, 0x03, 0x43, 0x30, 0x00] then some (handle_C0 s)
  else if cmp_api_response s 9 [0x88, 0x04, 0x4d, 0x59, 0x00] then some (handle_MY s)
  else if cmp_rx_headers s 16 0x42 then handle_B clkfreq inp s
  else if cmp_rx_headers s 15 0x47 then handle_G clkfreq inp s
  else if cmp_rx_headers s 16 0x53 then handle_S clkfreq inp s
  else if cmp_rx_headers s 12 0x52 then handle_R clkfreq inp s
  else if cmp_rx_headers s 12 0x54 then handle_T clkfreq inp s
  else if cmp_rx_headers s 16 0x44 then handle_D clkfreq inp s
  else if cmp_rx_headers s 14 0x4c then handle_L clkfreq inp s
  else if s.buffer_len ≥ (0 : Int) then some (s, [buffer_print s s.buffer_len])
  else some (s, [])

/-- The value of `input(pin)` for a pin level. -/
def input (level : Bool) : Nat := if level then 1 else 0

/-- One event block of the loop: `set_tx_headers(code); buffer[buffer_len++] = value;
xbee_send_api(xbee, buffer, buffer_len);`. -/
def send_event (clkfreq cnt code : Nat) (value : Int) (s : State) : Option (State × List Effect) :=
  match set_tx_headers clkfreq cnt code s with
  | none => none
  | some s =>
    let s := push_byte value s
    some (s, [send_buffer s])

/-- The expression `(input(WHISKERS_LEFT_PIN) << 1) | input(WHISKERS_RIGHT_PIN)`. -/
def whiskers_value (inp : Input) : Int :=
  (((input inp.whiskers_left <<< 1) ||| input inp.whiskers_right : Nat) : Int)

/-- The expression `(input(INFRA_LEFT_PIN) << 1) | input(INFRA_RIGHT_PIN)`. -/
def infrared_value (inp : Input) : Int :=
  (((input inp.infra_left <<< 1) ||| input inp.infra_right : Nat) : Int)

/-- The whiskers block of the loop. -/
def check_whiskers (clkfreq : Nat) (inp : Input) (s : State) : Option (State × List Effect) :=
  let temp : Int := whiskers_value inp
  if s.whiskers ≠ temp then
    let s := { s with whiskers := temp }
    send_event clkfreq inp.cnt_whiskers 0x57 s.whiskers s
  else some (s, [])

/-- The user button block of the loop. -/
def check_button (clkfreq : Nat) (inp : Input) (s : State) : Option (State × List Effect) :=
  let s := { s with buttonState := input inp.button_level }
  if ofInt32 s.button ≠ s.buttonState then
    let s := { s with button := toInt32 s.buttonState }
    send_event clkfreq inp.cnt_button 0x50 s.button s
  else some (s, [])

/-- The infra red block of the loop. -/
def check_infrared (clkfreq : Nat) (inp : Input) (s : State) : Option (State × List Effect) :=
  let temp : Int := infrared_value inp
  if s.infrared ≠ temp then
    let s := { s with infrared := temp }
    send_event clkfreq inp.cnt_infrared 0x46 s.infrared s
  else some (s, [])

/-- The button state detection block of the loop. -/
def button_detect (clkfreq : Nat) (inp : Input) (s : State) : Option (State × List Effect) :=
  if s.buttonState ≠ s.lastButtonState then
    let s := { s with lastButtonState := s.buttonState }
    if s.buttonState = PRESSED then
      match get_time clkfreq inp.cnt_hold s.clock with
      | none => none
      | some (t, clock) =>
        let s := { s with clock := clock, startPressed := ofInt32 t }
        some ({ s with timeReleased := sub32 s.startPressed s.endPressed }, [])
    else
      match get_time clkfreq inp.cnt_hold s.clock with
      | none => none
      | some (t, clock) =>
        let s := { s with clock := clock, endPressed := ofInt32 t }
        let s := { s with timeHold := sub32 s.endPressed s.startPressed }
        if s.timeHold ≥ LONG_HOLD_DURATION then
          some (s, [Effect.print_entering_setup, Effect.setup_mode])
        else some (s, [])
  else some (s, [])

/-- Sequencing of two steps, the effects of the first before those of the second. -/
def and_then (a : Option (State × List Effect)) (f : State → Option (State × List Effect)) :
    Option (State × List Effect) :=
  match a with
  | none => none
  | some (s, e) =>
    match f s with
    | none => none
    | some (s2, e2) => some (s2, e ++ e2)

/-- The three sensor blocks of the loop, in program order. -/
def sensors (clkfreq : Nat) (inp : Input) (s : State) : Option (State × List Effect) :=
  and_then (and_then (check_whiskers clkfreq inp s) (check_button clkfreq inp))
    (check_infrared clkfreq inp)

/-- One iteration of the `while (1)` loop of `main`. -/
def loop_iteration (clkfreq : Nat) (inp : Input) (s : State) : Option (State × List Effect) :=
  and_then (and_then (dispatch clkfreq inp (xbee_recv inp s)) (sensors clkfreq inp))
    (button_detect clkfreq inp)

/-- The loop run over a list of per-iteration inputs: the final state and the
effects of each iteration. -/
def main_loop (clkfreq : Nat) : List Input → State → Option (State × List (List Effect))
  | [], s => some (s, [])
  | inp :: rest, s =>
    match loop_iteration clkfreq inp s with
    | none => none
    | some (s1, e) =>
      match main_loop clkfreq rest s1 with
      | none => none
      | some (s2, es) => some (s2, e :: es)

/-- Successive calls of `get_time`, one per counter value: the values returned. -/
def get_time_calls (clkfreq : Nat) : List Nat → Clock → Option (List Int)
  | [], _ => some []
  | cnt :: rest, c =>
    match get_time clkfreq cnt c with
    | none => none
    | some (t, c1) =>
      match get_time_calls clkfreq rest c1 with
      | none => none
      | some ts => some (t :: ts)

/-! ## Auxiliary definitions used in statements -/

/-- The clock globals `(last_cnt, time_ref)` after `k` runs of the loop body of `get_time`. -/
def advance (clkfreq : Nat) : Nat → Nat → Nat → Nat × Nat
  | 0, last_cnt, time_ref => (last_cnt, time_ref)
  | k + 1, last_cnt, time_ref =>
    advance clkfreq k ((last_cnt + clkfreq) % 2 ^ 32) ((time_ref + 1000) % 2 ^ 32)

/-- The 23 bytes that `set_tx_headers(cmd)` writes when `get_time` returns `t`. -/
def tx_header (s : State) (t : Int) (cmd : Nat) : List Nat :=
  [0x20, 0x10, 52, 73, 65, 98, 0x07, 0xb5, s.ip4_port 0, s.ip4_port 1, 0, 0,
   s.mac_addr 0, s.mac_addr 1, s.mac_addr 2, s.mac_addr 3, s.mac_addr 4, s.mac_addr 5] ++
  le_bytes 4 (ofInt32 t) ++ [cmd % 256]

/-- The state that `set_tx_headers(cmd)` leaves when `get_time` returns `t` and the clock `c`. -/
def tx_state (s : State) (t : Int) (c : Clock) (cmd : Nat) : State :=
  { s with
    buffer := store (memcpy (memcpy (store (store (memcpy (memcpy (memcpy
      (store (store s.buffer 0 0x20) 1 0x10) 2 server_addr) 6 server_port) 8
      (bytes_at s.ip4_port 0 2)) 10 0x00) 11 0x00) 12 (bytes_at s.mac_addr 0 6)) 18
      (le_bytes 4 (ofInt32 t))) 22 cmd,
    buffer_len := 23, clock := c }

/-- The frame length the main loop expects for each command code. -/
def expected_length : Nat → Option Int
  | 0x42 => some 16
  | 0x47 => some 15
  | 0x53 => some 16
  | 0x52 => some 12
  | 0x54 => some 12
  | 0x44 => some 16
  | 0x4c => some 14
  | _ => none

/-- The branch of the main loop that handles each command code. -/
def command_handler : Nat → Nat → Input → State → Option (State × List Effect)
  | 0x42 => handle_B
  | 0x47 => handle_G
  | 0x53 => handle_S
  | 0x52 => handle_R
  | 0x54 => handle_T
  | 0x44 => handle_D
  | 0x4c => handle_L
  | _ => fun _ _ _ => none

/-- Apart from the buffer, the cursor and the clock, two states agree on the identity
fields and on the heartbeat counter. -/
def same_link_vars (s s1 : State) : Prop :=
  s1.mac_addr = s.mac_addr ∧ s1.ip4_addr = s.ip4_addr ∧ s1.ip4_port = s.ip4_port ∧
  s1.slower = s.slower

/-- Two states agree on the stored sensor values and on the button timing variables. -/
def same_sensor_vars (s s1 : State) : Prop :=
  s1.whiskers = s.whiskers ∧ s1.button = s.button ∧ s1.infrared = s.infrared ∧
  s1.buttonState = s.buttonState ∧ s1.lastButtonState = s.lastButtonState ∧
  s1.startPressed = s.startPressed ∧ s1.endPressed = s.endPressed ∧
  s1.timeHold = s.timeHold ∧ s1.timeReleased = s.timeReleased

/-- The frames handed to `xbee_send_api`, in order. -/
def sent_frames : List Effect → List (List Nat)
  | [] => []
  | Effect.xbee_send_api frame :: rest => frame :: sent_frames rest
  | _ :: rest => sent_frames rest

/-- The calls of `get_time` made at the true tick totals `ticks` (counted from the
zero of the counter) come in order and none is late: each total is at least the one
before (`prev`), and the ticks since the whole second last absorbed into `last_cnt`
are fewer than `2^32`, so that `CNT - last_cnt` does not wrap. -/
def calls_in_time (clkfreq : Nat) : Nat → List Nat → Prop
  | _, [] => True
  | prev, t :: rest =>
    prev ≤ t ∧ t - clkfreq * (prev / clkfreq) < 2 ^ 32 ∧ calls_in_time clkfreq t rest

/-- The clock state once every whole second of the first `t` ticks is absorbed. -/
def clock_at (clkfreq t : Nat) : Clock :=
  ⟨1000 * (t / clkfreq) % 2 ^ 32, clkfreq * (t / clkfreq) % 2 ^ 32⟩

/-- Some frame handed to `xbee_send_api` carries the command code `I` at byte 22. -/
def liveness_sent (e : List Effect) : Bool :=
  (sent_frames e).any (fun f => f.get? 22 == some 0x49)

/-- The number of receive timeouts (`xbee_recv_api` returning `-1`) in a list of inputs. -/
def timeouts (inps : List Input) : Nat :=
  inps.countP (fun inp => inp.recv_ret == -1)

/-- What one event block sends: nothing when the reading equals the stored value, and
otherwise one frame of 24 bytes with `code` at byte 22 and the reading at byte 23. -/
def event_frames (changed : Prop) [Decidable changed] (code value : Nat)
    (e : List Effect) : Prop :=
  (¬ changed → e = []) ∧
  (changed → ∃ frame, e = [Effect.xbee_send_api frame] ∧ frame.length = 24 ∧
    frame.get? 22 = some code ∧ frame.get? 23 = some value)

/-- No frame among the effects carries one of the three event codes `W`, `P`, `F` at byte 22. -/
def no_event_code (e : List Effect) : Prop :=
  ∀ f ∈ sent_frames e, f.get? 22 ≠ some 0x57 ∧ f.get? 22 ≠ some 0x50 ∧ f.get? 22 ≠ some 0x46

/-- Some frame among the effects carries `code` at byte 22. -/
def event_sent (code : Nat) (e : List Effect) : Prop :=
  ∃ f ∈ sent_frames e, f.get? 22 = some code

/-! ## Concrete inputs -/

/-- An iteration in which nothing is received and no pin changes: the receive times
out, the button is released (level 1) and the other inputs are low. -/
def idle_input : Input where
  recv_ret := -1
  recv_data := []
  cnt_dispatch := 0
  cnt_whiskers := 0
  cnt_button := 0
  cnt_infrared := 0
  cnt_hold := 0
  output26 := 0
  ping := 0
  ticks_left := 0
  ticks_right := 0
  whiskers_left := false
  whiskers_right := false
  button_level := true
  infra_left := false
  infra_right := false

/-- An iteration that receives the frame `data` while the counter reads `cnt`. -/
def frame_input (data : List Nat) (cnt : Nat) : Input :=
  { idle_input with
    recv_ret := data.length, recv_data := data, cnt_dispatch := cnt, cnt_whiskers := cnt,
    cnt_button := cnt, cnt_infrared := cnt, cnt_hold := cnt }

/-- A `B` frame asking for a tone of 440 Hz for 500 ms. -/
def beep_frame : List Nat :=
  [0xb0, 1, 2, 3, 4, 5, 6, 7, 8, 9, 10, 0x42, 0xf4, 0x01, 0xb8, 0x01]

/-- The tick frequency of a Propeller board running at 80 MHz. -/
def clkfreq_80MHz : Nat := 80000000

/-- The frames of the recovery sequence, in the order the `AI` branch sends them. -/
def recovery_frames : List (List Nat) :=
  [[0x08, 0x00, 0x4e, 0x52],
   [0x08, 0x00, 0x49, 0x44, 0x72, 0x6f, 0x62, 0x6f, 0x6e, 0x65, 0x74],
   [0x08, 0x00, 0x45, 0x45, 0x02],
   [0x08, 0x00, 0x50, 0x4b, 0x63, 0x79, 0x62, 0x65, 0x72, 0x63, 0x61, 0x6d, 0x70],
   [0x08, 0x00, 0x57, 0x52],
   [0x08, 0x00, 0x46, 0x52],
   [0x08, 0x03, 0x43, 0x30],
   [0x08, 0x04, 0x4d, 0x59]]

/-- A `T` frame (the twelve header bytes only). -/
def ticks_frame : List Nat := [0xb0, 1, 2, 3, 4, 5, 6, 7, 8, 9, 10, 0x54]

/-- An iteration that receives `ticks_frame` while the encoders read 100 and 7. -/
def ticks_input : Input :=
  { frame_input ticks_frame 160000 with ticks_left := 100, ticks_right := 7 }

/-- An `L` frame with `led = 0` and `state = 2`. -/
def led_frame : List Nat := [0xb0, 1, 2, 3, 4, 5, 6, 7, 8, 9, 10, 0x4c, 0, 2]

/-- The association-status reply with command status 0 and value `0x23`. -/
def ai_frame : List Nat := [0x88, 0x05, 0x41, 0x49, 0x00, 0x23]

/-- A frame of length 6 with the prefix of the association-status reply, command
status 1 at offset 4 and `0x23` at offset 5. -/
def ai_error_frame : List Nat := [0x88, 0x05, 0x41, 0x49, 0x01, 0x23]

/-- A state in which the button was pressed at time 0 (`startPressed = 0`, last level 0)
and now reads released (level 1). -/
def held_state : State :=
  { State.init with buttonState := 1, lastButtonState := 0, startPressed := 0, button := 1 }

/-- An idle iteration in which the hold detector reads the counter at 240000000 ticks
(3000 ms at 80 MHz). -/
def release_input : Input := { idle_input with cnt_hold := 240000000 }


/-- A `D` frame with `left = 100` and `right = -100`. -/
def drive_frame : List Nat :=
  [0xb0, 1, 2, 3, 4, 5, 6, 7, 8, 9, 10, 0x44, 0x64, 0x00, 0x9c, 0xff]

/-- The branch of the main loop for the configuration reply with sequence number `seq`. -/
def config_handler : Nat → State → State × List Effect
  | 5 => handle_AI
  | 1 => handle_SL
  | 2 => handle_SH
  | 3 => handle_C0
  | 4 => handle_MY
  | _ => fun s => (s, [])

/-- The five configuration replies the main loop tests for: expected length, sequence
number and the two command letters (`AI`, `SL`, `SH`, `C0`, `MY`). -/
def config_replies : List (Int × Nat × Nat × Nat) :=
  [(6, 5, 0x41, 0x49), (9, 1, 0x53, 0x4c), (7, 2, 0x53, 0x48), (7, 3, 0x43, 0x30),
   (9, 4, 0x4d, 0x59)]

/-- A frame with the length and prefix of the serial-number-low reply and command
status 1 at offset 4. -/
def sl_error_frame : List Nat := [0x88, 0x01, 0x53, 0x4c, 0x01, 0xaa, 0xbb, 0xcc, 0xdd]

/-- Every frame handed to `xbee_send_api` has at most 31 bytes. -/
def frames_within (e : List Effect) : Prop :=
  ∀ f ∈ sent_frames e, f.length ≤ 31

/-- The frames handed to `xbee_send_api` whose first byte is the outbound marker `0x20`,
that is, the frames built by `set_tx_headers` for the peer. -/
def data_frames (e : List Effect) : List (List Nat) :=
  (sent_frames e).filter (fun f => f.get? 0 == some 0x20)

/-- Between two states no byte of the buffer from index 31 on has changed, and the cursor
`buffer_len` is either the same or between 23 and 31. -/
def tail_kept (s s1 : State) : Prop :=
  (∀ i, 31 ≤ i → s1.buffer i = s.buffer i) ∧
  (s1.buffer_len = s.buffer_len ∨ (23 ≤ s1.buffer_len ∧ s1.buffer_len ≤ 31))

/-- A state with the contents of the buffer blanked: what is left are the cursor, the
identity, the clock and the loop variables. -/
def forget_buffer (s : State) : State := { s with buffer := fun _ => 0 }
/-- What the rest of the program can observe of a step: whether it returns, its
effects, and the resulting state apart from the contents of the buffer. -/
def observable (r : Option (State × List Effect)) : Option (State × List Effect) :=
  r.map (fun x => (forget_buffer x.1, x.2))

/-- An iteration in which nothing is received, the button reads pressed (level 0) and the
hold detector reads the counter at 79999999 ticks (999 ms at 80 MHz). -/
def press_input : Input := { idle_input with button_level := false, cnt_hold := 79999999 }


/-! ## Lemmas: machine integers and the clock -/

theorem sub32_of_le {a b : Nat} (hb : b ≤ a) (ha : a < 2 ^ 32) : sub32 a b = a - b := by
  unfold sub32
  omega

theorem sub32_lt (a b : Nat) : sub32 a b < 2 ^ 32 := by
  unfold sub32
  exact Nat.mod_lt _ (by norm_num)

theorem advance_eq (clkfreq : Nat) :
    ∀ (k last_cnt time_ref : Nat), last_cnt < 2 ^ 32 → time_ref < 2 ^ 32 →
      advance clkfreq k last_cnt time_ref =
        ((last_cnt + k * clkfreq) % 2 ^ 32, (time_ref + 1000 * k) % 2 ^ 32) := by
  intro k
  induction k with
  | zero =>
    intro last_cnt time_ref h1 h2
    simp only [advance, Nat.zero_mul, Nat.mul_zero, Nat.add_zero, Nat.mod_eq_of_lt h1,
      Nat.mod_eq_of_lt h2]
  | succ k ih =>
    intro last_cnt time_ref h1 h2
    have hm : (k + 1) * clkfreq = k * clkfreq + clkfreq := Nat.succ_mul k clkfreq
    rw [advance, ih _ _ (Nat.mod_lt _ (by norm_num)) (Nat.mod_lt _ (by norm_num)), hm]
    generalize k * clkfreq = x
    refine Prod.ext ?_ ?_
    · show ((last_cnt + clkfreq) % 2 ^ 32 + x) % 2 ^ 32 = (last_cnt + (x + clkfreq)) % 2 ^ 32
      omega
    · show ((time_ref + 1000) % 2 ^ 32 + 1000 * k) % 2 ^ 32 = (time_ref + 1000 * (k + 1)) % 2 ^ 32
      omega

theorem get_time_loop_eq (clkfreq : Nat) (hc : 0 < clkfreq) :
    ∀ (fuel elapsed last_cnt time_ref n : Nat), elapsed < 2 ^ 32 → elapsed / clkfreq < fuel →
      get_time_loop clkfreq fuel elapsed last_cnt time_ref n =
        some (elapsed % clkfreq, (advance clkfreq (elapsed / clkfreq) last_cnt time_ref).1,
          (advance clkfreq (elapsed / clkfreq) last_cnt time_ref).2, n + elapsed / clkfreq) := by
  intro fuel
  induction fuel with
  | zero => intro elapsed last_cnt time_ref n _ h; exact absurd h (Nat.not_lt_zero _)
  | succ fuel ih =>
    intro elapsed last_cnt time_ref n he hf
    unfold get_time_loop
    by_cases hge : elapsed ≥ clkfreq
    · simp only [hge, if_true]
      have hsub : sub32 elapsed clkfreq = elapsed - clkfreq := sub32_of_le hge he
      have hdiv : elapsed / clkfreq = (elapsed - clkfreq) / clkfreq + 1 :=
        Nat.div_eq_sub_div hc hge
      have hmod : elapsed % clkfreq = (elapsed - clkfreq) % clkfreq := Nat.mod_eq_sub_mod hge
      rw [hsub, ih (elapsed - clkfreq) _ _ _ (by omega) (by omega), hdiv, hmod, advance,
        Nat.add_assoc, Nat.add_comm 1]
    · have hlt : elapsed < clkfreq := Nat.lt_of_not_ge hge
      simp only [hge, if_false, Nat.div_eq_of_lt hlt, Nat.mod_eq_of_lt hlt, advance, Nat.add_zero]

/-- With a tick frequency of at least 1000 Hz, `get_time` returns, and this is its value. -/
theorem get_time_eq (clkfreq cnt : Nat) (c : Clock) (hc : 1000 ≤ clkfreq) :
    get_time clkfreq cnt c =
      some (toInt32 (((advance clkfreq (sub32 cnt c.last_cnt / clkfreq) c.last_cnt c.time_ref).2 +
          sub32 cnt c.last_cnt % clkfreq / (clkfreq / 1000)) % 2 ^ 32),
        ⟨(advance clkfreq (sub32 cnt c.last_cnt / clkfreq) c.last_cnt c.time_ref).2,
         (advance clkfreq (sub32 cnt c.last_cnt / clkfreq) c.last_cnt c.time_ref).1⟩) := by
  have hpos : 0 < clkfreq := by omega
  have hlt := sub32_lt cnt c.last_cnt
  have hfuel : sub32 cnt c.last_cnt / clkfreq < 2 ^ 32 + 1 :=
    Nat.lt_of_le_of_lt (Nat.div_le_self _ _) (by omega)
  have hdiv : ¬ clkfreq / 1000 = 0 := by
    have : 1 ≤ clkfreq / 1000 := (Nat.le_div_iff_mul_le (by norm_num)).mpr (by omega)
    omega
  unfold get_time
  rw [get_time_loop_eq clkfreq hpos _ _ _ _ _ hlt hfuel]
  simp only [hdiv, if_false]

theorem get_time_some (clkfreq cnt : Nat) (c : Clock) (hc : 1000 ≤ clkfreq) :
    ∃ t c1, get_time clkfreq cnt c = some (t, c1) :=
  ⟨_, _, get_time_eq clkfreq cnt c hc⟩

theorem ofInt16_toInt16 (n : Nat) : ofInt16 (toInt16 n) = n % 2 ^ 16 := by
  unfold ofInt16 toInt16
  split <;> omega

theorem ofInt32_toInt32 (n : Nat) : ofInt32 (toInt32 n) = n % 2 ^ 32 := by
  unfold ofInt32 toInt32
  split <;> omega

theorem toInt32_mod (n : Nat) : toInt32 (n % 2 ^ 32) = toInt32 n := by
  unfold toInt32
  rw [Nat.mod_mod]

theorem le_bytes_two (v : Nat) : le_bytes 2 v = [v % 256, v / 256 % 256] := rfl

theorem le_bytes_four (v : Nat) :
    le_bytes 4 v = [v % 256, v / 256 % 256, v / 256 / 256 % 256, v / 256 / 256 / 256 % 256] := rfl

theorem le_value_le_bytes_four (v : Nat) : le_value (le_bytes 4 v) = v % 2 ^ 32 := by
  simp only [le_bytes_four, le_value]
  omega

theorem le_bytes_short (a b : Nat) (ha : a < 256) (hb : b < 256) :
    le_bytes 2 (ofInt16 (toInt16 (a + 256 * b))) = [a, b] := by
  rw [ofInt16_toInt16, le_bytes_two]
  congr 1
  · omega
  · congr 1; omega

/-! ## Lemmas: the frame codec -/

theorem bytes_at_zero (m : Mem) (off : Nat) : bytes_at m off 0 = [] := rfl

theorem bytes_at_succ (m : Mem) (off n : Nat) :
    bytes_at m off (n + 1) = bytes_at m off n ++ [m (off + n)] := by
  simp [bytes_at, List.range_succ]

theorem bytes_at_length (m : Mem) (off n : Nat) : (bytes_at m off n).length = n := by
  simp [bytes_at]

theorem tx_header_length (s : State) (t : Int) (cmd : Nat) : (tx_header s t cmd).length = 23 := rfl

theorem set_tx_headers_eq {clkfreq cnt : Nat} (cmd : Nat) {s : State} {t : Int} {c : Clock}
    (h : get_time clkfreq cnt s.clock = some (t, c)) :
    set_tx_headers clkfreq cnt cmd s = some (tx_state s t c cmd) := by
  unfold set_tx_headers tx_state
  rw [h]

theorem tx_state_bytes (s : State) (t : Int) (c : Clock) (cmd : Nat) :
    bytes_at (tx_state s t c cmd).buffer 0 23 = tx_header s t cmd := by
  simp [tx_state, tx_header, bytes_at_succ, bytes_at_zero, store, memcpy, le_bytes_four,
    server_addr, server_port]

theorem tx_state_rest (s : State) (t : Int) (c : Clock) (cmd i : Nat) (hi : 23 ≤ i) :
    (tx_state s t c cmd).buffer i = s.buffer i := by
  simp only [tx_state, store, memcpy, server_addr, server_port, bytes_at_length, le_bytes_four,
    List.length_cons, List.length_nil]
  repeat' split
  all_goals first | rfl | omega

theorem send_tx (s : State) (t : Int) (c : Clock) (cmd : Nat) :
    send_buffer (tx_state s t c cmd) = Effect.xbee_send_api (tx_header s t cmd) := by
  simp [send_buffer, tx_state, tx_header, bytes_at_succ, bytes_at_zero, store, memcpy,
    le_bytes_four, server_addr, server_port]

theorem send_tx_8 (s : State) (t : Int) (c : Clock) (cmd : Nat) (a : Int) :
    send_buffer (push_byte a (tx_state s t c cmd)) =
      Effect.xbee_send_api (tx_header s t cmd ++ [(a % 256).toNat % 256]) := by
  simp [send_buffer, push_byte, tx_state, tx_header, bytes_at_succ, bytes_at_zero, store, memcpy,
    le_bytes_four, server_addr, server_port]

theorem send_tx_8_8 (s : State) (t : Int) (c : Clock) (cmd : Nat) (a b : Int) :
    send_buffer (push_byte b (push_byte a (tx_state s t c cmd))) =
      Effect.xbee_send_api
        (tx_header s t cmd ++ [(a % 256).toNat % 256, (b % 256).toNat % 256]) := by
  simp [send_buffer, push_byte, tx_state, tx_header, bytes_at_succ, bytes_at_zero, store, memcpy,
    le_bytes_four, server_addr, server_port]

theorem send_tx_16 (s : State) (t : Int) (c : Clock) (cmd : Nat) (a : Int) :
    send_buffer (write_le16 a (tx_state s t c cmd)) =
      Effect.xbee_send_api (tx_header s t cmd ++ le_bytes 2 (ofInt16 a)) := by
  simp [send_buffer, write_le16, tx_state, tx_header, bytes_at_succ, bytes_at_zero, store,
    memcpy, le_bytes_four, le_bytes_two, server_addr, server_port]

theorem send_tx_16_8 (s : State) (t : Int) (c : Clock) (cmd : Nat) (a b : Int) :
    send_buffer (push_byte b (write_le16 a (tx_state s t c cmd))) =
      Effect.xbee_send_api
        (tx_header s t cmd ++ le_bytes 2 (ofInt16 a) ++ [(b % 256).toNat % 256]) := by
  simp [send_buffer, write_le16, push_byte, tx_state, tx_header, bytes_at_succ, bytes_at_zero,
    store, memcpy, le_bytes_four, le_bytes_two, server_addr, server_port]

theorem send_tx_16_16 (s : State) (t : Int) (c : Clock) (cmd : Nat) (a b : Int) :
    send_buffer (write_le16 b (write_le16 a (tx_state s t c cmd))) =
      Effect.xbee_send_api
        (tx_header s t cmd ++ le_bytes 2 (ofInt16 a) ++ le_bytes 2 (ofInt16 b)) := by
  simp [send_buffer, write_le16, tx_state, tx_header, bytes_at_succ, bytes_at_zero, store,
    memcpy, le_bytes_four, le_bytes_two, server_addr, server_port]

theorem send_tx_32_32 (s : State) (t : Int) (c : Clock) (cmd : Nat) (a b : Int) :
    send_buffer (write_le32 b (write_le32 a (tx_state s t c cmd))) =
      Effect.xbee_send_api
        (tx_header s t cmd ++ le_bytes 4 (ofInt32 a) ++ le_bytes 4 (ofInt32 b)) := by
  simp [send_buffer, write_le32, tx_state, tx_header, bytes_at_succ, bytes_at_zero, store,
    memcpy, le_bytes_four, server_addr, server_port]

/-! ## Lemmas: the branches of the main loop -/

theorem range_five : List.range 5 = [0, 1, 2, 3, 4] := rfl

theorem cmp_api_response_iff (s : State) (len : Int) (p0 p1 p2 p3 p4 : Nat) :
    cmp_api_response s len [p0, p1, p2, p3, p4] = true ↔
      s.buffer_len = len ∧ s.buffer 0 = p0 ∧ s.buffer 1 = p1 ∧ s.buffer 2 = p2 ∧
        s.buffer 3 = p3 ∧ s.buffer 4 = p4 := by
  unfold cmp_api_response
  rw [range_five]
  by_cases h : s.buffer_len = len
  · simp only [h, ne_eq, not_true_eq_false, if_false, List.all_cons, List.all_nil,
      List.getD_cons_zero, List.getD_cons_succ, Bool.and_true, Bool.and_eq_true, beq_iff_eq,
      true_and]
    constructor
    · rintro ⟨h0, h1, h2, h3, h4⟩
      exact ⟨h0.symm, h1.symm, h2.symm, h3.symm, h4.symm⟩
    · rintro ⟨h0, h1, h2, h3, h4⟩
      exact ⟨h0.symm, h1.symm, h2.symm, h3.symm, h4.symm⟩
  · simp [h]

theorem cmp_rx_headers_iff (s : State) (len : Int) (cmd : Nat) :
    cmp_rx_headers s len cmd = true ↔
      s.buffer_len = len ∧ s.buffer 0 = 0xb0 ∧ s.buffer 11 = cmd := by
  simp [cmp_rx_headers, and_assoc]

theorem dispatch_command (clkfreq : Nat) (inp : Input) (s : State) (code : Nat) (len : Int)
    (hcode : expected_length code = some len) (hrx : 0 ≤ s.buffer_len)
    (h0 : s.buffer 0 = 0xb0) (h11 : s.buffer 11 = code) :
    (s.buffer_len ≠ len → dispatch clkfreq inp s = some (s, [buffer_print s s.buffer_len])) ∧
    (s.buffer_len = len → dispatch clkfreq inp s = command_handler code clkfreq inp s) := by
  have hne : s.buffer_len ≠ -1 := by omega
  unfold expected_length at hcode
  split at hcode <;> simp only [Option.some.injEq, reduceCtorEq] at hcode
  all_goals
    subst hcode
    constructor
    · intro hlen
      simp [dispatch, cmp_api_response_iff, cmp_rx_headers_iff, h0, h11, hne, hlen, hrx]
    · intro hlen
      simp [dispatch, cmp_api_response_iff, cmp_rx_headers_iff, h0, h11, hne, hlen,
        command_handler]

theorem handle_B_eq {clkfreq : Nat} {inp : Input} {s : State} {t : Int} {c : Clock}
    (h : get_time clkfreq inp.cnt_dispatch s.clock = some (t, c)) :
    handle_B clkfreq inp s =
      some (write_le16 (read_short s.buffer 14)
          (write_le16 (read_short s.buffer 12) (tx_state s t c 0x42)),
        [Effect.freqout PIEZO_SPEAKER_PIN (read_short s.buffer 12) (read_short s.buffer 14),
         Effect.xbee_send_api (tx_header s t 0x42 ++
           le_bytes 2 (ofInt16 (read_short s.buffer 12)) ++
           le_bytes 2 (ofInt16 (read_short s.buffer 14)))]) := by
  unfold handle_B
  rw [set_tx_headers_eq _ h]
  simp only [send_tx_16_16]

theorem handle_G_eq {clkfreq : Nat} {inp : Input} {s : State} {t : Int} {c : Clock}
    (h : get_time clkfreq inp.cnt_dispatch s.clock = some (t, c)) :
    handle_G clkfreq inp s =
      some (push_byte (s.buffer 14 : Nat)
          (write_le16 (read_short s.buffer 12) (tx_state s t c 0x47)),
        [Effect.get_output 26, Effect.dac_ctr 26 0 (s.buffer 14 : Nat),
         Effect.freqout INFRA_LIGHT_PIN (read_short s.buffer 12) 38000, Effect.dac_ctr_stop,
         Effect.set_output 26 inp.output26,
         Effect.xbee_send_api (tx_header s t 0x47 ++
           le_bytes 2 (ofInt16 (read_short s.buffer 12)) ++
           [(((s.buffer 14 : Nat) : Int) % 256).toNat % 256])]) := by
  unfold handle_G
  rw [set_tx_headers_eq _ h]
  simp only [send_tx_16_8]

theorem handle_S_eq {clkfreq : Nat} {inp : Input} {s : State} {t : Int} {c : Clock}
    (h : get_time clkfreq inp.cnt_dispatch s.clock = some (t, c)) :
    handle_S clkfreq inp s =
      some (write_le16 (read_short s.buffer 14)
          (write_le16 (read_short s.buffer 12) (tx_state s t c 0x53)),
        [Effect.drive_speed (read_short s.buffer 12) (read_short s.buffer 14),
         Effect.xbee_send_api (tx_header s t 0x53 ++
           le_bytes 2 (ofInt16 (read_short s.buffer 12)) ++
           le_bytes 2 (ofInt16 (read_short s.buffer 14)))]) := by
  unfold handle_S
  rw [set_tx_headers_eq _ h]
  simp only [send_tx_16_16]

theorem handle_R_eq {clkfreq : Nat} {inp : Input} {s : State} {t : Int} {c : Clock}
    (h : get_time clkfreq inp.cnt_dispatch s.clock = some (t, c)) :
    handle_R clkfreq inp s =
      some (write_le16 inp.ping (tx_state s t c 0x52),
        [Effect.ping_cm PING_SENSOR_PIN,
         Effect.xbee_send_api (tx_header s t 0x52 ++ le_bytes 2 (ofInt16 inp.ping))]) := by
  unfold handle_R
  rw [set_tx_headers_eq _ h]
  simp only [send_tx_16]

theorem handle_T_eq {clkfreq : Nat} {inp : Input} {s : State} {t : Int} {c : Clock}
    (h : get_time clkfreq inp.cnt_dispatch s.clock = some (t, c)) :
    handle_T clkfreq inp s =
      some (write_le32 (-inp.ticks_right) (write_le32 inp.ticks_left (tx_state s t c 0x54)),
        [Effect.drive_getTicks,
         Effect.xbee_send_api (tx_header s t 0x54 ++ le_bytes 4 (ofInt32 inp.ticks_left) ++
           le_bytes 4 (ofInt32 (-inp.ticks_right)))]) := by
  unfold handle_T
  rw [set_tx_headers_eq _ h]
  simp only [send_tx_32_32]

theorem handle_D_eq {clkfreq : Nat} {inp : Input} {s : State} {t : Int} {c : Clock}
    (h : get_time clkfreq inp.cnt_dispatch s.clock = some (t, c)) :
    handle_D clkfreq inp s =
      some (write_le16 (read_short s.buffer 14)
          (write_le16 (read_short s.buffer 12) (tx_state s t c 0x44)),
        [Effect.xbee_send_api (tx_header s t 0x44 ++
           le_bytes 2 (ofInt16 (read_short s.buffer 12)) ++
           le_bytes 2 (ofInt16 (read_short s.buffer 14))),
         Effect.drive_goto (read_short s.buffer 12) (read_short s.buffer 14)]) := by
  unfold handle_D
  rw [set_tx_headers_eq _ h]
  simp only [send_tx_16_16]

theorem handle_L_eq {clkfreq : Nat} {inp : Input} {s : State} {t : Int} {c : Clock}
    (h : get_time clkfreq inp.cnt_dispatch s.clock = some (t, c)) :
    handle_L clkfreq inp s =
      some (push_byte (s.buffer 13 : Nat) (push_byte (s.buffer 12 : Nat) (tx_state s t c 0x4c)),
        [(if ((s.buffer 13 : Nat) : Int) = 0 then
            Effect.low (if ((s.buffer 12 : Nat) : Int) = 0 then LED_0_PIN else LED_1_PIN)
          else if ((s.buffer 13 : Nat) : Int) = 1 then
            Effect.high (if ((s.buffer 12 : Nat) : Int) = 0 then LED_0_PIN else LED_1_PIN)
          else Effect.toggle (if ((s.buffer 12 : Nat) : Int) = 0 then LED_0_PIN else LED_1_PIN)),
         Effect.xbee_send_api (tx_header s t 0x4c ++
           [(((s.buffer 12 : Nat) : Int) % 256).toNat % 256,
            (((s.buffer 13 : Nat) : Int) % 256).toNat % 256])]) := by
  unfold handle_L
  rw [set_tx_headers_eq _ h]
  simp only [send_tx_8_8]

theorem xbee_recv_buffer (inp : Input) (s : State) (i : Nat) (hi : i < inp.recv_data.length) :
    (xbee_recv inp s).buffer i = inp.recv_data.getD i 0 := by
  simp [xbee_recv, memcpy, hi]

theorem getD_lt_of_forall {l : List Nat} (h : ∀ b ∈ l, b < 256) (i : Nat) (hi : i < l.length) :
    l.getD i 0 < 256 := by
  rw [List.getD_eq_getElem l 0 hi]
  exact h _ (List.getElem_mem hi)

theorem drop_eq_getD_cons {l : List Nat} (i : Nat) (hi : i < l.length) :
    l.drop i = l.getD i 0 :: l.drop (i + 1) := by
  rw [List.getD_eq_getElem l 0 hi]
  exact List.drop_eq_getElem_cons hi

theorem byte_cast (b : Nat) (hb : b < 256) : (((b : Nat) : Int) % 256).toNat % 256 = b := by
  omega

theorem sent_frames_led (p q : Prop) [Decidable p] [Decidable q] (x : Nat) (f : List Nat) :
    sent_frames [if p then Effect.low x else if q then Effect.high x else Effect.toggle x,
      Effect.xbee_send_api f] = [f] := by
  split_ifs <;> rfl


/-! ## Claims -/

/-- C1: a received buffer (length at least 0) whose byte 0 is the inbound marker `0xb0` and
whose byte 11 is one of the command codes `B G S R T D L` is, when its length differs from
the length expected for that code, only logged: the dispatch step leaves the state as it
is and its only effect is `buffer_print`. With the exact length the dispatch step is the
handler of that code, and (for a tick frequency of at least 1000) that handler returns
having sent one frame, with the code at byte 22. -/
theorem wrong_length_not_dispatched (clkfreq : Nat) (inp : Input) (s : State) (code : Nat)
    (len : Int) (hcode : expected_length code = some len) (hrx : 0 ≤ s.buffer_len)
    (h0 : s.buffer 0 = 0xb0) (h11 : s.buffer 11 = code) :
    (s.buffer_len ≠ len → dispatch clkfreq inp s = some (s, [buffer_print s s.buffer_len])) ∧
    (s.buffer_len = len →
      dispatch clkfreq inp s = command_handler code clkfreq inp s ∧
      (1000 ≤ clkfreq → ∃ s1 e frame, dispatch clkfreq inp s = some (s1, e) ∧
        sent_frames e = [frame] ∧ frame.get? 22 = some code)) := by
  have hd := dispatch_command clkfreq inp s code len hcode hrx h0 h11
  refine ⟨hd.1, fun hlen => ⟨hd.2 hlen, fun hc => ?_⟩⟩
  obtain ⟨t, c, ht⟩ := get_time_some clkfreq inp.cnt_dispatch s.clock hc
  rw [hd.2 hlen]
  unfold expected_length at hcode
  split at hcode <;> simp only [Option.some.injEq, reduceCtorEq] at hcode
  · exact ⟨_, _, _, handle_B_eq ht, rfl, by simp [tx_header, le_bytes_four, le_bytes_two]⟩
  · exact ⟨_, _, _, handle_G_eq ht, rfl, by simp [tx_header, le_bytes_four, le_bytes_two]⟩
  · exact ⟨_, _, _, handle_S_eq ht, rfl, by simp [tx_header, le_bytes_four, le_bytes_two]⟩
  · exact ⟨_, _, _, handle_R_eq ht, rfl, by simp [tx_header, le_bytes_four, le_bytes_two]⟩
  · exact ⟨_, _, _, handle_T_eq ht, rfl, by simp [tx_header, le_bytes_four]⟩
  · exact ⟨_, _, _, handle_D_eq ht, rfl, by simp [tx_header, le_bytes_four, le_bytes_two]⟩
  · exact ⟨_, _, _, handle_L_eq ht, sent_frames_led _ _ _ _, by simp [tx_header, le_bytes_four]⟩

/-- C1 at a `B` frame cut to 15 bytes: it is logged and nothing else happens. -/
theorem wrong_length_not_dispatched_witness :
    dispatch clkfreq_80MHz (frame_input (beep_frame.take 15) 0)
        (xbee_recv (frame_input (beep_frame.take 15) 0) State.init) =
      some (xbee_recv (frame_input (beep_frame.take 15) 0) State.init,
        [buffer_print (xbee_recv (frame_input (beep_frame.take 15) 0) State.init) 15]) :=
  (wrong_length_not_dispatched clkfreq_80MHz (frame_input (beep_frame.take 15) 0)
    (xbee_recv (frame_input (beep_frame.take 15) 0) State.init) 0x42 16 rfl (by decide) rfl
    rfl).1 (by decide)

/-- C2: for every state (identity, local port, clock) and every received frame of bytes
that is accepted as `B`, `S`, `D` (16 bytes), `G` (15 bytes) or `L` (14 bytes), the dispatch
step returns having sent exactly one frame; that frame has 23 bytes of header plus 4, 4, 4,
3, 2 bytes of payload, carries the command code at byte 22, and its payload from byte 23 on
is the inbound payload from byte 12 on. Moreover a `short` read from two bytes and appended
with `write_le16` puts the same two bytes at the cursor. -/
theorem echo_reply (clkfreq : Nat) (inp : Input) (s : State) (code len n : Nat)
    (hcode : (code, len, n) ∈
      [(0x42, 16, 4), (0x53, 16, 4), (0x44, 16, 4), (0x47, 15, 3), (0x4c, 14, 2)])
    (hc : 1000 ≤ clkfreq)
    (hret : inp.recv_ret = (inp.recv_data.length : Int))
    (hlen : inp.recv_data.length = len)
    (hbytes : ∀ b ∈ inp.recv_data, b < 256)
    (h0 : inp.recv_data.getD 0 0 = 0xb0) (h11 : inp.recv_data.getD 11 0 = code) :
    (∃ s1 e frame, dispatch clkfreq inp (xbee_recv inp s) = some (s1, e) ∧
      sent_frames e = [frame] ∧ frame.length = 23 + n ∧ frame.get? 22 = some code ∧
      frame.drop 23 = inp.recv_data.drop 12) ∧
    (∀ (m : Mem) (off : Nat) (s2 : State), m off < 256 → m (off + 1) < 256 →
      bytes_at (write_le16 (read_short m off) s2).buffer s2.buffer_len.toNat 2 =
        [m off, m (off + 1)]) := by
  refine ⟨?_, fun m off s2 h1 h2 => by
    simp [write_le16, read_short, le_bytes_short _ _ h1 h2, bytes_at_succ, bytes_at_zero,
      memcpy]⟩
  obtain ⟨t, c, ht⟩ := get_time_some clkfreq inp.cnt_dispatch (xbee_recv inp s).clock hc
  have hbl : (xbee_recv inp s).buffer_len = (len : Int) := by
    rw [← hlen, ← hret]; rfl
  have hb : ∀ i, i < len → (xbee_recv inp s).buffer i = inp.recv_data.getD i 0 :=
    fun i hi => xbee_recv_buffer inp s i (by omega)
  have hlt : ∀ i, i < len → inp.recv_data.getD i 0 < 256 :=
    fun i hi => getD_lt_of_forall hbytes i (by omega)
  have hdrop : inp.recv_data.drop len = [] := by
    rw [← hlen]; exact List.drop_length _
  simp only [List.mem_cons, Prod.mk.injEq, List.mem_singleton, List.not_mem_nil, or_false] at hcode
  rcases hcode with ⟨rfl, rfl, rfl⟩ | ⟨rfl, rfl, rfl⟩ | ⟨rfl, rfl, rfl⟩ | ⟨rfl, rfl, rfl⟩ |
    ⟨rfl, rfl, rfl⟩
  · have hd := (dispatch_command clkfreq inp (xbee_recv inp s) 0x42 16 rfl (by omega)
      ((hb 0 (by omega)).trans h0) ((hb 11 (by omega)).trans h11)).2 hbl
    rw [hd]
    refine ⟨_, _, _, handle_B_eq ht, rfl, by simp [tx_header, le_bytes_four, le_bytes_two],
      by simp [tx_header, le_bytes_four, le_bytes_two], ?_⟩
    rw [drop_eq_getD_cons 12 (by omega), drop_eq_getD_cons 13 (by omega),
      drop_eq_getD_cons 14 (by omega), drop_eq_getD_cons 15 (by omega), hdrop]
    simp only [read_short, hb 12 (by omega), hb 13 (by omega), hb 14 (by omega),
      hb 15 (by omega)]
    rw [le_bytes_short _ _ (hlt 12 (by omega)) (hlt 13 (by omega)),
      le_bytes_short _ _ (hlt 14 (by omega)) (hlt 15 (by omega))]
    simp [tx_header, le_bytes_four]
  · have hd := (dispatch_command clkfreq inp (xbee_recv inp s) 0x53 16 rfl (by omega)
      ((hb 0 (by omega)).trans h0) ((hb 11 (by omega)).trans h11)).2 hbl
    rw [hd]
    refine ⟨_, _, _, handle_S_eq ht, rfl, by simp [tx_header, le_bytes_four, le_bytes_two],
      by simp [tx_header, le_bytes_four, le_bytes_two], ?_⟩
    rw [drop_eq_getD_cons 12 (by omega), drop_eq_getD_cons 13 (by omega),
      drop_eq_getD_cons 14 (by omega), drop_eq_getD_cons 15 (by omega), hdrop]
    simp only [read_short, hb 12 (by omega), hb 13 (by omega), hb 14 (by omega),
      hb 15 (by omega)]
    rw [le_bytes_short _ _ (hlt 12 (by omega)) (hlt 13 (by omega)),
      le_bytes_short _ _ (hlt 14 (by omega)) (hlt 15 (by omega))]
    simp [tx_header, le_bytes_four]
  · have hd := (dispatch_command clkfreq inp (xbee_recv inp s) 0x44 16 rfl (by omega)
      ((hb 0 (by omega)).trans h0) ((hb 11 (by omega)).trans h11)).2 hbl
    rw [hd]
    refine ⟨_, _, _, handle_D_eq ht, rfl, by simp [tx_header, le_bytes_four, le_bytes_two],
      by simp [tx_header, le_bytes_four, le_bytes_two], ?_⟩
    rw [drop_eq_getD_cons 12 (by omega), drop_eq_getD_cons 13 (by omega),
      drop_eq_getD_cons 14 (by omega), drop_eq_getD_cons 15 (by omega), hdrop]
    simp only [read_short, hb 12 (by omega), hb 13 (by omega), hb 14 (by omega),
      hb 15 (by omega)]
    rw [le_bytes_short _ _ (hlt 12 (by omega)) (hlt 13 (by omega)),
      le_bytes_short _ _ (hlt 14 (by omega)) (hlt 15 (by omega))]
    simp [tx_header, le_bytes_four]
  · have hd := (dispatch_command clkfreq inp (xbee_recv inp s) 0x47 15 rfl (by omega)
      ((hb 0 (by omega)).trans h0) ((hb 11 (by omega)).trans h11)).2 hbl
    rw [hd]
    refine ⟨_, _, _, handle_G_eq ht, rfl, by simp [tx_header, le_bytes_four, le_bytes_two],
      by simp [tx_header, le_bytes_four, le_bytes_two], ?_⟩
    rw [drop_eq_getD_cons 12 (by omega), drop_eq_getD_cons 13 (by omega),
      drop_eq_getD_cons 14 (by omega), hdrop]
    simp only [read_short, hb 12 (by omega), hb 13 (by omega), hb 14 (by omega)]
    rw [le_bytes_short _ _ (hlt 12 (by omega)) (hlt 13 (by omega)),
      byte_cast _ (hlt 14 (by omega))]
    simp [tx_header, le_bytes_four]
  · have hd := (dispatch_command clkfreq inp (xbee_recv inp s) 0x4c 14 rfl (by omega)
      ((hb 0 (by omega)).trans h0) ((hb 11 (by omega)).trans h11)).2 hbl
    rw [hd]
    refine ⟨_, _, _, handle_L_eq ht, sent_frames_led _ _ _ _, by simp [tx_header, le_bytes_four],
      by simp [tx_header, le_bytes_four], ?_⟩
    rw [drop_eq_getD_cons 12 (by omega), drop_eq_getD_cons 13 (by omega), hdrop]
    simp only [hb 12 (by omega), hb 13 (by omega)]
    rw [byte_cast _ (hlt 12 (by omega)), byte_cast _ (hlt 13 (by omega))]
    simp [tx_header, le_bytes_four]

/-- C2 at the `B` frame with duration 500 and tone 440, from the initial state. -/
theorem echo_reply_witness :
    (∃ s1 e frame, dispatch clkfreq_80MHz (frame_input beep_frame 160000)
        (xbee_recv (frame_input beep_frame 160000) State.init) = some (s1, e) ∧
      sent_frames e = [frame] ∧ frame.length = 23 + 4 ∧ frame.get? 22 = some 0x42 ∧
      frame.drop 23 = beep_frame.drop 12) :=
  (echo_reply clkfreq_80MHz (frame_input beep_frame 160000) State.init 0x42 16 4 (by decide)
    (by decide) rfl rfl (by decide) rfl rfl).1

/-- C3: for every command byte `cmd` and every prior state, with a tick frequency of at
least 1000, `set_tx_headers(cmd)` returns; afterwards `buffer_len` is 23, the first 23
bytes of the buffer are the marker `0x20`, the version `0x10`, the peer address
`52 73 65 98`, the peer port `07 b5`, the two bytes of `ip4_port`, two zero bytes, the six
bytes of `mac_addr`, the value `t` returned by `get_time` as four little-endian bytes
(which read back as `t`), and `cmd`; every byte from index 23 on is unchanged. -/
theorem set_tx_headers_layout (clkfreq cnt cmd : Nat) (s : State) (hc : 1000 ≤ clkfreq)
    (hcmd : cmd < 256) :
    ∃ t c s1, get_time clkfreq cnt s.clock = some (t, c) ∧
      set_tx_headers clkfreq cnt cmd s = some s1 ∧ s1.buffer_len = 23 ∧
      bytes_at s1.buffer 0 23 =
        [0x20, 0x10, 52, 73, 65, 98, 0x07, 0xb5, s.ip4_port 0, s.ip4_port 1, 0, 0,
         s.mac_addr 0, s.mac_addr 1, s.mac_addr 2, s.mac_addr 3, s.mac_addr 4, s.mac_addr 5] ++
        le_bytes 4 (ofInt32 t) ++ [cmd] ∧
      bytes_at s1.buffer 18 4 = le_bytes 4 (ofInt32 t) ∧
      toInt32 (le_value (bytes_at s1.buffer 18 4)) = t ∧
      (∀ i, 23 ≤ i → s1.buffer i = s.buffer i) := by
  have ht := get_time_eq clkfreq cnt s.clock hc
  have h18 : ∀ t c, bytes_at (tx_state s t c cmd).buffer 18 4 = le_bytes 4 (ofInt32 t) := by
    intro t c
    simp [tx_state, bytes_at_succ, bytes_at_zero, store, memcpy, le_bytes_four]
  refine ⟨_, _, _, ht, set_tx_headers_eq cmd ht, rfl, ?_, h18 _ _, ?_,
    fun i hi => tx_state_rest s _ _ cmd i hi⟩
  · rw [tx_state_bytes, tx_header, Nat.mod_eq_of_lt hcmd]
  · rw [h18, le_value_le_bytes_four, ofInt32_toInt32, Nat.mod_mod, Nat.mod_mod, toInt32_mod]

/-- C3 at the heartbeat code `I`, from the initial state, 160000 ticks after start. -/
theorem set_tx_headers_layout_witness :
    ∃ t c s1, get_time clkfreq_80MHz 160000 State.init.clock = some (t, c) ∧
      set_tx_headers clkfreq_80MHz 160000 0x49 State.init = some s1 ∧ s1.buffer_len = 23 ∧
      bytes_at s1.buffer 0 23 =
        [0x20, 0x10, 52, 73, 65, 98, 0x07, 0xb5, State.init.ip4_port 0, State.init.ip4_port 1,
         0, 0, State.init.mac_addr 0, State.init.mac_addr 1, State.init.mac_addr 2,
         State.init.mac_addr 3, State.init.mac_addr 4, State.init.mac_addr 5] ++
        le_bytes 4 (ofInt32 t) ++ [0x49] ∧
      bytes_at s1.buffer 18 4 = le_bytes 4 (ofInt32 t) ∧
      toInt32 (le_value (bytes_at s1.buffer 18 4)) = t ∧
      (∀ i, 23 ≤ i → s1.buffer i = State.init.buffer i) :=
  set_tx_headers_layout clkfreq_80MHz 160000 0x49 State.init (by decide) (by decide)

/-! ## Lemmas: the value of the clock -/

theorem ms_split (m t : Nat) :
    1000 * (t / (1000 * m)) + t % (1000 * m) / m = t / m := by
  have h1 : t / (1000 * m) = t / m / 1000 := by
    rw [Nat.mul_comm, Nat.div_div_eq_div_mul]
  have h2 : t % (1000 * m) / m = t / m % 1000 := by
    rw [Nat.mul_comm 1000 m, Nat.mod_mul_right_div_self]
  rw [h1, h2]
  omega

theorem get_time_at (m p t : Nat) (hm : 0 < m) (hpt : p ≤ t)
    (hw : t - 1000 * m * (p / (1000 * m)) < 2 ^ 32) :
    get_time (1000 * m) (t % 2 ^ 32) (clock_at (1000 * m) p) =
      some (toInt32 (t / m), clock_at (1000 * m) t) := by
  have hc : 0 < 1000 * m := by omega
  have hL : 1000 * m * (p / (1000 * m)) ≤ t :=
    Nat.le_trans (Nat.mul_div_le p (1000 * m)) hpt
  have hsub : sub32 (t % 2 ^ 32) (clock_at (1000 * m) p).last_cnt =
      t - 1000 * m * (p / (1000 * m)) := by
    simp only [clock_at, sub32]
    generalize 1000 * m * (p / (1000 * m)) = L at hL hw ⊢
    omega
  have hk : (t - 1000 * m * (p / (1000 * m))) / (1000 * m) = t / (1000 * m) - p / (1000 * m) :=
    Nat.sub_mul_div _ _ _ hL
  have hr : (t - 1000 * m * (p / (1000 * m))) % (1000 * m) = t % (1000 * m) :=
    Nat.sub_mul_mod hL
  have hpq : p / (1000 * m) ≤ t / (1000 * m) := Nat.div_le_div_right hpt
  have hlc : (clock_at (1000 * m) p).last_cnt < 2 ^ 32 := Nat.mod_lt _ (by norm_num)
  have htr : (clock_at (1000 * m) p).time_ref < 2 ^ 32 := Nat.mod_lt _ (by norm_num)
  rw [get_time_eq _ _ _ (by omega), hsub, hk, hr, advance_eq _ _ _ _ hlc htr]
  simp only [clock_at]
  have hdm : 1000 * m / 1000 = m := Nat.mul_div_cancel_left m (by norm_num)
  have hms := ms_split m t
  have hmul : (t / (1000 * m) - p / (1000 * m)) * (1000 * m) =
      1000 * m * (t / (1000 * m)) - 1000 * m * (p / (1000 * m)) := by
    rw [Nat.mul_comm, Nat.mul_sub]
  have hple : 1000 * m * (p / (1000 * m)) ≤ 1000 * m * (t / (1000 * m)) :=
    Nat.mul_le_mul_left _ hpq
  rw [hdm, hmul]
  generalize p / (1000 * m) = P at *
  generalize t / (1000 * m) = Q at *
  generalize 1000 * m * P = LP at *
  generalize 1000 * m * Q = LQ at *
  generalize t % (1000 * m) / m = R at *
  congr 1
  refine Prod.ext ?_ ?_
  · show toInt32 _ = toInt32 _
    rw [← hms, ← toInt32_mod (1000 * Q + R)]
    congr 1
    omega
  · show Clock.mk _ _ = Clock.mk _ _
    congr 1 <;> omega

theorem clock_at_zero (clkfreq : Nat) : clock_at clkfreq 0 = ⟨0, 0⟩ := by
  simp [clock_at]

theorem get_time_calls_eq (m : Nat) (hm : 0 < m) :
    ∀ (ticks : List Nat) (p : Nat), calls_in_time (1000 * m) p ticks →
      get_time_calls (1000 * m) (ticks.map (fun t => t % 2 ^ 32)) (clock_at (1000 * m) p) =
        some (ticks.map (fun t => toInt32 (t / m))) := by
  intro ticks
  induction ticks with
  | nil => intro p _; rfl
  | cons t rest ih =>
    intro p h
    obtain ⟨hpt, hw, hrest⟩ := h
    simp only [List.map_cons, get_time_calls]
    rw [get_time_at m p t hm hpt hw]
    simp only [ih t hrest]

theorem toInt32_of_lt {n : Nat} (h : n < 2 ^ 31) : toInt32 n = (n : Int) := by
  unfold toInt32
  have h1 : n % 2 ^ 32 = n := Nat.mod_eq_of_lt (by omega)
  rw [h1, if_pos h]

theorem chain_ms (m : Nat) :
    ∀ (ticks : List Nat) (p : Nat), calls_in_time (1000 * m) p ticks → p / m < 2 ^ 31 →
      (∀ t ∈ ticks, t / m < 2 ^ 31) →
      List.Chain (fun a b : Int => a ≤ b) (toInt32 (p / m))
        (ticks.map (fun t => toInt32 (t / m))) := by
  intro ticks
  induction ticks with
  | nil => intro p _ _ _; exact List.Chain.nil
  | cons t rest ih =>
    intro p h hp hr
    obtain ⟨hpt, _, hrest⟩ := h
    have ht : t / m < 2 ^ 31 := hr t (List.mem_cons_self t rest)
    refine List.Chain.cons ?_ (ih t hrest ht (fun x hx => hr x (List.mem_cons_of_mem t hx)))
    show toInt32 (p / m) ≤ toInt32 (t / m)
    rw [toInt32_of_lt hp, toInt32_of_lt ht]
    exact Int.ofNat_le.mpr (Nat.div_le_div_right hpt)


/-- C4, as amended: let `CLKFREQ` be `1000 * m` with `m > 0`, let `get_time` be called at
the true tick totals `ticks` (counted from the zero of the counter, so the counter reads
`t % 2^32`), in order and each before `CNT - last_cnt` would wrap past `2^32` ticks, and
let the elapsed time stay below `2^31` ms. Then every call returns, and each value is at
least the value of the call before, also when the counter itself wraps between calls. -/
theorem get_time_monotone (m : Nat) (ticks : List Nat) (hm : 0 < m)
    (hcalls : calls_in_time (1000 * m) 0 ticks) (hrange : ∀ t ∈ ticks, t / m < 2 ^ 31) :
    ∃ ts, get_time_calls (1000 * m) (ticks.map (fun t => t % 2 ^ 32)) State.init.clock =
        some ts ∧
      ts.length = ticks.length ∧ List.Chain' (fun a b : Int => a ≤ b) ts := by
  have h := get_time_calls_eq m hm ticks 0 hcalls
  rw [clock_at_zero] at h
  refine ⟨_, h, by simp, ?_⟩
  have hc := chain_ms m ticks 0 hcalls (by simp) hrange
  exact (List.chain'_cons'.mp hc).2

/-- C4 amended, at 80 MHz with calls after 79999999, 160000000 and `2^32 + 5` ticks: the
counter wraps before the third call (it reads 5) and the values do not decrease. -/
theorem get_time_monotone_witness :
    ∃ ts, get_time_calls (1000 * 80000)
        ([79999999, 160000000, 2 ^ 32 + 5].map (fun t => t % 2 ^ 32)) State.init.clock =
        some ts ∧
      ts.length = [79999999, 160000000, 2 ^ 32 + 5].length ∧
      List.Chain' (fun a b : Int => a ≤ b) ts :=
  get_time_monotone 80000 [79999999, 160000000, 2 ^ 32 + 5] (by decide)
    (by simp [calls_in_time]) (by decide)

/-- C4 as stated fails: at 80 MHz, from the initial clock, a call that reads the counter
at 79999999 returns 999 and a later call that reads it at 0 (the counter has wrapped, and
`last_cnt` is still 0) returns 0. -/
theorem get_time_not_monotone :
    get_time_calls clkfreq_80MHz [79999999, 0] State.init.clock = some [999, 0] ∧
      ¬ List.Chain' (fun a b : Int => a ≤ b) [999, 0] := by
  constructor
  · decide
  · simp

/-! ## Lemmas: the heartbeat counter -/

theorem sent_frames_append (a b : List Effect) :
    sent_frames (a ++ b) = sent_frames a ++ sent_frames b := by
  induction a with
  | nil => rfl
  | cons x xs ih => cases x <;> simp [sent_frames, ih]

theorem liveness_sent_append (a b : List Effect) :
    liveness_sent (a ++ b) = (liveness_sent a || liveness_sent b) := by
  unfold liveness_sent
  rw [sent_frames_append, List.any_append]

theorem handle_AI_fst (s : State) : (handle_AI s).1 = s := by
  unfold handle_AI
  split <;> rfl

theorem handle_AI_liveness (s : State) : liveness_sent (handle_AI s).2 = false := by
  unfold handle_AI
  split <;> rfl

theorem handle_timeout_eq {clkfreq : Nat} {inp : Input} {s : State} {t : Int} {c : Clock}
    (h : get_time clkfreq inp.cnt_dispatch s.clock = some (t, c)) :
    handle_timeout clkfreq inp s =
      if s.slower + 1 ≥ (100 : Int) then
        some (tx_state { s with slower := 0 } t c 0x49,
          [Effect.xbee_send_api [0x08, 0x04, 0x4d, 0x59],
           Effect.xbee_send_api (tx_header s t 0x49)])
      else some ({ s with slower := s.slower + 1 }, []) := by
  unfold handle_timeout
  simp only []
  split
  · rw [set_tx_headers_eq (s := { s with slower := 0 }) 0x49 h]
    simp only [send_tx]
    rfl
  · rfl

/-- The `if ... else if ...` chain takes the timeout branch exactly when `buffer_len` is
`-1`, and otherwise one of the other fourteen branches. -/
theorem dispatch_cases (clkfreq : Nat) (inp : Input) (s : State) :
    (s.buffer_len = -1 ∧ dispatch clkfreq inp s = handle_timeout clkfreq inp s) ∨
    (s.buffer_len ≠ -1 ∧
      (dispatch clkfreq inp s = some (handle_AI s) ∨
       dispatch clkfreq inp s = some (handle_SL s) ∨
       dispatch clkfreq inp s = some (handle_SH s) ∨
       dispatch clkfreq inp s = some (handle_C0 s) ∨
       dispatch clkfreq inp s = some (handle_MY s) ∨
       dispatch clkfreq inp s = handle_B clkfreq inp s ∨
       dispatch clkfreq inp s = handle_G clkfreq inp s ∨
       dispatch clkfreq inp s = handle_S clkfreq inp s ∨
       dispatch clkfreq inp s = handle_R clkfreq inp s ∨
       dispatch clkfreq inp s = handle_T clkfreq inp s ∨
       dispatch clkfreq inp s = handle_D clkfreq inp s ∨
       dispatch clkfreq inp s = handle_L clkfreq inp s ∨
       dispatch clkfreq inp s = some (s, [buffer_print s s.buffer_len]) ∨
       dispatch clkfreq inp s = some (s, []))) := by
  by_cases h1 : s.buffer_len = -1
  · exact Or.inl ⟨h1, by simp only [dispatch, h1, if_true]⟩
  refine Or.inr ⟨h1, ?_⟩
  by_cases h2 : cmp_api_response s 6 [0x88, 0x05, 0x41, 0x49, 0x00] = true
  · refine Or.inl ?_
    simp only [dispatch, h1, h2, if_true, if_false, Bool.false_eq_true]
  by_cases h3 : cmp_api_response s 9 [0x88, 0x01, 0x53, 0x4c, 0x00] = true
  · refine Or.inr (Or.inl ?_)
    simp only [dispatch, h1, h2, h3, if_true, if_false, Bool.false_eq_true]
  by_cases h4 : cmp_api_response s 7 [0x88, 0x02, 0x53, 0x48, 0x00] = true
  · refine Or.inr (Or.inr (Or.inl ?_))
    simp only [dispatch, h1, h2, h3, h4, if_true, if_false, Bool.false_eq_true]
  by_cases h5 : cmp_api_response s 7 [0x88, 0x03, 0x43, 0x30, 0x00] = true
  · refine Or.inr (Or.inr (Or.inr (Or.inl ?_)))
    simp only [dispatch, h1, h2, h3, h4, h5, if_true, if_false, Bool.false_eq_true]
  by_cases h6 : cmp_api_response s 9 [0x88, 0x04, 0x4d, 0x59, 0x00] = true
  · refine Or.inr (Or.inr (Or.inr (Or.inr (Or.inl ?_))))
    simp only [dispatch, h1, h2, h3, h4, h5, h6, if_true, if_false, Bool.false_eq_true]
  by_cases h7 : cmp_rx_headers s 16 0x42 = true
  · refine Or.inr (Or.inr (Or.inr (Or.inr (Or.inr (Or.inl ?_)))))
    simp only [dispatch, h1, h2, h3, h4, h5, h6, h7, if_true, if_false, Bool.false_eq_true]
  by_cases h8 : cmp_rx_headers s 15 0x47 = true
  · refine Or.inr (Or.inr (Or.inr (Or.inr (Or.inr (Or.inr (Or.inl ?_))))))
    simp only [dispatch, h1, h2, h3, h4, h5, h6, h7, h8, if_true, if_false, Bool.false_eq_true]
  by_cases h9 : cmp_rx_headers s 16 0x53 = true
  · refine Or.inr (Or.inr (Or.inr (Or.inr (Or.inr (Or.inr (Or.inr (Or.inl ?_)))))))
    simp only [dispatch, h1, h2, h3, h4, h5, h6, h7, h8, h9, if_true, if_false, Bool.false_eq_true]
  by_cases h10 : cmp_rx_headers s 12 0x52 = true
  · refine Or.inr (Or.inr (Or.inr (Or.inr (Or.inr (Or.inr (Or.inr (Or.inr (Or.inl ?_))))))))
    simp only [dispatch, h1, h2, h3, h4, h5, h6, h7, h8, h9, h10, if_true, if_false, Bool.false_eq_true]
  by_cases h11 : cmp_rx_headers s 12 0x54 = true
  · refine Or.inr (Or.inr (Or.inr (Or.inr (Or.inr (Or.inr (Or.inr (Or.inr (Or.inr (Or.inl ?_)))))))))
    simp only [dispatch, h1, h2, h3, h4, h5, h6, h7, h8, h9, h10, h11, if_true, if_false, Bool.false_eq_true]
  by_cases h12 : cmp_rx_headers s 16 0x44 = true
  · refine Or.inr (Or.inr (Or.inr (Or.inr (Or.inr (Or.inr (Or.inr (Or.inr (Or.inr (Or.inr (Or.inl ?_))))))))))
    simp only [dispatch, h1, h2, h3, h4, h5, h6, h7, h8, h9, h10, h11, h12, if_true, if_false, Bool.false_eq_true]
  by_cases h13 : cmp_rx_headers s 14 0x4c = true
  · refine Or.inr (Or.inr (Or.inr (Or.inr (Or.inr (Or.inr (Or.inr (Or.inr (Or.inr (Or.inr (Or.inr (Or.inl ?_)))))))))))
    simp only [dispatch, h1, h2, h3, h4, h5, h6, h7, h8, h9, h10, h11, h12, h13, if_true, if_false, Bool.false_eq_true]
  by_cases h14 : s.buffer_len ≥ (0 : Int)
  · refine Or.inr (Or.inr (Or.inr (Or.inr (Or.inr (Or.inr (Or.inr (Or.inr (Or.inr (Or.inr (Or.inr (Or.inr (Or.inl ?_))))))))))))
    simp only [dispatch, h1, h2, h3, h4, h5, h6, h7, h8, h9, h10, h11, h12, h13, h14, if_true, if_false, Bool.false_eq_true]
  refine Or.inr (Or.inr (Or.inr (Or.inr (Or.inr (Or.inr (Or.inr (Or.inr (Or.inr (Or.inr (Or.inr (Or.inr (Or.inr (?_)))))))))))))
  simp only [dispatch, h1, h2, h3, h4, h5, h6, h7, h8, h9, h10, h11, h12, h13, h14, if_true, if_false, Bool.false_eq_true]

theorem dispatch_spec (clkfreq : Nat) (inp : Input) (s : State) (hc : 1000 ≤ clkfreq) :
    ∃ s1 e, dispatch clkfreq inp s = some (s1, e) ∧ same_sensor_vars s s1 ∧
      (s.buffer_len = -1 →
        s1.slower = (if s.slower + 1 ≥ (100 : Int) then 0 else s.slower + 1) ∧
        (liveness_sent e = true ↔ s.slower + 1 ≥ (100 : Int))) ∧
      (s.buffer_len ≠ -1 → s1.slower = s.slower ∧ liveness_sent e = false) := by
  obtain ⟨t, c, ht⟩ := get_time_some clkfreq inp.cnt_dispatch s.clock hc
  rcases dispatch_cases clkfreq inp s with ⟨h1, hd⟩ | ⟨h1, hd⟩
  · rw [hd, handle_timeout_eq ht]
    split_ifs with h
    · exact ⟨_, _, rfl, ⟨rfl, rfl, rfl, rfl, rfl, rfl, rfl, rfl, rfl⟩, fun _ => ⟨rfl, by simp [liveness_sent, sent_frames, tx_header, le_bytes_four, h]⟩, fun h => absurd h1 h⟩
    · exact ⟨_, _, rfl, ⟨rfl, rfl, rfl, rfl, rfl, rfl, rfl, rfl, rfl⟩, fun _ => ⟨rfl, by simp [liveness_sent, sent_frames, h]⟩, fun h => absurd h1 h⟩
  · rcases hd with hd | hd | hd | hd | hd | hd | hd | hd | hd | hd | hd | hd | hd | hd <;> rw [hd]
    · exact ⟨(handle_AI s).1, (handle_AI s).2, rfl, by rw [handle_AI_fst]; exact ⟨rfl, rfl, rfl, rfl, rfl, rfl, rfl, rfl, rfl⟩, fun h => absurd h h1,
        fun _ => ⟨by rw [handle_AI_fst], handle_AI_liveness s⟩⟩
    · exact ⟨_, _, rfl, ⟨rfl, rfl, rfl, rfl, rfl, rfl, rfl, rfl, rfl⟩, fun h => absurd h h1, fun _ => ⟨rfl, rfl⟩⟩
    · exact ⟨_, _, rfl, ⟨rfl, rfl, rfl, rfl, rfl, rfl, rfl, rfl, rfl⟩, fun h => absurd h h1, fun _ => ⟨rfl, rfl⟩⟩
    · exact ⟨_, _, rfl, ⟨rfl, rfl, rfl, rfl, rfl, rfl, rfl, rfl, rfl⟩, fun h => absurd h h1, fun _ => ⟨rfl, rfl⟩⟩
    · exact ⟨_, _, rfl, ⟨rfl, rfl, rfl, rfl, rfl, rfl, rfl, rfl, rfl⟩, fun h => absurd h h1, fun _ => ⟨rfl, rfl⟩⟩
    · exact ⟨_, _, handle_B_eq ht, ⟨rfl, rfl, rfl, rfl, rfl, rfl, rfl, rfl, rfl⟩, fun h => absurd h h1, fun _ => ⟨rfl, by simp [liveness_sent, sent_frames, tx_header, le_bytes_four, le_bytes_two]⟩⟩
    · exact ⟨_, _, handle_G_eq ht, ⟨rfl, rfl, rfl, rfl, rfl, rfl, rfl, rfl, rfl⟩, fun h => absurd h h1, fun _ => ⟨rfl, by simp [liveness_sent, sent_frames, tx_header, le_bytes_four, le_bytes_two]⟩⟩
    · exact ⟨_, _, handle_S_eq ht, ⟨rfl, rfl, rfl, rfl, rfl, rfl, rfl, rfl, rfl⟩, fun h => absurd h h1, fun _ => ⟨rfl, by simp [liveness_sent, sent_frames, tx_header, le_bytes_four, le_bytes_two]⟩⟩
    · exact ⟨_, _, handle_R_eq ht, ⟨rfl, rfl, rfl, rfl, rfl, rfl, rfl, rfl, rfl⟩, fun h => absurd h h1, fun _ => ⟨rfl, by simp [liveness_sent, sent_frames, tx_header, le_bytes_four, le_bytes_two]⟩⟩
    · exact ⟨_, _, handle_T_eq ht, ⟨rfl, rfl, rfl, rfl, rfl, rfl, rfl, rfl, rfl⟩, fun h => absurd h h1, fun _ => ⟨rfl, by simp [liveness_sent, sent_frames, tx_header, le_bytes_four, le_bytes_two]⟩⟩
    · exact ⟨_, _, handle_D_eq ht, ⟨rfl, rfl, rfl, rfl, rfl, rfl, rfl, rfl, rfl⟩, fun h => absurd h h1, fun _ => ⟨rfl, by simp [liveness_sent, sent_frames, tx_header, le_bytes_four, le_bytes_two]⟩⟩
    · refine ⟨_, _, handle_L_eq ht, ⟨rfl, rfl, rfl, rfl, rfl, rfl, rfl, rfl, rfl⟩, fun h => absurd h h1, fun _ => ⟨rfl, ?_⟩⟩
      simp [liveness_sent, sent_frames_led, tx_header, le_bytes_four]
    · exact ⟨_, _, rfl, ⟨rfl, rfl, rfl, rfl, rfl, rfl, rfl, rfl, rfl⟩, fun h => absurd h h1, fun _ => ⟨rfl, rfl⟩⟩
    · exact ⟨_, _, rfl, ⟨rfl, rfl, rfl, rfl, rfl, rfl, rfl, rfl, rfl⟩, fun h => absurd h h1, fun _ => ⟨rfl, rfl⟩⟩


/-! ## Lemmas: the sensor blocks and the button detector -/

theorem send_event_eq {clkfreq cnt : Nat} (code : Nat) (v : Int) {s : State} {t : Int}
    {c : Clock} (h : get_time clkfreq cnt s.clock = some (t, c)) :
    send_event clkfreq cnt code v s =
      some (push_byte v (tx_state s t c code),
        [Effect.xbee_send_api (tx_header s t code ++ [(v % 256).toNat % 256])]) := by
  unfold send_event
  rw [set_tx_headers_eq _ h]
  simp only [send_tx_8]

theorem input_le_one (b : Bool) : input b ≤ 1 := by
  cases b <;> simp [input]

theorem whiskers_value_byte (inp : Input) :
    ((whiskers_value inp % 256).toNat % 256 : Nat) = (whiskers_value inp).toNat ∧
      0 ≤ whiskers_value inp ∧ whiskers_value inp ≤ 3 := by
  unfold whiskers_value
  cases inp.whiskers_left <;> cases inp.whiskers_right <;> simp [input]

theorem infrared_value_byte (inp : Input) :
    ((infrared_value inp % 256).toNat % 256 : Nat) = (infrared_value inp).toNat ∧
      0 ≤ infrared_value inp ∧ infrared_value inp ≤ 3 := by
  unfold infrared_value
  cases inp.infra_left <;> cases inp.infra_right <;> simp [input]

theorem check_whiskers_spec (clkfreq : Nat) (inp : Input) (s : State) (hc : 1000 ≤ clkfreq) :
    ∃ s1 e, check_whiskers clkfreq inp s = some (s1, e) ∧
      same_link_vars s s1 ∧ same_sensor_vars { s with whiskers := whiskers_value inp } s1 ∧
      event_frames (s.whiskers ≠ whiskers_value inp) 0x57 (whiskers_value inp).toNat e ∧
      liveness_sent e = false := by
  obtain ⟨t, c, ht⟩ := get_time_some clkfreq inp.cnt_whiskers s.clock hc
  unfold check_whiskers
  by_cases h : s.whiskers ≠ whiskers_value inp
  · rw [if_pos h, send_event_eq (s := { s with whiskers := whiskers_value inp }) _ _ ht]
    refine ⟨_, _, rfl, ⟨rfl, rfl, rfl, rfl⟩, ⟨rfl, rfl, rfl, rfl, rfl, rfl, rfl, rfl, rfl⟩,
      ⟨fun hn => absurd h hn, fun _ => ⟨_, rfl, ?_, ?_, ?_⟩⟩, ?_⟩
    · simp [tx_header, le_bytes_four]
    · simp [tx_header, le_bytes_four]
    · simp [tx_header, le_bytes_four, (whiskers_value_byte inp).1]
    · simp [liveness_sent, sent_frames, tx_header, le_bytes_four]
  · rw [if_neg h]
    exact ⟨s, [], rfl, ⟨rfl, rfl, rfl, rfl⟩,
      ⟨not_not.mp h, rfl, rfl, rfl, rfl, rfl, rfl, rfl, rfl⟩,
      ⟨fun _ => rfl, fun hn => absurd hn h⟩, rfl⟩


theorem button_value_byte (b : Bool) :
    toInt32 (input b) = (input b : Int) ∧
      ((toInt32 (input b) % 256).toNat % 256 : Nat) = input b := by
  cases b <;> simp [input, toInt32]

theorem ofInt32_eq_input (i : Int) (b : Bool) (h1 : -2 ^ 31 ≤ i) (h2 : i < 2 ^ 31) :
    ofInt32 i = input b ↔ i = (input b : Int) := by
  have hb := input_le_one b
  unfold ofInt32
  omega

theorem check_button_spec (clkfreq : Nat) (inp : Input) (s : State) (hc : 1000 ≤ clkfreq)
    (h1 : -2 ^ 31 ≤ s.button) (h2 : s.button < 2 ^ 31) :
    ∃ s1 e, check_button clkfreq inp s = some (s1, e) ∧
      same_link_vars s s1 ∧
      same_sensor_vars
        { s with buttonState := input inp.button_level, button := (input inp.button_level : Int) }
        s1 ∧
      event_frames (s.button ≠ (input inp.button_level : Int)) 0x50 (input inp.button_level) e ∧
      liveness_sent e = false := by
  obtain ⟨t, c, ht⟩ := get_time_some clkfreq inp.cnt_button s.clock hc
  have hiff := ofInt32_eq_input s.button inp.button_level h1 h2
  unfold check_button
  by_cases h : s.button ≠ (input inp.button_level : Int)
  · have h' : ofInt32 s.button ≠ input inp.button_level := fun he => h (hiff.mp he)
    simp only []
    rw [if_pos h', send_event_eq
      (s := { s with buttonState := input inp.button_level,
                     button := toInt32 (input inp.button_level) }) _ _ ht]
    refine ⟨_, _, rfl, ⟨rfl, rfl, rfl, rfl⟩,
      ⟨rfl, (button_value_byte inp.button_level).1, rfl, rfl, rfl, rfl, rfl, rfl, rfl⟩,
      ⟨fun hn => absurd h hn, fun _ => ⟨_, rfl, ?_, ?_, ?_⟩⟩, ?_⟩
    · simp [tx_header, le_bytes_four]
    · simp [tx_header, le_bytes_four]
    · simp [tx_header, le_bytes_four, (button_value_byte inp.button_level).2]
    · simp [liveness_sent, sent_frames, tx_header, le_bytes_four]
  · have h' : ¬ ofInt32 s.button ≠ input inp.button_level :=
      fun hn => hn (hiff.mpr (not_not.mp h))
    simp only []
    rw [if_neg h']
    exact ⟨_, [], rfl, ⟨rfl, rfl, rfl, rfl⟩,
      ⟨rfl, not_not.mp h, rfl, rfl, rfl, rfl, rfl, rfl, rfl⟩,
      ⟨fun _ => rfl, fun hn => absurd hn h⟩, rfl⟩

theorem check_infrared_spec (clkfreq : Nat) (inp : Input) (s : State) (hc : 1000 ≤ clkfreq) :
    ∃ s1 e, check_infrared clkfreq inp s = some (s1, e) ∧
      same_link_vars s s1 ∧ same_sensor_vars { s with infrared := infrared_value inp } s1 ∧
      event_frames (s.infrared ≠ infrared_value inp) 0x46 (infrared_value inp).toNat e ∧
      liveness_sent e = false := by
  obtain ⟨t, c, ht⟩ := get_time_some clkfreq inp.cnt_infrared s.clock hc
  unfold check_infrared
  by_cases h : s.infrared ≠ infrared_value inp
  · rw [if_pos h, send_event_eq (s := { s with infrared := infrared_value inp }) _ _ ht]
    refine ⟨_, _, rfl, ⟨rfl, rfl, rfl, rfl⟩, ⟨rfl, rfl, rfl, rfl, rfl, rfl, rfl, rfl, rfl⟩,
      ⟨fun hn => absurd h hn, fun _ => ⟨_, rfl, ?_, ?_, ?_⟩⟩, ?_⟩
    · simp [tx_header, le_bytes_four]
    · simp [tx_header, le_bytes_four]
    · simp [tx_header, le_bytes_four, (infrared_value_byte inp).1]
    · simp [liveness_sent, sent_frames, tx_header, le_bytes_four]
  · rw [if_neg h]
    exact ⟨s, [], rfl, ⟨rfl, rfl, rfl, rfl⟩,
      ⟨rfl, rfl, not_not.mp h, rfl, rfl, rfl, rfl, rfl, rfl⟩,
      ⟨fun _ => rfl, fun hn => absurd hn h⟩, rfl⟩

theorem and_then_some {s : State} {e : List Effect} {f : State → Option (State × List Effect)}
    {s2 : State} {e2 : List Effect} (h : f s = some (s2, e2)) :
    and_then (some (s, e)) f = some (s2, e ++ e2) := by
  simp only [and_then, h]

theorem same_link_vars_trans {a b c : State} (h1 : same_link_vars a b)
    (h2 : same_link_vars b c) : same_link_vars a c :=
  ⟨h2.1.trans h1.1, h2.2.1.trans h1.2.1, h2.2.2.1.trans h1.2.2.1, h2.2.2.2.trans h1.2.2.2⟩

theorem sensors_spec (clkfreq : Nat) (inp : Input) (s : State) (hc : 1000 ≤ clkfreq)
    (h1 : -2 ^ 31 ≤ s.button) (h2 : s.button < 2 ^ 31) :
    ∃ s1 ew ep ei, sensors clkfreq inp s = some (s1, ew ++ ep ++ ei) ∧
      same_link_vars s s1 ∧
      same_sensor_vars
        { s with whiskers := whiskers_value inp, buttonState := input inp.button_level,
                 button := (input inp.button_level : Int), infrared := infrared_value inp } s1 ∧
      event_frames (s.whiskers ≠ whiskers_value inp) 0x57 (whiskers_value inp).toNat ew ∧
      event_frames (s.button ≠ (input inp.button_level : Int)) 0x50 (input inp.button_level) ep ∧
      event_frames (s.infrared ≠ infrared_value inp) 0x46 (infrared_value inp).toNat ei ∧
      liveness_sent (ew ++ ep ++ ei) = false := by
  obtain ⟨sa, ew, hw, hla, hsa, hew, hlw⟩ := check_whiskers_spec clkfreq inp s hc
  have hab : sa.button = s.button := hsa.2.1
  obtain ⟨sb, ep, hp, hlb, hsb, hep, hlp⟩ :=
    check_button_spec clkfreq inp sa hc (by rw [hab]; exact h1) (by rw [hab]; exact h2)
  obtain ⟨sc, ei, hi, hlc, hsc, hei, hli⟩ := check_infrared_spec clkfreq inp sb hc
  refine ⟨sc, ew, ep, ei, ?_, same_link_vars_trans (same_link_vars_trans hla hlb) hlc, ?_, hew,
    ?_, ?_, ?_⟩
  · unfold sensors
    rw [hw, and_then_some hp, and_then_some hi]
  · obtain ⟨a1, a2, a3, a4, a5, a6, a7, a8, a9⟩ := hsa
    obtain ⟨b1, b2, b3, b4, b5, b6, b7, b8, b9⟩ := hsb
    obtain ⟨c1, c2, c3, c4, c5, c6, c7, c8, c9⟩ := hsc
    exact ⟨c1.trans (b1.trans a1), c2.trans b2, c3, c4.trans b4, c5.trans (b5.trans a5),
      c6.trans (b6.trans a6), c7.trans (b7.trans a7), c8.trans (b8.trans a8),
      c9.trans (b9.trans a9)⟩
  · rw [← hab]; exact hep
  · have : sb.infrared = s.infrared := hsb.2.2.1.trans hsa.2.2.1
    rw [← this]; exact hei
  · rw [liveness_sent_append, liveness_sent_append, hlw, hlp, hli]; rfl

theorem button_detect_eq {clkfreq : Nat} {inp : Input} {s : State} {t : Int} {c : Clock}
    (h : get_time clkfreq inp.cnt_hold s.clock = some (t, c)) :
    button_detect clkfreq inp s =
      if s.buttonState ≠ s.lastButtonState then
        if s.buttonState = PRESSED then
          some ({ s with lastButtonState := s.buttonState, clock := c, startPressed := ofInt32 t,
                         timeReleased := sub32 (ofInt32 t) s.endPressed }, [])
        else
          some ({ s with lastButtonState := s.buttonState, clock := c, endPressed := ofInt32 t,
                         timeHold := sub32 (ofInt32 t) s.startPressed },
            if sub32 (ofInt32 t) s.startPressed ≥ LONG_HOLD_DURATION then
              [Effect.print_entering_setup, Effect.setup_mode]
            else [])
      else some (s, []) := by
  unfold button_detect
  simp only [h]
  split
  · split
    · rfl
    · split <;> rfl
  · rfl

theorem button_detect_spec (clkfreq : Nat) (inp : Input) (s : State) (hc : 1000 ≤ clkfreq) :
    ∃ s1 e, button_detect clkfreq inp s = some (s1, e) ∧ same_link_vars s s1 ∧
      s1.whiskers = s.whiskers ∧ s1.button = s.button ∧ s1.infrared = s.infrared ∧
      sent_frames e = [] := by
  obtain ⟨t, c, ht⟩ := get_time_some clkfreq inp.cnt_hold s.clock hc
  rw [button_detect_eq ht]
  split
  · split
    · exact ⟨_, _, rfl, ⟨rfl, rfl, rfl, rfl⟩, rfl, rfl, rfl, rfl⟩
    · refine ⟨_, _, rfl, ⟨rfl, rfl, rfl, rfl⟩, rfl, rfl, rfl, ?_⟩
      split <;> rfl
  · exact ⟨_, _, rfl, ⟨rfl, rfl, rfl, rfl⟩, rfl, rfl, rfl, rfl⟩


theorem loop_iteration_heartbeat (clkfreq : Nat) (inp : Input) (s : State) (hc : 1000 ≤ clkfreq)
    (h1 : -2 ^ 31 ≤ s.button) (h2 : s.button < 2 ^ 31) :
    ∃ s3 e, loop_iteration clkfreq inp s = some (s3, e) ∧
      s3.slower = (if inp.recv_ret = -1 then
        (if s.slower + 1 ≥ (100 : Int) then 0 else s.slower + 1) else s.slower) ∧
      (liveness_sent e = true ↔ inp.recv_ret = -1 ∧ s.slower + 1 ≥ (100 : Int)) ∧
      -2 ^ 31 ≤ s3.button ∧ s3.button < 2 ^ 31 := by
  obtain ⟨sa, ed, hd, hsa, hto, hnto⟩ := dispatch_spec clkfreq inp (xbee_recv inp s) hc
  have hab : sa.button = s.button := hsa.2.1
  obtain ⟨sb, ew, ep, ei, hs, hlb, hsb, _, _, _, hls⟩ :=
    sensors_spec clkfreq inp sa hc (by rw [hab]; exact h1) (by rw [hab]; exact h2)
  obtain ⟨sc, eb, hb, hlc, _, hcb, _, hfb⟩ := button_detect_spec clkfreq inp sb hc
  have hlb_false : liveness_sent eb = false := by
    unfold liveness_sent; rw [hfb]; rfl
  have hbut : sc.button = (input inp.button_level : Int) := hcb.trans hsb.2.1
  have hin := input_le_one inp.button_level
  refine ⟨sc, ed ++ (ew ++ ep ++ ei) ++ eb, ?_, ?_, ?_, by rw [hbut]; omega, by rw [hbut]; omega⟩
  · unfold loop_iteration
    rw [hd, and_then_some hs, and_then_some hb]
  · have hsl : sc.slower = sa.slower := hlc.2.2.2.trans hlb.2.2.2
    rw [hsl]
    by_cases hr : inp.recv_ret = -1
    · rw [if_pos hr]; exact (hto hr).1
    · rw [if_neg hr]; exact (hnto hr).1
  · rw [liveness_sent_append, liveness_sent_append, hls, hlb_false, Bool.or_false, Bool.or_false]
    by_cases hr : inp.recv_ret = -1
    · rw [(hto hr).2]; exact ⟨fun h => ⟨hr, h⟩, fun h => h.2⟩
    · rw [(hnto hr).2]; exact ⟨fun h => absurd h (by simp), fun h => absurd h.1 hr⟩

theorem timeouts_cons (inp : Input) (rest : List Input) :
    timeouts (inp :: rest) = timeouts rest + (if inp.recv_ret = -1 then 1 else 0) := by
  unfold timeouts
  rw [List.countP_cons]
  simp

theorem main_loop_heartbeat (clkfreq : Nat) (hc : 1000 ≤ clkfreq) :
    ∀ (inps : List Input) (s : State), -2 ^ 31 ≤ s.button → s.button < 2 ^ 31 →
      0 ≤ s.slower → s.slower < 100 →
      ∃ s1 es, main_loop clkfreq inps s = some (s1, es) ∧ es.length = inps.length ∧
        ∀ k, k < inps.length →
          (liveness_sent (es.getD k []) = true ↔
            (inps.getD k idle_input).recv_ret = -1 ∧
            (s.slower.toNat + timeouts (inps.take (k + 1))) % 100 = 0) := by
  intro inps
  induction inps with
  | nil =>
    intro s _ _ _ _
    exact ⟨s, [], rfl, rfl, fun k hk => absurd hk (Nat.not_lt_zero k)⟩
  | cons inp rest ih =>
    intro s h1 h2 h3 h4
    obtain ⟨s3, e, hit, hsl, hlv, h5, h6⟩ := loop_iteration_heartbeat clkfreq inp s hc h1 h2
    have h7 : 0 ≤ s3.slower ∧ s3.slower < 100 := by
      rw [hsl]; split_ifs <;> omega
    obtain ⟨s1, es, hml, hlen, hk⟩ := ih s3 h5 h6 h7.1 h7.2
    refine ⟨s1, e :: es, ?_, by simp [hlen], ?_⟩
    · simp only [main_loop, hit, hml]
    · intro k hklt
      cases k with
      | zero =>
        simp only [List.getD_cons_zero, Nat.zero_add, List.take_succ_cons, List.take_zero,
          timeouts_cons]
        rw [hlv]
        have : timeouts ([] : List Input) = 0 := rfl
        rw [this]
        constructor
        · rintro ⟨hr, hge⟩
          refine ⟨hr, ?_⟩
          rw [if_pos hr]; omega
        · rintro ⟨hr, hmod⟩
          refine ⟨hr, ?_⟩
          rw [if_pos hr] at hmod; omega
      | succ k =>
        have hk' : k < rest.length := by simpa using hklt
        simp only [List.getD_cons_succ, List.take_succ_cons, timeouts_cons]
        rw [hk k hk', hsl]
        generalize timeouts (List.take (k + 1) rest) = n
        by_cases hr : inp.recv_ret = -1
        · simp only [hr, if_true]
          split_ifs <;> constructor <;> rintro ⟨ha, hb⟩ <;> refine ⟨ha, ?_⟩ <;> omega
        · simp only [hr, if_false]
          constructor <;> rintro ⟨ha, hb⟩ <;> refine ⟨ha, ?_⟩ <;> omega


/-- C5, as amended: with a tick frequency of at least 1000, for every sequence of receive
results fed to the main loop from its initial state, every iteration returns, and a
liveness frame (command code `I` at byte 22) is sent in iteration `k` if and only if the
receive result of that iteration is a timeout and the number of timeouts among the first
`k + 1` receive results is a multiple of 100, that is, it is the 100th timeout since the
last liveness frame or since the start. Received frames in between do not reset the
count. -/
theorem heartbeat_every_100_timeouts (clkfreq : Nat) (inps : List Input) (hc : 1000 ≤ clkfreq) :
    ∃ s es, main_loop clkfreq inps State.init = some (s, es) ∧ es.length = inps.length ∧
      ∀ k, k < inps.length →
        (liveness_sent (es.getD k []) = true ↔
          (inps.getD k idle_input).recv_ret = -1 ∧ timeouts (inps.take (k + 1)) % 100 = 0) := by
  obtain ⟨s, es, h1, h2, h3⟩ := main_loop_heartbeat clkfreq hc inps State.init (by decide)
    (by decide) (by decide) (by decide)
  refine ⟨s, es, h1, h2, fun k hk => ?_⟩
  have := h3 k hk
  simpa [State.init] using this

/-- C5 amended, at 80 MHz for a timeout, a received `B` frame and another timeout. -/
theorem heartbeat_every_100_timeouts_witness :
    ∃ s es, main_loop clkfreq_80MHz [idle_input, frame_input beep_frame 0, idle_input]
        State.init = some (s, es) ∧
      es.length = [idle_input, frame_input beep_frame 0, idle_input].length ∧
      ∀ k, k < [idle_input, frame_input beep_frame 0, idle_input].length →
        (liveness_sent (es.getD k []) = true ↔
          ([idle_input, frame_input beep_frame 0, idle_input].getD k idle_input).recv_ret = -1 ∧
          timeouts ([idle_input, frame_input beep_frame 0, idle_input].take (k + 1)) % 100 = 0) :=
  heartbeat_every_100_timeouts clkfreq_80MHz [idle_input, frame_input beep_frame 0, idle_input]
    (by decide)

set_option maxRecDepth 100000 in
/-- C5 as stated fails: from the initial state, 99 timeouts, then one received `B` frame,
then one more timeout: the last iteration sends a liveness frame (and no earlier one
does), because `slower` is only ever reset when it reaches 100. -/
theorem heartbeat_not_reset_by_frame :
    (main_loop clkfreq_80MHz
        (List.replicate 99 idle_input ++ [frame_input beep_frame 0, idle_input])
        State.init).map (fun r => r.2.map liveness_sent) =
      some (List.replicate 100 false ++ [true]) := by
  decide

/-! ## Lemmas: sensor events -/

theorem handle_AI_no_event (s : State) : no_event_code (handle_AI s).2 := by
  unfold handle_AI no_event_code
  split <;> simp [sent_frames]

theorem dispatch_no_event (clkfreq : Nat) (inp : Input) (s : State) (hc : 1000 ≤ clkfreq) :
    ∀ s1 e, dispatch clkfreq inp s = some (s1, e) → no_event_code e := by
  obtain ⟨t, c, ht⟩ := get_time_some clkfreq inp.cnt_dispatch s.clock hc
  intro s1 e h
  rcases dispatch_cases clkfreq inp s with ⟨_, hd⟩ | ⟨_, hd⟩
  · rw [hd, handle_timeout_eq ht] at h
    split_ifs at h <;> simp only [Option.some.injEq, Prod.mk.injEq] at h <;>
      obtain ⟨_, rfl⟩ := h <;> simp [no_event_code, sent_frames, tx_header, le_bytes_four]
  · rcases hd with hd | hd | hd | hd | hd | hd | hd | hd | hd | hd | hd | hd | hd | hd <;>
      rw [hd] at h
    · simp only [Option.some.injEq] at h
      have h2 := handle_AI_no_event s
      rw [h] at h2; exact h2
    · simp only [handle_SL, Option.some.injEq, Prod.mk.injEq] at h
      obtain ⟨_, rfl⟩ := h; simp [no_event_code, sent_frames]
    · simp only [handle_SH, Option.some.injEq, Prod.mk.injEq] at h
      obtain ⟨_, rfl⟩ := h; simp [no_event_code, sent_frames]
    · simp only [handle_C0, Option.some.injEq, Prod.mk.injEq] at h
      obtain ⟨_, rfl⟩ := h; simp [no_event_code, sent_frames]
    · simp only [handle_MY, Option.some.injEq, Prod.mk.injEq] at h
      obtain ⟨_, rfl⟩ := h; simp [no_event_code, sent_frames]
    · simp only [handle_B_eq ht, Option.some.injEq, Prod.mk.injEq] at h
      obtain ⟨_, rfl⟩ := h
      simp [no_event_code, sent_frames, tx_header, le_bytes_four, le_bytes_two]
    · simp only [handle_G_eq ht, Option.some.injEq, Prod.mk.injEq] at h
      obtain ⟨_, rfl⟩ := h
      simp [no_event_code, sent_frames, tx_header, le_bytes_four, le_bytes_two]
    · simp only [handle_S_eq ht, Option.some.injEq, Prod.mk.injEq] at h
      obtain ⟨_, rfl⟩ := h
      simp [no_event_code, sent_frames, tx_header, le_bytes_four, le_bytes_two]
    · simp only [handle_R_eq ht, Option.some.injEq, Prod.mk.injEq] at h
      obtain ⟨_, rfl⟩ := h
      simp [no_event_code, sent_frames, tx_header, le_bytes_four, le_bytes_two]
    · simp only [handle_T_eq ht, Option.some.injEq, Prod.mk.injEq] at h
      obtain ⟨_, rfl⟩ := h
      simp [no_event_code, sent_frames, tx_header, le_bytes_four, le_bytes_two]
    · simp only [handle_D_eq ht, Option.some.injEq, Prod.mk.injEq] at h
      obtain ⟨_, rfl⟩ := h
      simp [no_event_code, sent_frames, tx_header, le_bytes_four, le_bytes_two]
    · simp only [handle_L_eq ht, Option.some.injEq, Prod.mk.injEq] at h
      obtain ⟨_, rfl⟩ := h
      simp [no_event_code, sent_frames_led, tx_header, le_bytes_four]
    · simp only [Option.some.injEq, Prod.mk.injEq] at h
      obtain ⟨_, rfl⟩ := h; simp [no_event_code, sent_frames, buffer_print]
    · simp only [Option.some.injEq, Prod.mk.injEq] at h
      obtain ⟨_, rfl⟩ := h; simp [no_event_code, sent_frames]


theorem event_sent_append (code : Nat) (a b : List Effect) :
    event_sent code (a ++ b) ↔ event_sent code a ∨ event_sent code b := by
  unfold event_sent
  rw [sent_frames_append]
  constructor
  · rintro ⟨f, hf, hc⟩
    rcases List.mem_append.mp hf with h | h
    · exact Or.inl ⟨f, h, hc⟩
    · exact Or.inr ⟨f, h, hc⟩
  · rintro (⟨f, hf, hc⟩ | ⟨f, hf, hc⟩)
    · exact ⟨f, List.mem_append_left _ hf, hc⟩
    · exact ⟨f, List.mem_append_right _ hf, hc⟩

theorem event_frames_sent {changed : Prop} [Decidable changed] {code value : Nat}
    {e : List Effect} (h : event_frames changed code value e) (c : Nat) :
    event_sent c e ↔ changed ∧ c = code := by
  unfold event_sent
  by_cases hch : changed
  · obtain ⟨frame, rfl, _, h22, _⟩ := h.2 hch
    simp only [sent_frames, List.mem_singleton, exists_eq_left, h22, Option.some.injEq]
    exact ⟨fun h => ⟨hch, h.symm⟩, fun h => h.2.symm⟩
  · rw [h.1 hch]
    simp [sent_frames, hch]

theorem loop_iteration_events (clkfreq : Nat) (inp : Input) (s : State)
    (hc : 1000 ≤ clkfreq) (h1 : -2 ^ 31 ≤ s.button) (h2 : s.button < 2 ^ 31) :
    ∃ s1 s3 ed ew ep ei eb,
      dispatch clkfreq inp (xbee_recv inp s) = some (s1, ed) ∧
      loop_iteration clkfreq inp s = some (s3, ed ++ (ew ++ ep ++ ei) ++ eb) ∧
      no_event_code ed ∧ sent_frames eb = [] ∧
      event_frames (s.whiskers ≠ whiskers_value inp) 0x57 (whiskers_value inp).toNat ew ∧
      event_frames (s.button ≠ (input inp.button_level : Int)) 0x50 (input inp.button_level) ep ∧
      event_frames (s.infrared ≠ infrared_value inp) 0x46 (infrared_value inp).toNat ei ∧
      s3.whiskers = whiskers_value inp ∧ s3.button = (input inp.button_level : Int) ∧
      s3.infrared = infrared_value inp := by
  obtain ⟨sa, ed, hd, hsa, _, _⟩ := dispatch_spec clkfreq inp (xbee_recv inp s) hc
  have hab : sa.button = s.button := hsa.2.1
  have haw : sa.whiskers = s.whiskers := hsa.1
  have hai : sa.infrared = s.infrared := hsa.2.2.1
  obtain ⟨sb, ew, ep, ei, hs, _, hsb, hew, hep, hei, _⟩ :=
    sensors_spec clkfreq inp sa hc (by rw [hab]; exact h1) (by rw [hab]; exact h2)
  obtain ⟨sc, eb, hb, _, hcw, hcb, hci, hfb⟩ := button_detect_spec clkfreq inp sb hc
  rw [haw] at hew
  rw [hab] at hep
  rw [hai] at hei
  refine ⟨sa, sc, ed, ew, ep, ei, eb, hd, ?_, dispatch_no_event clkfreq inp _ hc sa ed hd, hfb,
    hew, hep, hei, hcw.trans hsb.1, hcb.trans hsb.2.1, hci.trans hsb.2.2.1⟩
  unfold loop_iteration
  rw [hd, and_then_some hs, and_then_some hb]

theorem loop_iteration_event_iff (clkfreq : Nat) (inp : Input) (s : State)
    (hc : 1000 ≤ clkfreq) (h1 : -2 ^ 31 ≤ s.button) (h2 : s.button < 2 ^ 31) :
    ∃ s3 e, loop_iteration clkfreq inp s = some (s3, e) ∧
      (event_sent 0x57 e ↔ s.whiskers ≠ whiskers_value inp) ∧
      (event_sent 0x50 e ↔ s.button ≠ (input inp.button_level : Int)) ∧
      (event_sent 0x46 e ↔ s.infrared ≠ infrared_value inp) ∧
      s3.whiskers = whiskers_value inp ∧ s3.button = (input inp.button_level : Int) ∧
      s3.infrared = infrared_value inp := by
  obtain ⟨s1, s3, ed, ew, ep, ei, eb, _, hl, hned, hneb, hw, hp, hi, e1, e2, e3⟩ :=
    loop_iteration_events clkfreq inp s hc h1 h2
  have hd : ∀ c, c = 0x57 ∨ c = 0x50 ∨ c = 0x46 → ¬ event_sent c ed := by
    rintro c hcode ⟨f, hf, h22⟩
    have := hned f hf
    rcases hcode with rfl | rfl | rfl
    · exact this.1 h22
    · exact this.2.1 h22
    · exact this.2.2 h22
  have hb : ∀ c, ¬ event_sent c eb := by
    rintro c ⟨f, hf, _⟩
    rw [hneb] at hf
    exact absurd hf (List.not_mem_nil f)
  refine ⟨s3, _, hl, ?_, ?_, ?_, e1, e2, e3⟩
  · simp only [event_sent_append, event_frames_sent hw, event_frames_sent hp,
      event_frames_sent hi]
    have := hd 0x57 (Or.inl rfl)
    have := hb 0x57
    constructor
    · rintro ((h | (h | h) | h) | h)
      · exact absurd h (hd 0x57 (Or.inl rfl))
      · exact h.1
      · exact absurd h.2 (by decide)
      · exact absurd h.2 (by decide)
      · exact absurd h (hb 0x57)
    · intro h
      exact Or.inl (Or.inr (Or.inl (Or.inl ⟨h, trivial⟩)))
  · simp only [event_sent_append, event_frames_sent hw, event_frames_sent hp,
      event_frames_sent hi]
    constructor
    · rintro ((h | (h | h) | h) | h)
      · exact absurd h (hd 0x50 (Or.inr (Or.inl rfl)))
      · exact absurd h.2 (by decide)
      · exact h.1
      · exact absurd h.2 (by decide)
      · exact absurd h (hb 0x50)
    · intro h
      exact Or.inl (Or.inr (Or.inl (Or.inr ⟨h, trivial⟩)))
  · simp only [event_sent_append, event_frames_sent hw, event_frames_sent hp,
      event_frames_sent hi]
    constructor
    · rintro ((h | (h | h) | h) | h)
      · exact absurd h (hd 0x46 (Or.inr (Or.inr rfl)))
      · exact absurd h.2 (by decide)
      · exact absurd h.2 (by decide)
      · exact h.1
      · exact absurd h (hb 0x46)
    · intro h
      exact Or.inl (Or.inr (Or.inr ⟨h, trivial⟩))


theorem main_loop_quiet (clkfreq : Nat) (hc : 1000 ≤ clkfreq) :
    ∀ (inps : List Input) (s : State), -2 ^ 31 ≤ s.button → s.button < 2 ^ 31 →
      ∃ s1 es, main_loop clkfreq inps s = some (s1, es) ∧ es.length = inps.length ∧
        ((∀ i ∈ inps, whiskers_value i = s.whiskers) → ∀ e ∈ es, ¬ event_sent 0x57 e) ∧
        ((∀ i ∈ inps, (input i.button_level : Int) = s.button) →
          ∀ e ∈ es, ¬ event_sent 0x50 e) ∧
        ((∀ i ∈ inps, infrared_value i = s.infrared) → ∀ e ∈ es, ¬ event_sent 0x46 e) := by
  intro inps
  induction inps with
  | nil =>
    intro s _ _
    exact ⟨s, [], rfl, rfl, fun _ e he => absurd he (List.not_mem_nil e),
      fun _ e he => absurd he (List.not_mem_nil e), fun _ e he => absurd he (List.not_mem_nil e)⟩
  | cons inp rest ih =>
    intro s h1 h2
    obtain ⟨s3, e, hit, hw, hp, hi, ew, ep, ei⟩ := loop_iteration_event_iff clkfreq inp s hc h1 h2
    have hin := input_le_one inp.button_level
    obtain ⟨s1, es, hml, hlen, qw, qp, qi⟩ := ih s3 (by rw [ep]; omega) (by rw [ep]; omega)
    refine ⟨s1, e :: es, by simp only [main_loop, hit, hml], by simp [hlen], ?_, ?_, ?_⟩
    · intro hall e' he'
      have h0 : whiskers_value inp = s.whiskers := hall inp (List.mem_cons_self _ _)
      rcases List.mem_cons.mp he' with rfl | hmem
      · exact fun hs => (hw.mp hs) h0.symm
      · exact qw (fun i hi' => by rw [ew, h0]; exact hall i (List.mem_cons_of_mem _ hi')) e' hmem
    · intro hall e' he'
      have h0 : (input inp.button_level : Int) = s.button := hall inp (List.mem_cons_self _ _)
      rcases List.mem_cons.mp he' with rfl | hmem
      · exact fun hs => (hp.mp hs) h0.symm
      · exact qp (fun i hi' => by rw [ep, h0]; exact hall i (List.mem_cons_of_mem _ hi')) e' hmem
    · intro hall e' he'
      have h0 : infrared_value inp = s.infrared := hall inp (List.mem_cons_self _ _)
      rcases List.mem_cons.mp he' with rfl | hmem
      · exact fun hs => (hi.mp hs) h0.symm
      · exact qi (fun i hi' => by rw [ei, h0]; exact hall i (List.mem_cons_of_mem _ hi')) e' hmem

theorem input_toNat (b : Bool) : input b = b.toNat := by
  cases b <;> rfl

theorem whiskers_value_pins (inp : Input) :
    whiskers_value inp =
      (((inp.whiskers_left.toNat <<< 1) ||| inp.whiskers_right.toNat : Nat) : Int) := by
  unfold whiskers_value
  rw [input_toNat, input_toNat]

theorem infrared_value_pins (inp : Input) :
    infrared_value inp =
      (((inp.infra_left.toNat <<< 1) ||| inp.infra_right.toNat : Nat) : Int) := by
  unfold infrared_value
  rw [input_toNat, input_toNat]

theorem event_frames_congr {p q : Prop} [Decidable p] [Decidable q] {code v w : Nat}
    {e : List Effect} (hpq : p ↔ q) (hv : v = w) (h : event_frames p code v e) :
    event_frames q code w e := by
  subst hv
  exact ⟨fun hq => h.1 (fun hp => hq (hpq.mp hp)), fun hq => h.2 (hpq.mpr hq)⟩

theorem main_loop_events (clkfreq : Nat) (hc : 1000 ≤ clkfreq) :
    ∀ (inps : List Input) (s : State), -2 ^ 31 ≤ s.button → s.button < 2 ^ 31 →
      ∃ s1 es, main_loop clkfreq inps s = some (s1, es) ∧ es.length = inps.length ∧
        ∀ k i e, inps.get? k = some i → es.get? k = some e →
          (event_sent 0x57 e ↔
            (s.whiskers :: inps.map whiskers_value).get? k ≠ some (whiskers_value i)) ∧
          (event_sent 0x50 e ↔
            (s.button :: inps.map (fun j => (input j.button_level : Int))).get? k ≠
              some (input i.button_level : Int)) ∧
          (event_sent 0x46 e ↔
            (s.infrared :: inps.map infrared_value).get? k ≠ some (infrared_value i)) := by
  intro inps
  induction inps with
  | nil =>
    intro s _ _
    exact ⟨s, [], rfl, rfl, fun k i e hi _ => by simp at hi⟩
  | cons inp rest ih =>
    intro s h1 h2
    obtain ⟨s3, e, hit, hw, hp, hi, ew, ep, ei⟩ := loop_iteration_event_iff clkfreq inp s hc h1 h2
    have hin := input_le_one inp.button_level
    obtain ⟨s1, es, hml, hlen, q⟩ := ih s3 (by rw [ep]; omega) (by rw [ep]; omega)
    refine ⟨s1, e :: es, by simp only [main_loop, hit, hml], by simp [hlen], ?_⟩
    intro k i e' hk he'
    cases k with
    | zero =>
      simp only [List.get?_cons_zero, Option.some.injEq] at hk he'
      subst hk
      subst he'
      simp only [List.get?_cons_zero, ne_eq, Option.some.injEq]
      exact ⟨hw, hp, hi⟩
    | succ k =>
      simp only [List.get?_cons_succ] at hk he'
      have := q k i e' hk he'
      rw [ew, ep, ei] at this
      simpa only [List.map_cons, List.get?_cons_succ] using this

/-- C6: with a tick frequency of at least 1000 and `button` holding an `int`, every loop
iteration returns and its effects are those of the dispatch step, then the whiskers,
button and infrared event blocks, then the button detector. The readings are taken from
the pin levels of the iteration: `(left << 1) | right` of the two whisker pins for `W`,
the level of the button pin for `P`, and `(left << 1) | right` of the two infrared pins
for `F`. The dispatch step and the button detector send no frame with code `W`, `P` or
`F`. Each event block sends nothing when the reading equals the stored value and otherwise
exactly one frame of 24 bytes with the group code (`W` = 0x57, `P` = 0x50, `F` = 0x46) at
byte 22 and the new reading at byte 23; so a frame with the group code is sent if and only
if the reading differs from the stored value, and after the iteration the stored values
are the readings. Hence, over a run that starts with the input `inp` and goes on with
inputs `inps`, a group whose reading stays what it was in `inp` sends no frame in any
iteration after the first. Over every run `inps` from `s`, iteration `k` sends a frame of a
group if and only if the reading of iteration `k` differs from the group's stored value
before it, which is the value in `s` for `k = 0` and the reading of iteration `k - 1`
otherwise. The three stored values are 0 when `main` reaches its loop. -/
theorem sensor_events_edge_triggered (clkfreq : Nat) (inp : Input) (inps : List Input)
    (s : State) (hc : 1000 ≤ clkfreq) (h1 : -2 ^ 31 ≤ s.button) (h2 : s.button < 2 ^ 31) :
    (∃ s1 s3 ed ew ep ei eb,
      dispatch clkfreq inp (xbee_recv inp s) = some (s1, ed) ∧
      loop_iteration clkfreq inp s = some (s3, ed ++ (ew ++ ep ++ ei) ++ eb) ∧
      no_event_code ed ∧ sent_frames eb = [] ∧
      event_frames
        (s.whiskers ≠
          (((inp.whiskers_left.toNat <<< 1) ||| inp.whiskers_right.toNat : Nat) : Int))
        0x57 ((inp.whiskers_left.toNat <<< 1) ||| inp.whiskers_right.toNat) ew ∧
      event_frames (s.button ≠ (inp.button_level.toNat : Int)) 0x50
        inp.button_level.toNat ep ∧
      event_frames
        (s.infrared ≠ (((inp.infra_left.toNat <<< 1) ||| inp.infra_right.toNat : Nat) : Int))
        0x46 ((inp.infra_left.toNat <<< 1) ||| inp.infra_right.toNat) ei ∧
      s3.whiskers =
        (((inp.whiskers_left.toNat <<< 1) ||| inp.whiskers_right.toNat : Nat) : Int) ∧
      s3.button = (inp.button_level.toNat : Int) ∧
      s3.infrared =
        (((inp.infra_left.toNat <<< 1) ||| inp.infra_right.toNat : Nat) : Int)) ∧
    (∃ s3 e, loop_iteration clkfreq inp s = some (s3, e) ∧
      (event_sent 0x57 e ↔
        s.whiskers ≠
          (((inp.whiskers_left.toNat <<< 1) ||| inp.whiskers_right.toNat : Nat) : Int)) ∧
      (event_sent 0x50 e ↔ s.button ≠ (inp.button_level.toNat : Int)) ∧
      (event_sent 0x46 e ↔
        s.infrared ≠
          (((inp.infra_left.toNat <<< 1) ||| inp.infra_right.toNat : Nat) : Int))) ∧
    (∃ s4 e es, main_loop clkfreq (inp :: inps) s = some (s4, e :: es) ∧
      es.length = inps.length ∧
      ((∀ i ∈ inps, (i.whiskers_left.toNat <<< 1) ||| i.whiskers_right.toNat =
          (inp.whiskers_left.toNat <<< 1) ||| inp.whiskers_right.toNat) →
        ∀ e2 ∈ es, ¬ event_sent 0x57 e2) ∧
      ((∀ i ∈ inps, i.button_level = inp.button_level) →
        ∀ e2 ∈ es, ¬ event_sent 0x50 e2) ∧
      ((∀ i ∈ inps, (i.infra_left.toNat <<< 1) ||| i.infra_right.toNat =
          (inp.infra_left.toNat <<< 1) ||| inp.infra_right.toNat) →
        ∀ e2 ∈ es, ¬ event_sent 0x46 e2)) ∧
    (∃ s4 es, main_loop clkfreq inps s = some (s4, es) ∧ es.length = inps.length ∧
      ∀ k i e, inps.get? k = some i → es.get? k = some e →
        (event_sent 0x57 e ↔
          (s.whiskers :: inps.map (fun j =>
            (((j.whiskers_left.toNat <<< 1) ||| j.whiskers_right.toNat : Nat) : Int))).get? k ≠
            some (((i.whiskers_left.toNat <<< 1) ||| i.whiskers_right.toNat : Nat) : Int)) ∧
        (event_sent 0x50 e ↔
          (s.button :: inps.map (fun j => (j.button_level.toNat : Int))).get? k ≠
            some (i.button_level.toNat : Int)) ∧
        (event_sent 0x46 e ↔
          (s.infrared :: inps.map (fun j =>
            (((j.infra_left.toNat <<< 1) ||| j.infra_right.toNat : Nat) : Int))).get? k ≠
            some (((i.infra_left.toNat <<< 1) ||| i.infra_right.toNat : Nat) : Int))) ∧
    State.init.whiskers = 0 ∧ State.init.button = 0 ∧ State.init.infrared = 0 := by
  have hW : whiskers_value = fun j : Input =>
      (((j.whiskers_left.toNat <<< 1) ||| j.whiskers_right.toNat : Nat) : Int) :=
    funext whiskers_value_pins
  have hF : infrared_value = fun j : Input =>
      (((j.infra_left.toNat <<< 1) ||| j.infra_right.toNat : Nat) : Int) :=
    funext infrared_value_pins
  have hP : input = fun b : Bool => b.toNat := funext input_toNat
  refine ⟨?_, ?_, ?_, ?_, rfl, rfl, rfl⟩
  · obtain ⟨s1, s3, ed, ew, ep, ei, eb, hd, hl, hned, hneb, hw, hp, hi, e1, e2, e3⟩ :=
      loop_iteration_events clkfreq inp s hc h1 h2
    rw [whiskers_value_pins] at hw e1
    rw [infrared_value_pins] at hi e3
    rw [input_toNat] at hp e2
    exact ⟨s1, s3, ed, ew, ep, ei, eb, hd, hl, hned, hneb,
      event_frames_congr Iff.rfl (Int.toNat_ofNat _) hw, hp,
      event_frames_congr Iff.rfl (Int.toNat_ofNat _) hi, e1, e2, e3⟩
  · obtain ⟨s3, e, hit, hw, hp, hi, _, _, _⟩ := loop_iteration_event_iff clkfreq inp s hc h1 h2
    rw [whiskers_value_pins] at hw
    rw [infrared_value_pins] at hi
    rw [input_toNat] at hp
    exact ⟨s3, e, hit, hw, hp, hi⟩
  · obtain ⟨s3, e, hit, _, _, _, ew, ep, ei⟩ := loop_iteration_event_iff clkfreq inp s hc h1 h2
    have hin := input_le_one inp.button_level
    obtain ⟨s4, es, hml, hlen, qw, qp, qi⟩ :=
      main_loop_quiet clkfreq hc inps s3 (by rw [ep]; omega) (by rw [ep]; omega)
    refine ⟨s4, e, es, by simp only [main_loop, hit, hml], hlen, ?_, ?_, ?_⟩
    · intro hall
      exact qw (fun i hi' => by
        rw [ew, whiskers_value_pins, whiskers_value_pins, hall i hi'])
    · intro hall
      exact qp (fun i hi' => by rw [ep, hall i hi'])
    · intro hall
      exact qi (fun i hi' => by
        rw [ei, infrared_value_pins, infrared_value_pins, hall i hi'])
  · obtain ⟨s4, es, hml, hlen, q⟩ := main_loop_events clkfreq hc inps s h1 h2
    simp only [hW, hF, hP] at q
    exact ⟨s4, es, hml, hlen, q⟩

/-- C6 at 80 MHz from the initial state: the button reads released (1) while 0 is stored, so
the first iteration sends one `P` frame with the reading 1 at byte 23 and no `W` or `F`
frame, and three further idle iterations send none. -/
theorem sensor_events_edge_triggered_witness :
    (∃ s3 e, loop_iteration clkfreq_80MHz idle_input State.init = some (s3, e) ∧
      (event_sent 0x57 e ↔
        State.init.whiskers ≠
          (((idle_input.whiskers_left.toNat <<< 1) ||| idle_input.whiskers_right.toNat : Nat)
            : Int)) ∧
      (event_sent 0x50 e ↔ State.init.button ≠ (idle_input.button_level.toNat : Int)) ∧
      (event_sent 0x46 e ↔
        State.init.infrared ≠
          (((idle_input.infra_left.toNat <<< 1) ||| idle_input.infra_right.toNat : Nat)
            : Int))) :=
  (sensor_events_edge_triggered clkfreq_80MHz idle_input [idle_input, idle_input, idle_input]
    State.init (by decide) (by decide) (by decide)).2.1


theorem sub32_ofInt32 (tp tr : Int) (h0 : 0 ≤ tp) (h1 : tp ≤ tr) (h2 : tr < 2 ^ 31) :
    sub32 (ofInt32 tr) (ofInt32 tp) = (tr - tp).toNat := by
  unfold sub32 ofInt32
  omega

theorem sub32_ofInt32_mod (tp tr : Int) :
    sub32 (ofInt32 tr) (ofInt32 tp) = ((tr - tp) % 2 ^ 32).toNat := by
  unfold sub32 ofInt32
  omega

/-- C7, as amended: with a tick frequency of at least 1000 the button state detection block
returns, and with `t` the value `get_time()` has at that point: when the level is unchanged
nothing happens; on a press transition (level changed, now `PRESSED` = 0) `startPressed`
becomes `t` and `setup_mode` is not invoked; on a release transition (level changed, now
non-zero) `endPressed` becomes `t`, `timeHold` becomes `endPressed - startPressed`
(subtraction of `unsigned int`), and `setup_mode` is invoked, once, if and only if
`timeHold` is at least 3000; with `tp` the press time this is the condition
`(t - tp) mod 2^32 >= 3000`, and whenever `0 <= tp <= t < 2^31` it is the condition
`t - tp >= 3000`. The dispatch step and the sensor blocks leave `startPressed` and
`lastButtonState` alone, and the sensor blocks set `buttonState` to the button level. -/
theorem button_hold_detector (clkfreq : Nat) (inp : Input) (s : State) (hc : 1000 ≤ clkfreq) :
    ∃ t c, get_time clkfreq inp.cnt_hold s.clock = some (t, c) ∧
      (s.buttonState = s.lastButtonState → button_detect clkfreq inp s = some (s, [])) ∧
      (s.buttonState ≠ s.lastButtonState → s.buttonState = PRESSED →
        ∃ s1, button_detect clkfreq inp s = some (s1, []) ∧
          s1.startPressed = ofInt32 t ∧ s1.lastButtonState = PRESSED ∧
          s1.endPressed = s.endPressed) ∧
      (s.buttonState ≠ s.lastButtonState → s.buttonState ≠ PRESSED →
        ∃ s1 e, button_detect clkfreq inp s = some (s1, e) ∧
          s1.endPressed = ofInt32 t ∧ s1.startPressed = s.startPressed ∧
          s1.lastButtonState = s.buttonState ∧
          s1.timeHold = sub32 (ofInt32 t) s.startPressed ∧
          (Effect.setup_mode ∈ e ↔ sub32 (ofInt32 t) s.startPressed ≥ 3000) ∧
          e.count Effect.setup_mode ≤ 1 ∧
          (∀ tp : Int, s.startPressed = ofInt32 tp →
            (Effect.setup_mode ∈ e ↔ (t - tp) % 2 ^ 32 ≥ 3000)) ∧
          (∀ tp : Int, s.startPressed = ofInt32 tp → 0 ≤ tp → tp ≤ t → t < 2 ^ 31 →
            (Effect.setup_mode ∈ e ↔ t - tp ≥ 3000))) ∧
      (∀ s1 e, dispatch clkfreq inp s = some (s1, e) →
        s1.startPressed = s.startPressed ∧ s1.lastButtonState = s.lastButtonState) ∧
      (-2 ^ 31 ≤ s.button → s.button < 2 ^ 31 →
        ∃ s1 e, sensors clkfreq inp s = some (s1, e) ∧
          s1.buttonState = input inp.button_level ∧
          s1.startPressed = s.startPressed ∧ s1.lastButtonState = s.lastButtonState) := by
  obtain ⟨t, c, ht⟩ := get_time_some clkfreq inp.cnt_hold s.clock hc
  have hbd := button_detect_eq ht
  refine ⟨t, c, ht, ?_, ?_, ?_, ?_, ?_⟩
  · intro h
    rw [hbd, if_neg (not_not.mpr h)]
  · intro h hp
    rw [hbd, if_pos h, if_pos hp]
    exact ⟨_, rfl, rfl, hp, rfl⟩
  · intro h hp
    rw [hbd, if_pos h, if_neg hp]
    have hiff : (Effect.setup_mode ∈
        (if sub32 (ofInt32 t) s.startPressed ≥ LONG_HOLD_DURATION then
          [Effect.print_entering_setup, Effect.setup_mode] else []) ↔
        sub32 (ofInt32 t) s.startPressed ≥ 3000) := by
      unfold LONG_HOLD_DURATION
      split_ifs with hh
      · simp [hh]
      · simp [hh]
    refine ⟨_, _, rfl, rfl, rfl, rfl, rfl, hiff, ?_, ?_, ?_⟩
    · split_ifs <;> decide
    · intro tp htp
      rw [hiff, htp, sub32_ofInt32_mod tp t]
      omega
    · intro tp htp h0 h1 h2
      rw [hiff, htp, sub32_ofInt32 tp t h0 h1 h2]
      omega
  · intro s1 e hd
    obtain ⟨s2, e2, hd2, hs, _, _⟩ := dispatch_spec clkfreq inp s hc
    rw [hd] at hd2
    simp only [Option.some.injEq, Prod.mk.injEq] at hd2
    obtain ⟨rfl, rfl⟩ := hd2
    exact ⟨hs.2.2.2.2.2.1, hs.2.2.2.2.1⟩
  · intro h1 h2
    obtain ⟨s1, ew, ep, ei, hs, _, hsv, _⟩ := sensors_spec clkfreq inp s hc h1 h2
    exact ⟨s1, _, hs, hsv.2.2.2.1, hsv.2.2.2.2.2.1, hsv.2.2.2.2.1⟩


/-- C7 amended, at 80 MHz: the button, pressed at time 0, is seen released 240000000 ticks
after the start; the detector returns and invokes `setup_mode` exactly when
`timeHold >= 3000`, which is when `(t - 0) mod 2^32 >= 3000`. -/
theorem button_hold_detector_witness :
    ∃ t c, get_time clkfreq_80MHz release_input.cnt_hold held_state.clock = some (t, c) ∧
      ∃ s1 e, button_detect clkfreq_80MHz release_input held_state = some (s1, e) ∧
        (Effect.setup_mode ∈ e ↔ sub32 (ofInt32 t) held_state.startPressed ≥ 3000) ∧
        (Effect.setup_mode ∈ e ↔ (t - 0) % 2 ^ 32 ≥ 3000) :=
  let ⟨t, c, h, _, _, h3, _⟩ :=
    button_hold_detector clkfreq_80MHz release_input held_state (by decide)
  let ⟨s1, e, hb, _, _, _, _, hiff, _, hmod, _⟩ := h3 (by decide) (by decide)
  ⟨t, c, h, s1, e, hb, hiff, hmod 0 (by decide)⟩

/-- C7 as stated fails: at 80 MHz from the initial state, the button is seen pressed in one
iteration, in which the hold detector reads the counter at 79999999 and `get_time` returns
999, and released in the next, in which the counter has wrapped to 0 (`last_cnt` is still
0) and `get_time` returns 0. The first iteration records `startPressed = 999`, leaves the
clock as it was and does not invoke `setup_mode`; the second records `endPressed = 0`,
computes `timeHold = 0 - 999 = 4294966297` as `unsigned int` and invokes `setup_mode`
once, although `release_time - press_time = -999` is not at least 3000. -/
theorem button_hold_wrapped_difference :
    get_time clkfreq_80MHz press_input.cnt_hold State.init.clock =
        some (999, State.init.clock) ∧
      get_time clkfreq_80MHz idle_input.cnt_hold State.init.clock =
        some (0, State.init.clock) ∧
      (main_loop clkfreq_80MHz [press_input] State.init).map
          (fun r => (r.1.startPressed, r.1.lastButtonState, r.1.clock,
            r.2.map (fun e => e.count Effect.setup_mode))) =
        some (999, PRESSED, State.init.clock, [0]) ∧
      (main_loop clkfreq_80MHz [press_input, idle_input] State.init).map
          (fun r => (r.1.startPressed, r.1.endPressed, r.1.timeHold,
            r.2.map (fun e => e.count Effect.setup_mode))) =
        some (999, 0, 4294966297, [0, 1]) ∧
      ¬ ((0 : Int) - 999 ≥ 3000) := by
  refine ⟨by decide, by decide, by decide, by decide, by decide⟩


/-- C8: for every accepted `T` frame (length 12, marker `0xb0`, code `T` at byte 11) and
every pair of encoder readings, with a tick frequency of at least 1000, the dispatch step
returns having sent one frame of 31 bytes with `T` at byte 22; bytes 23..26 are the four
little-endian bytes of `left` and bytes 27..30 those of `-right`, both modulo `2^32`. Read
back as `int` they give `left`, and `-right` for every `right` other than `-2^31`, for
which they give `-2^31`. -/
theorem ticks_reply (clkfreq : Nat) (inp : Input) (s : State) (hc : 1000 ≤ clkfreq)
    (hlen : s.buffer_len = 12) (h0 : s.buffer 0 = 0xb0) (h11 : s.buffer 11 = 0x54) :
    ∃ s1 e frame, dispatch clkfreq inp s = some (s1, e) ∧ sent_frames e = [frame] ∧
      frame.length = 31 ∧ frame.get? 22 = some 0x54 ∧
      (frame.drop 23).take 4 = le_bytes 4 (ofInt32 inp.ticks_left) ∧
      frame.drop 27 = le_bytes 4 (ofInt32 (-inp.ticks_right)) ∧
      le_value ((frame.drop 23).take 4) = (inp.ticks_left % 2 ^ 32).toNat ∧
      le_value (frame.drop 27) = ((-inp.ticks_right) % 2 ^ 32).toNat ∧
      (-2 ^ 31 ≤ inp.ticks_left → inp.ticks_left < 2 ^ 31 →
        toInt32 (le_value ((frame.drop 23).take 4)) = inp.ticks_left) ∧
      (-2 ^ 31 < inp.ticks_right → inp.ticks_right < 2 ^ 31 →
        toInt32 (le_value (frame.drop 27)) = -inp.ticks_right) ∧
      (inp.ticks_right = -2 ^ 31 → toInt32 (le_value (frame.drop 27)) = -2 ^ 31) := by
  obtain ⟨t, c, ht⟩ := get_time_some clkfreq inp.cnt_dispatch s.clock hc
  have hd := (dispatch_command clkfreq inp s 0x54 12 rfl (by omega) h0 h11).2 hlen
  have h23 : ((tx_header s t 0x54 ++ le_bytes 4 (ofInt32 inp.ticks_left) ++
      le_bytes 4 (ofInt32 (-inp.ticks_right))).drop 23).take 4 =
      le_bytes 4 (ofInt32 inp.ticks_left) := by
    simp [tx_header, le_bytes_four]
  have h27 : (tx_header s t 0x54 ++ le_bytes 4 (ofInt32 inp.ticks_left) ++
      le_bytes 4 (ofInt32 (-inp.ticks_right))).drop 27 =
      le_bytes 4 (ofInt32 (-inp.ticks_right)) := by
    simp [tx_header, le_bytes_four]
  have hmodl : ofInt32 inp.ticks_left % 2 ^ 32 = ofInt32 inp.ticks_left := by
    unfold ofInt32; omega
  have hmodr : ofInt32 (-inp.ticks_right) % 2 ^ 32 = ofInt32 (-inp.ticks_right) := by
    unfold ofInt32; omega
  rw [hd]
  refine ⟨_, _, _, handle_T_eq ht, rfl, by simp [tx_header, le_bytes_four],
    by simp [tx_header, le_bytes_four], h23, h27, ?_, ?_, ?_, ?_, ?_⟩
  · rw [h23, le_value_le_bytes_four, hmodl]; rfl
  · rw [h27, le_value_le_bytes_four, hmodr]; rfl
  · intro h1 h2
    rw [h23, le_value_le_bytes_four, hmodl]
    unfold toInt32 ofInt32
    split <;> omega
  · intro h1 h2
    rw [h27, le_value_le_bytes_four, hmodr]
    unfold toInt32 ofInt32
    split <;> omega
  · intro h1
    rw [h27, le_value_le_bytes_four, hmodr, h1]
    decide


/-- C8 at 80 MHz for the readings 100 and 7. -/
theorem ticks_reply_witness :
    ∃ s1 e frame, dispatch clkfreq_80MHz ticks_input (xbee_recv ticks_input State.init) =
        some (s1, e) ∧ sent_frames e = [frame] ∧
      frame.length = 31 ∧ frame.get? 22 = some 0x54 ∧
      (frame.drop 23).take 4 = le_bytes 4 (ofInt32 100) ∧
      frame.drop 27 = le_bytes 4 (ofInt32 (-7)) :=
  let ⟨s1, e, frame, h1, h2, h3, h4, h5, h6, _⟩ :=
    ticks_reply clkfreq_80MHz ticks_input (xbee_recv ticks_input State.init) (by decide) rfl rfl
      rfl
  ⟨s1, e, frame, h1, h2, h3, h4, h5, h6⟩

/-- C9, as amended: for a received frame of length 6 whose bytes 0..3 are `88 05 'A' 'I'`,
the dispatch step returns with the state unchanged; when byte 4 (the command status) is 0
and byte 5 is `0x23` the frames it sends are, in order, `NR`, `ID robonet`, `EE 02`,
`PK cybercamp`, `WR`, `FR`, `C0` and `MY`; in every other case it sends no frame. -/
theorem association_recovery (clkfreq : Nat) (inp : Input) (s : State)
    (hlen : s.buffer_len = 6) (h0 : s.buffer 0 = 0x88) (h1 : s.buffer 1 = 0x05)
    (h2 : s.buffer 2 = 0x41) (h3 : s.buffer 3 = 0x49) :
    (s.buffer 4 = 0 ∧ s.buffer 5 = 0x23 →
      ∃ e, dispatch clkfreq inp s = some (s, e) ∧ sent_frames e = recovery_frames) ∧
    (¬ (s.buffer 4 = 0 ∧ s.buffer 5 = 0x23) →
      ∃ e, dispatch clkfreq inp s = some (s, e) ∧ sent_frames e = []) := by
  have hne : s.buffer_len ≠ -1 := by omega
  constructor
  · rintro ⟨h4, h5⟩
    refine ⟨(handle_AI s).2, ?_, ?_⟩
    · simp [dispatch, cmp_api_response_iff, hlen, h0, h1, h2, h3, h4, handle_AI, h5]
    · simp [handle_AI, h5, sent_frames, recovery_frames]
  · intro hn
    by_cases h4 : s.buffer 4 = 0
    · have h5 : s.buffer 5 ≠ 0x23 := fun h => hn ⟨h4, h⟩
      refine ⟨[], ?_, rfl⟩
      simp [dispatch, cmp_api_response_iff, hlen, h0, h1, h2, h3, h4, handle_AI, h5]
    · refine ⟨[buffer_print s s.buffer_len], ?_, rfl⟩
      simp [dispatch, cmp_api_response_iff, cmp_rx_headers_iff, hlen, h0, h1, h2, h3, h4]


/-- C9 amended, at the reply with status 0 and value `0x23`. -/
theorem association_recovery_witness :
    ∃ e, dispatch clkfreq_80MHz (frame_input ai_frame 0)
        (xbee_recv (frame_input ai_frame 0) State.init) =
        some (xbee_recv (frame_input ai_frame 0) State.init, e) ∧
      sent_frames e = recovery_frames :=
  (association_recovery clkfreq_80MHz (frame_input ai_frame 0)
    (xbee_recv (frame_input ai_frame 0) State.init) rfl rfl rfl rfl rfl).1 ⟨rfl, rfl⟩

/-- C9 as stated fails: the frame `88 05 'A' 'I' 01 23` has length 6, the prefix of the
association-status reply and `0x23` at offset 5, and the dispatch step sends nothing (it
only prints the buffer), because `cmp_api_response` also compares byte 4 with the NUL that
ends the string literal. -/
theorem association_recovery_needs_status_zero :
    (dispatch clkfreq_80MHz (frame_input ai_error_frame 0)
        (xbee_recv (frame_input ai_error_frame 0) State.init)).map (fun r => r.2) =
      some [Effect.buffer_print 6 ai_error_frame] := by
  decide

/-- C10: for every accepted `L` frame (length 14, marker `0xb0`, code `L` at byte 11) with
`led_id` = byte 12 and `state` = byte 13, with a tick frequency of at least 1000, the
dispatch step returns with exactly two effects: first one pin action, then the reply. The
pin is 26 (LED 0) when `led_id = 0` and 27 (LED 1) otherwise; the action is `low` when
`state = 0`, `high` when `state = 1` and `toggle` otherwise. The reply has 25 bytes, `L` at
byte 22 and the payload `led_id, state`. -/
theorem led_command (clkfreq : Nat) (inp : Input) (s : State) (hc : 1000 ≤ clkfreq)
    (hlen : s.buffer_len = 14) (h0 : s.buffer 0 = 0xb0) (h11 : s.buffer 11 = 0x4c)
    (h12 : s.buffer 12 < 256) (h13 : s.buffer 13 < 256) :
    ∃ s1 action frame,
      dispatch clkfreq inp s = some (s1, [action, Effect.xbee_send_api frame]) ∧
      action =
        (if s.buffer 13 = 0 then Effect.low (if s.buffer 12 = 0 then 26 else 27)
         else if s.buffer 13 = 1 then Effect.high (if s.buffer 12 = 0 then 26 else 27)
         else Effect.toggle (if s.buffer 12 = 0 then 26 else 27)) ∧
      frame.length = 25 ∧ frame.get? 22 = some 0x4c ∧
      frame.drop 23 = [s.buffer 12, s.buffer 13] := by
  obtain ⟨t, c, ht⟩ := get_time_some clkfreq inp.cnt_dispatch s.clock hc
  have hd := (dispatch_command clkfreq inp s 0x4c 14 rfl (by omega) h0 h11).2 hlen
  rw [hd]
  refine ⟨_, _, _, handle_L_eq ht, ?_, by simp [tx_header, le_bytes_four],
    by simp [tx_header, le_bytes_four], ?_⟩
  · simp only [LED_0_PIN, LED_1_PIN, Int.natCast_eq_zero, Nat.cast_eq_one]
  · rw [byte_cast _ h12, byte_cast _ h13]
    simp [tx_header, le_bytes_four]


/-- C10 at `led = 0`, `state = 2`: LED 0 (pin 26) is toggled and the reply payload is `0, 2`. -/
theorem led_command_witness :
    ∃ s1 frame, dispatch clkfreq_80MHz (frame_input led_frame 160000)
        (xbee_recv (frame_input led_frame 160000) State.init) =
        some (s1, [Effect.toggle 26, Effect.xbee_send_api frame]) ∧
      frame.length = 25 ∧ frame.get? 22 = some 0x4c ∧ frame.drop 23 = [0, 2] :=
  by
  obtain ⟨s1, action, frame, h1, h2, h3, h4, h5⟩ :=
    led_command clkfreq_80MHz (frame_input led_frame 160000)
      (xbee_recv (frame_input led_frame 160000) State.init) (by decide) rfl rfl rfl (by decide)
      (by decide)
  have ha : action = Effect.toggle 26 := h2.trans (by decide)
  rw [ha] at h1
  exact ⟨s1, frame, h1, h3, h4, h5⟩

/-- C11: for every accepted `B` frame (length 16, marker `0xb0`, code `B` at byte 11), with
a tick frequency of at least 1000, the dispatch step returns with exactly two effects:
first `freqout` on the speaker pin (pin 2) with the duration read as a `short` from bytes
12..13 and the frequency read as a `short` from bytes 14..15 (low byte first), then one
reply frame of 27 bytes with `B` at byte 22 whose payload is the two values as 16-bit
little-endian integers: they read back as the duration and the tone, and when the buffer
holds bytes they are the four bytes received. -/
theorem beep_command (clkfreq : Nat) (inp : Input) (s : State) (hc : 1000 ≤ clkfreq)
    (hlen : s.buffer_len = 16) (h0 : s.buffer 0 = 0xb0) (h11 : s.buffer 11 = 0x42) :
    ∃ s1 frame,
      dispatch clkfreq inp s =
        some (s1, [Effect.freqout PIEZO_SPEAKER_PIN (toInt16 (s.buffer 12 + 256 * s.buffer 13))
                     (toInt16 (s.buffer 14 + 256 * s.buffer 15)),
                   Effect.xbee_send_api frame]) ∧
      PIEZO_SPEAKER_PIN = 2 ∧
      frame.length = 27 ∧ frame.get? 22 = some 0x42 ∧
      toInt16 (le_value ((frame.drop 23).take 2)) = toInt16 (s.buffer 12 + 256 * s.buffer 13) ∧
      toInt16 (le_value (frame.drop 25)) = toInt16 (s.buffer 14 + 256 * s.buffer 15) ∧
      (s.buffer 12 < 256 → s.buffer 13 < 256 → s.buffer 14 < 256 → s.buffer 15 < 256 →
        frame.drop 23 = [s.buffer 12, s.buffer 13, s.buffer 14, s.buffer 15]) := by
  obtain ⟨t, c, ht⟩ := get_time_some clkfreq inp.cnt_dispatch s.clock hc
  have hd := (dispatch_command clkfreq inp s 0x42 16 rfl (by omega) h0 h11).2 hlen
  have hval : ∀ v : Int, toInt16 (le_value (le_bytes 2 (ofInt16 (toInt16 v.toNat)))) =
      toInt16 v.toNat := by
    intro v
    rw [ofInt16_toInt16, le_bytes_two]
    simp only [le_value]
    unfold toInt16
    have : (v.toNat % 2 ^ 16 % 256 + 256 * (v.toNat % 2 ^ 16 / 256 % 256 + 256 * 0)) % 2 ^ 16 =
        v.toNat % 2 ^ 16 := by omega
    rw [this]
  have hv := fun n : Nat => hval (n : Int)
  simp only [Int.toNat_ofNat] at hv
  rw [hd]
  refine ⟨_, _, handle_B_eq ht, rfl, by simp [tx_header, le_bytes_four, le_bytes_two],
    by simp [tx_header, le_bytes_four, le_bytes_two], ?_, ?_, ?_⟩
  · have : ((tx_header s t 0x42 ++ le_bytes 2 (ofInt16 (read_short s.buffer 12)) ++
        le_bytes 2 (ofInt16 (read_short s.buffer 14))).drop 23).take 2 =
        le_bytes 2 (ofInt16 (read_short s.buffer 12)) := by
      simp [tx_header, le_bytes_four, le_bytes_two]
    rw [this]
    exact hv _
  · have : (tx_header s t 0x42 ++ le_bytes 2 (ofInt16 (read_short s.buffer 12)) ++
        le_bytes 2 (ofInt16 (read_short s.buffer 14))).drop 25 =
        le_bytes 2 (ofInt16 (read_short s.buffer 14)) := by
      simp [tx_header, le_bytes_four, le_bytes_two]
    rw [this]
    exact hv _
  · intro h12 h13 h14 h15
    simp only [read_short]
    rw [le_bytes_short _ _ h12 h13, le_bytes_short _ _ h14 h15]
    simp [tx_header, le_bytes_four]

/-- C11 at the frame with duration 500 and tone 440: `freqout(2, 500, 440)` is called and
the reply payload is `F4 01 B8 01`. -/
theorem beep_command_witness :
    ∃ s1 frame,
      dispatch clkfreq_80MHz (frame_input beep_frame 160000)
          (xbee_recv (frame_input beep_frame 160000) State.init) =
        some (s1, [Effect.freqout 2 500 440, Effect.xbee_send_api frame]) ∧
      frame.length = 27 ∧ frame.get? 22 = some 0x42 ∧
      frame.drop 23 = [0xf4, 0x01, 0xb8, 0x01] := by
  obtain ⟨s1, frame, h1, _, h3, h4, _, _, h7⟩ :=
    beep_command clkfreq_80MHz (frame_input beep_frame 160000)
      (xbee_recv (frame_input beep_frame 160000) State.init) (by decide) rfl rfl rfl
  exact ⟨s1, frame, h1, h3, h4, h7 (by decide) (by decide) (by decide) (by decide)⟩

/-- C12: for an accepted `D` frame (length 16, code `D`) the effects of the dispatch step
are, in this order, the reply frame and then `drive_goto(left, right)`; for an accepted `S`
frame (length 16, code `S`) they are `drive_speed(left, right)` and then the reply frame.
In both cases `left` and `right` are the `short` values at bytes 12..13 and 14..15 (low
byte first), the reply has 27 bytes with the command code at byte 22, and there is no
other effect. -/
theorem drive_reply_order (clkfreq : Nat) (inp : Input) (s : State) (hc : 1000 ≤ clkfreq)
    (hlen : s.buffer_len = 16) (h0 : s.buffer 0 = 0xb0) :
    (s.buffer 11 = 0x44 →
      ∃ s1 frame, dispatch clkfreq inp s =
        some (s1, [Effect.xbee_send_api frame,
                   Effect.drive_goto (toInt16 (s.buffer 12 + 256 * s.buffer 13))
                     (toInt16 (s.buffer 14 + 256 * s.buffer 15))]) ∧
        frame.length = 27 ∧ frame.get? 22 = some 0x44) ∧
    (s.buffer 11 = 0x53 →
      ∃ s1 frame, dispatch clkfreq inp s =
        some (s1, [Effect.drive_speed (toInt16 (s.buffer 12 + 256 * s.buffer 13))
                     (toInt16 (s.buffer 14 + 256 * s.buffer 15)),
                   Effect.xbee_send_api frame]) ∧
        frame.length = 27 ∧ frame.get? 22 = some 0x53) := by
  obtain ⟨t, c, ht⟩ := get_time_some clkfreq inp.cnt_dispatch s.clock hc
  constructor
  · intro h11
    rw [(dispatch_command clkfreq inp s 0x44 16 rfl (by omega) h0 h11).2 hlen]
    exact ⟨_, _, handle_D_eq ht, by simp [tx_header, le_bytes_four, le_bytes_two],
      by simp [tx_header, le_bytes_four, le_bytes_two]⟩
  · intro h11
    rw [(dispatch_command clkfreq inp s 0x53 16 rfl (by omega) h0 h11).2 hlen]
    exact ⟨_, _, handle_S_eq ht, by simp [tx_header, le_bytes_four, le_bytes_two],
      by simp [tx_header, le_bytes_four, le_bytes_two]⟩

/-- C12 at a `D` frame with `left = 100` and `right = -100`: the reply is sent first. -/
theorem drive_reply_order_witness :
    ∃ s1 frame, dispatch clkfreq_80MHz (frame_input drive_frame 160000)
        (xbee_recv (frame_input drive_frame 160000) State.init) =
        some (s1, [Effect.xbee_send_api frame, Effect.drive_goto 100 (-100)]) ∧
      frame.length = 27 ∧ frame.get? 22 = some 0x44 :=
  (drive_reply_order clkfreq_80MHz (frame_input drive_frame 160000)
    (xbee_recv (frame_input drive_frame 160000) State.init) (by decide) rfl rfl).1 rfl

theorem toInt16_ofInt16 (v : Int) (h1 : -2 ^ 15 ≤ v) (h2 : v < 2 ^ 15) :
    toInt16 (ofInt16 v) = v := by
  unfold toInt16 ofInt16
  split <;> omega

theorem toInt32_ofInt32 (v : Int) (h1 : -2 ^ 31 ≤ v) (h2 : v < 2 ^ 31) :
    toInt32 (ofInt32 v) = v := by
  unfold toInt32 ofInt32
  split <;> omega

theorem le_value_le_bytes_two (v : Nat) : le_value (le_bytes 2 v) = v % 2 ^ 16 := by
  simp only [le_bytes_two, le_value]
  omega

theorem toInt16_mod (n : Nat) : toInt16 (n % 2 ^ 16) = toInt16 n := by
  unfold toInt16
  rw [Nat.mod_mod]

/-- C14: with the cursor `buffer_len = n` not negative, `write_le16(v)` stores the low byte
of the 16-bit pattern of `v` at `buffer[n]` and its high byte at `buffer[n+1]` and makes
the cursor `n + 2`; `write_le32(v)` stores the four bytes of the 32-bit pattern of `v`,
least significant first, at `buffer[n .. n+3]` and makes the cursor `n + 4`. In both cases
every other byte of the buffer is unchanged. The bytes written, decoded as a little-endian
two's-complement integer of that width, give `v` converted to that width, which is `v`
itself when `v` is in the range of the type. -/
theorem write_le_layout (v : Int) (s : State) (n : Nat) (hn : s.buffer_len = (n : Int)) :
    ((write_le16 v s).buffer n = ofInt16 v % 256 ∧
      (write_le16 v s).buffer (n + 1) = ofInt16 v / 256 % 256 ∧
      (write_le16 v s).buffer_len = (n : Int) + 2 ∧
      (∀ i, i ≠ n → i ≠ n + 1 → (write_le16 v s).buffer i = s.buffer i) ∧
      toInt16 (le_value (bytes_at (write_le16 v s).buffer n 2)) = toInt16 (ofInt16 v) ∧
      (-2 ^ 15 ≤ v → v < 2 ^ 15 →
        toInt16 (le_value (bytes_at (write_le16 v s).buffer n 2)) = v)) ∧
    ((write_le32 v s).buffer n = ofInt32 v % 256 ∧
      (write_le32 v s).buffer (n + 1) = ofInt32 v / 256 % 256 ∧
      (write_le32 v s).buffer (n + 2) = ofInt32 v / 256 / 256 % 256 ∧
      (write_le32 v s).buffer (n + 3) = ofInt32 v / 256 / 256 / 256 % 256 ∧
      (write_le32 v s).buffer_len = (n : Int) + 4 ∧
      (∀ i, i < n ∨ n + 4 ≤ i → (write_le32 v s).buffer i = s.buffer i) ∧
      toInt32 (le_value (bytes_at (write_le32 v s).buffer n 4)) = toInt32 (ofInt32 v) ∧
      (-2 ^ 31 ≤ v → v < 2 ^ 31 →
        toInt32 (le_value (bytes_at (write_le32 v s).buffer n 4)) = v)) := by
  have h16 : bytes_at (write_le16 v s).buffer n 2 = le_bytes 2 (ofInt16 v) := by
    simp [write_le16, hn, bytes_at_succ, bytes_at_zero, memcpy, le_bytes_two]
  have h32 : bytes_at (write_le32 v s).buffer n 4 = le_bytes 4 (ofInt32 v) := by
    simp [write_le32, hn, bytes_at_succ, bytes_at_zero, memcpy, le_bytes_four]
  have d16 : toInt16 (le_value (bytes_at (write_le16 v s).buffer n 2)) = toInt16 (ofInt16 v) := by
    rw [h16, le_value_le_bytes_two, toInt16_mod]
  have d32 : toInt32 (le_value (bytes_at (write_le32 v s).buffer n 4)) = toInt32 (ofInt32 v) := by
    rw [h32, le_value_le_bytes_four, toInt32_mod]
  refine ⟨⟨?_, ?_, ?_, ?_, d16, fun h1 h2 => d16.trans (toInt16_ofInt16 v h1 h2)⟩,
    ⟨?_, ?_, ?_, ?_, ?_, ?_, d32, fun h1 h2 => d32.trans (toInt32_ofInt32 v h1 h2)⟩⟩
  · simp [write_le16, hn, memcpy, le_bytes_two]
  · simp [write_le16, hn, memcpy, le_bytes_two]
  · simp [write_le16, hn]
  · intro i h1 h2
    simp only [write_le16, hn, memcpy, le_bytes_two, Int.toNat_ofNat, List.length_cons,
      List.length_nil]
    rw [if_neg (by omega)]
  · simp [write_le32, hn, memcpy, le_bytes_four]
  · simp [write_le32, hn, memcpy, le_bytes_four]
  · simp [write_le32, hn, memcpy, le_bytes_four]
  · simp [write_le32, hn, memcpy, le_bytes_four]
  · simp [write_le32, hn]
  · intro i h1
    simp only [write_le32, hn, memcpy, le_bytes_four, Int.toNat_ofNat, List.length_cons,
      List.length_nil]
    rw [if_neg (by omega)]

/-- C14 at the value `-2` with the cursor at 23: `write_le16` stores `FE FF`. -/
theorem write_le_layout_witness :
    (write_le16 (-2) { State.init with buffer_len := 23 }).buffer 23 = 0xfe ∧
      (write_le16 (-2) { State.init with buffer_len := 23 }).buffer 24 = 0xff ∧
      (write_le16 (-2) { State.init with buffer_len := 23 }).buffer_len = 25 := by
  obtain ⟨⟨h1, h2, h3, _⟩, _⟩ :=
    write_le_layout (-2) { State.init with buffer_len := 23 } 23 rfl
  exact ⟨h1, h2, h3⟩

/-- C16: let `CLKFREQ` be a positive multiple of 1000 and let `get_time` be called, from the
initial clock, at the true tick totals `ticks` (counted from the zero of the counter, which
then reads `t % 2^32`), in order and each before `CNT - last_cnt` would wrap past `2^32`.
Then every call returns, and the call at total `t` returns, as a 32-bit integer,
`1000 * (t / CLKFREQ) + (t % CLKFREQ) / (CLKFREQ / 1000)`, whose second summand is below
1000; this is `t / (CLKFREQ / 1000)` modulo `2^32`, however many whole seconds lie
between two calls. -/
theorem get_time_value (clkfreq : Nat) (ticks : List Nat) (hpos : 0 < clkfreq)
    (hmul : clkfreq % 1000 = 0) (hcalls : calls_in_time clkfreq 0 ticks) :
    ∃ ts, get_time_calls clkfreq (ticks.map (fun t => t % 2 ^ 32)) State.init.clock = some ts ∧
      ts = ticks.map
        (fun t => toInt32 (1000 * (t / clkfreq) + t % clkfreq / (clkfreq / 1000))) ∧
      ts = ticks.map (fun t => toInt32 (t / (clkfreq / 1000))) ∧
      (∀ t, t % clkfreq / (clkfreq / 1000) < 1000) ∧
      (∀ t, ofInt32 (toInt32 (t / (clkfreq / 1000))) = t / (clkfreq / 1000) % 2 ^ 32) := by
  obtain ⟨m, rfl⟩ : ∃ m, clkfreq = 1000 * m := ⟨clkfreq / 1000, by omega⟩
  have hm : 0 < m := by omega
  have hdm : 1000 * m / 1000 = m := Nat.mul_div_cancel_left m (by norm_num)
  have h := get_time_calls_eq m hm ticks 0 hcalls
  rw [clock_at_zero] at h
  rw [hdm]
  refine ⟨_, h, ?_, rfl, ?_, fun t => ofInt32_toInt32 _⟩
  · simp only [ms_split]
  · intro t
    have : t % (1000 * m) < 1000 * m := Nat.mod_lt _ (by omega)
    exact (Nat.div_lt_iff_lt_mul hm).mpr this

/-- C16 at 80 MHz with calls after 79999999, 160000000 and `2^32 + 5` ticks: the values are
999, 2000 and 53687 ms. -/
theorem get_time_value_witness :
    get_time_calls 80000000 ([79999999, 160000000, 2 ^ 32 + 5].map (fun t => t % 2 ^ 32))
        State.init.clock = some [999, 2000, 53687] := by
  obtain ⟨ts, h1, _, h3, _⟩ :=
    get_time_value 80000000 [79999999, 160000000, 2 ^ 32 + 5] (by decide) (by decide)
      (by simp [calls_in_time])
  rw [h1, h3]
  decide

theorem get_time_loop_short (clkfreq : Nat) (hc : 0 < clkfreq) :
    ∀ (fuel elapsed last_cnt time_ref n : Nat), elapsed < 2 ^ 32 → fuel ≤ elapsed / clkfreq →
      get_time_loop clkfreq fuel elapsed last_cnt time_ref n = none := by
  intro fuel
  induction fuel with
  | zero => intro elapsed last_cnt time_ref n _ _; rfl
  | succ fuel ih =>
    intro elapsed last_cnt time_ref n he hf
    have hge : elapsed ≥ clkfreq := by
      by_contra hlt
      rw [Nat.div_eq_of_lt (Nat.lt_of_not_ge hlt)] at hf
      omega
    have hdiv : elapsed / clkfreq = (elapsed - clkfreq) / clkfreq + 1 :=
      Nat.div_eq_sub_div hc hge
    unfold get_time_loop
    rw [if_pos hge, sub32_of_le hge he]
    exact ih _ _ _ _ (by omega) (by omega)

/-- C20: for every tick frequency `CLKFREQ > 0`, every clock state and every counter value
(all `unsigned int`), with `e = (CNT - last_cnt) mod 2^32` and `k = e / CLKFREQ`: the loop of
`get_time` ends after exactly `k` runs of its body (it returns when allowed more than `k`
evaluations of its condition and not when allowed `k` or fewer, and the `2^32 + 1` that
`get_time` allows are enough), leaving `elapsed = e % CLKFREQ`,
`last_cnt + k * CLKFREQ` and `time_ref + 1000 * k`, both modulo `2^32`; in that post-state
`(CNT - last_cnt) mod 2^32` is `e % CLKFREQ`, which is below `CLKFREQ`. -/
theorem get_time_loop_terminates (clkfreq cnt : Nat) (c : Clock) (hc : 0 < clkfreq)
    (hl : c.last_cnt < 2 ^ 32) (ht : c.time_ref < 2 ^ 32) :
    ((sub32 cnt c.last_cnt : Nat) : Int) = ((cnt : Int) - (c.last_cnt : Int)) % 2 ^ 32 ∧
    (∀ fuel, sub32 cnt c.last_cnt / clkfreq < fuel →
      get_time_loop clkfreq fuel (sub32 cnt c.last_cnt) c.last_cnt c.time_ref 0 =
        some (sub32 cnt c.last_cnt % clkfreq,
          (c.last_cnt + sub32 cnt c.last_cnt / clkfreq * clkfreq) % 2 ^ 32,
          (c.time_ref + 1000 * (sub32 cnt c.last_cnt / clkfreq)) % 2 ^ 32,
          sub32 cnt c.last_cnt / clkfreq)) ∧
    (∀ fuel, fuel ≤ sub32 cnt c.last_cnt / clkfreq →
      get_time_loop clkfreq fuel (sub32 cnt c.last_cnt) c.last_cnt c.time_ref 0 = none) ∧
    sub32 cnt c.last_cnt / clkfreq < 2 ^ 32 + 1 ∧
    sub32 cnt ((c.last_cnt + sub32 cnt c.last_cnt / clkfreq * clkfreq) % 2 ^ 32) =
      sub32 cnt c.last_cnt % clkfreq ∧
    sub32 cnt c.last_cnt % clkfreq < clkfreq := by
  have hlt := sub32_lt cnt c.last_cnt
  have hk : sub32 cnt c.last_cnt / clkfreq < 2 ^ 32 + 1 :=
    Nat.lt_of_le_of_lt (Nat.div_le_self _ _) (by omega)
  refine ⟨?_, ?_, ?_, hk, ?_, Nat.mod_lt _ hc⟩
  · unfold sub32; omega
  · intro fuel hf
    rw [get_time_loop_eq clkfreq hc fuel _ _ _ 0 hlt hf, advance_eq _ _ _ _ hl ht, Nat.zero_add]
  · intro fuel hf
    exact get_time_loop_short clkfreq hc fuel _ _ _ 0 hlt hf
  · have hdm := Nat.div_add_mod (sub32 cnt c.last_cnt) clkfreq
    rw [Nat.mul_comm] at hdm
    generalize sub32 cnt c.last_cnt / clkfreq * clkfreq = X at hdm ⊢
    generalize sub32 cnt c.last_cnt % clkfreq = r at hdm ⊢
    unfold sub32 at hdm ⊢
    omega

/-- C20 at 80 MHz from the initial clock with the counter at 200000000: two runs of the
body, leaving 40000000 ticks, `last_cnt = 160000000` and `time_ref = 2000`. -/
theorem get_time_loop_terminates_witness :
    get_time_loop 80000000 (2 ^ 32 + 1) (sub32 200000000 0) 0 0 0 =
      some (40000000, 160000000, 2000, 2) := by
  obtain ⟨_, h, _⟩ :=
    get_time_loop_terminates 80000000 200000000 ⟨0, 0⟩ (by decide) (by decide) (by decide)
  exact h (2 ^ 32 + 1) (by decide)

theorem dispatch_config_reply (clkfreq : Nat) (inp : Input) (s : State) (len : Int)
    (seq c1 c2 : Nat) (hrep : (len, seq, c1, c2) ∈ config_replies)
    (h : cmp_api_response s len [0x88, seq, c1, c2, 0x00] = true) :
    dispatch clkfreq inp s = some (config_handler seq s) := by
  obtain ⟨hl, h0, h1, h2, h3, h4⟩ := (cmp_api_response_iff s len _ _ _ _ _).mp h
  simp only [config_replies, List.mem_cons, Prod.mk.injEq, List.mem_singleton,
    List.not_mem_nil, or_false] at hrep
  rcases hrep with ⟨rfl, rfl, rfl, rfl⟩ | ⟨rfl, rfl, rfl, rfl⟩ | ⟨rfl, rfl, rfl, rfl⟩ |
    ⟨rfl, rfl, rfl, rfl⟩ | ⟨rfl, rfl, rfl, rfl⟩ <;>
    simp [dispatch, cmp_api_response_iff, hl, h0, h1, h2, h3, h4, config_handler]

/-- C18: for each of the five configuration replies (`AI`, `SL`, `SH`, `C0`, `MY`, with
lengths 6, 9, 7, 7, 9 and sequence numbers 5, 1, 2, 3, 4) the test `cmp_api_response`
of the main loop succeeds if and only if the received length is the expected one, bytes
0..3 are `0x88`, the sequence number and the two command letters, and byte 4 is 0; when
it succeeds the dispatch step is the branch of that reply. A frame with the right length
and the right bytes 0..3 but a byte 4 other than 0 only gets printed: the state is left
as it is, so no identity field changes, and nothing is sent. -/
theorem config_reply_needs_status_zero (clkfreq : Nat) (inp : Input) (s : State) (len : Int)
    (seq c1 c2 : Nat) (hrep : (len, seq, c1, c2) ∈ config_replies) :
    (cmp_api_response s len [0x88, seq, c1, c2, 0x00] = true ↔
      s.buffer_len = len ∧ s.buffer 0 = 0x88 ∧ s.buffer 1 = seq ∧ s.buffer 2 = c1 ∧
        s.buffer 3 = c2 ∧ s.buffer 4 = 0) ∧
    (cmp_api_response s len [0x88, seq, c1, c2, 0x00] = true →
      dispatch clkfreq inp s = some (config_handler seq s)) ∧
    (s.buffer_len = len → s.buffer 0 = 0x88 → s.buffer 1 = seq → s.buffer 2 = c1 →
      s.buffer 3 = c2 → s.buffer 4 ≠ 0 →
      dispatch clkfreq inp s = some (s, [buffer_print s s.buffer_len])) := by
  refine ⟨cmp_api_response_iff s len _ _ _ _ _,
    dispatch_config_reply clkfreq inp s len seq c1 c2 hrep, ?_⟩
  · intro hl h0 h1 h2 h3 h4
    simp only [config_replies, List.mem_cons, Prod.mk.injEq, List.mem_singleton,
      List.not_mem_nil, or_false] at hrep
    rcases hrep with ⟨rfl, rfl, rfl, rfl⟩ | ⟨rfl, rfl, rfl, rfl⟩ | ⟨rfl, rfl, rfl, rfl⟩ |
      ⟨rfl, rfl, rfl, rfl⟩ | ⟨rfl, rfl, rfl, rfl⟩ <;>
      simp [dispatch, cmp_api_response_iff, cmp_rx_headers_iff, hl, h0, h1, h2, h3, h4]

/-- C18 at a serial-number-low reply with status 1: it is printed and `mac_addr` stays. -/
theorem config_reply_needs_status_zero_witness :
    dispatch clkfreq_80MHz (frame_input sl_error_frame 0)
        (xbee_recv (frame_input sl_error_frame 0) State.init) =
      some (xbee_recv (frame_input sl_error_frame 0) State.init,
        [buffer_print (xbee_recv (frame_input sl_error_frame 0) State.init) 9]) :=
  (config_reply_needs_status_zero clkfreq_80MHz (frame_input sl_error_frame 0)
    (xbee_recv (frame_input sl_error_frame 0) State.init) 9 1 0x53 0x4c (by decide)).2.2
    rfl rfl rfl rfl rfl (by decide)

theorem write_le16_tail (v : Int) (s : State) (i n : Nat) (hn : s.buffer_len = (n : Int))
    (hi : n + 2 ≤ i) : (write_le16 v s).buffer i = s.buffer i := by
  simp only [write_le16, hn, memcpy, le_bytes_two, Int.toNat_ofNat, List.length_cons,
    List.length_nil]
  rw [if_neg (by omega)]

theorem write_le32_tail (v : Int) (s : State) (i n : Nat) (hn : s.buffer_len = (n : Int))
    (hi : n + 4 ≤ i) : (write_le32 v s).buffer i = s.buffer i := by
  simp only [write_le32, hn, memcpy, le_bytes_four, Int.toNat_ofNat, List.length_cons,
    List.length_nil]
  rw [if_neg (by omega)]

theorem push_byte_tail (v : Int) (s : State) (i n : Nat) (hn : s.buffer_len = (n : Int))
    (hi : n + 1 ≤ i) : (push_byte v s).buffer i = s.buffer i := by
  simp only [push_byte, hn, store, Int.toNat_ofNat]
  rw [if_neg (by omega)]

theorem tail_kept_refl (s : State) : tail_kept s s :=
  ⟨fun _ _ => rfl, Or.inl rfl⟩

theorem tail_kept_trans {a b c : State} (h1 : tail_kept a b) (h2 : tail_kept b c) :
    tail_kept a c := by
  refine ⟨fun i hi => (h2.1 i hi).trans (h1.1 i hi), ?_⟩
  rcases h2.2 with h | h
  · rcases h1.2 with h' | h'
    · exact Or.inl (h.trans h')
    · exact Or.inr (by rw [h]; exact h')
  · exact Or.inr h

theorem tail_tx (s : State) (t : Int) (c : Clock) (cmd : Nat) :
    tail_kept s (tx_state s t c cmd) :=
  ⟨fun i hi => tx_state_rest s t c cmd i (by omega), Or.inr (by simp [tx_state])⟩

theorem tail_tx_8 (s : State) (t : Int) (c : Clock) (cmd : Nat) (a : Int) :
    tail_kept s (push_byte a (tx_state s t c cmd)) :=
  ⟨fun i hi => by
      rw [push_byte_tail _ _ i 23 rfl (by omega), tx_state_rest s t c cmd i (by omega)],
    Or.inr (by simp [tx_state, write_le16, write_le32, push_byte])⟩

theorem tail_tx_8_8 (s : State) (t : Int) (c : Clock) (cmd : Nat) (a b : Int) :
    tail_kept s (push_byte b (push_byte a (tx_state s t c cmd))) :=
  ⟨fun i hi => by
      rw [push_byte_tail _ _ i 24 rfl (by omega), push_byte_tail _ _ i 23 rfl (by omega),
        tx_state_rest s t c cmd i (by omega)],
    Or.inr (by simp [tx_state, write_le16, write_le32, push_byte])⟩

theorem tail_tx_16 (s : State) (t : Int) (c : Clock) (cmd : Nat) (a : Int) :
    tail_kept s (write_le16 a (tx_state s t c cmd)) :=
  ⟨fun i hi => by
      rw [write_le16_tail _ _ i 23 rfl (by omega), tx_state_rest s t c cmd i (by omega)],
    Or.inr (by simp [tx_state, write_le16, write_le32, push_byte])⟩

theorem tail_tx_16_8 (s : State) (t : Int) (c : Clock) (cmd : Nat) (a b : Int) :
    tail_kept s (push_byte b (write_le16 a (tx_state s t c cmd))) :=
  ⟨fun i hi => by
      rw [push_byte_tail _ _ i 25 rfl (by omega), write_le16_tail _ _ i 23 rfl (by omega),
        tx_state_rest s t c cmd i (by omega)],
    Or.inr (by simp [tx_state, write_le16, write_le32, push_byte])⟩

theorem tail_tx_16_16 (s : State) (t : Int) (c : Clock) (cmd : Nat) (a b : Int) :
    tail_kept s (write_le16 b (write_le16 a (tx_state s t c cmd))) :=
  ⟨fun i hi => by
      rw [write_le16_tail _ _ i 25 rfl (by omega), write_le16_tail _ _ i 23 rfl (by omega),
        tx_state_rest s t c cmd i (by omega)],
    Or.inr (by simp [tx_state, write_le16, write_le32, push_byte])⟩

theorem tail_tx_32_32 (s : State) (t : Int) (c : Clock) (cmd : Nat) (a b : Int) :
    tail_kept s (write_le32 b (write_le32 a (tx_state s t c cmd))) :=
  ⟨fun i hi => by
      rw [write_le32_tail _ _ i 27 rfl (by omega), write_le32_tail _ _ i 23 rfl (by omega),
        tx_state_rest s t c cmd i (by omega)],
    Or.inr (by simp [tx_state, write_le16, write_le32, push_byte])⟩

theorem handle_AI_frames (s : State) :
    frames_within (handle_AI s).2 ∧ (data_frames (handle_AI s).2).length ≤ 1 := by
  unfold handle_AI
  split <;> simp [frames_within, data_frames, sent_frames]

theorem dispatch_frames (clkfreq : Nat) (inp : Input) (s : State) (hc : 1000 ≤ clkfreq) :
    ∃ s1 e, dispatch clkfreq inp s = some (s1, e) ∧ frames_within e ∧
      (data_frames e).length ≤ 1 ∧ tail_kept s s1 := by
  obtain ⟨t, c, ht⟩ := get_time_some clkfreq inp.cnt_dispatch s.clock hc
  rcases dispatch_cases clkfreq inp s with ⟨_, hd⟩ | ⟨_, hd⟩
  · rw [hd, handle_timeout_eq ht]
    split_ifs
    · exact ⟨_, _, rfl, by simp [frames_within, sent_frames, tx_header, le_bytes_four],
        by simp [data_frames, sent_frames, tx_header, le_bytes_four],
        tail_tx { s with slower := 0 } t c 0x49⟩
    · exact ⟨_, _, rfl, by simp [frames_within, sent_frames],
        by simp [data_frames, sent_frames], ⟨fun _ _ => rfl, Or.inl rfl⟩⟩
  · rcases hd with hd | hd | hd | hd | hd | hd | hd | hd | hd | hd | hd | hd | hd | hd <;> rw [hd]
    · refine ⟨(handle_AI s).1, (handle_AI s).2, rfl, (handle_AI_frames s).1,
        (handle_AI_frames s).2, ?_⟩
      rw [handle_AI_fst]; exact tail_kept_refl s
    · exact ⟨_, _, rfl, by simp [handle_SL, frames_within, sent_frames],
        by simp [handle_SL, data_frames, sent_frames], ⟨fun _ _ => rfl, Or.inl rfl⟩⟩
    · exact ⟨_, _, rfl, by simp [handle_SH, frames_within, sent_frames],
        by simp [handle_SH, data_frames, sent_frames], ⟨fun _ _ => rfl, Or.inl rfl⟩⟩
    · exact ⟨_, _, rfl, by simp [handle_C0, frames_within, sent_frames],
        by simp [handle_C0, data_frames, sent_frames], ⟨fun _ _ => rfl, Or.inl rfl⟩⟩
    · exact ⟨_, _, rfl, by simp [handle_MY, frames_within, sent_frames],
        by simp [handle_MY, data_frames, sent_frames], ⟨fun _ _ => rfl, Or.inl rfl⟩⟩
    · exact ⟨_, _, handle_B_eq ht,
        by simp [frames_within, sent_frames, tx_header, le_bytes_four, le_bytes_two],
        by simp [data_frames, sent_frames, tx_header, le_bytes_four, le_bytes_two],
        tail_tx_16_16 s t c _ _ _⟩
    · exact ⟨_, _, handle_G_eq ht,
        by simp [frames_within, sent_frames, tx_header, le_bytes_four, le_bytes_two],
        by simp [data_frames, sent_frames, tx_header, le_bytes_four, le_bytes_two],
        tail_tx_16_8 s t c _ _ _⟩
    · exact ⟨_, _, handle_S_eq ht,
        by simp [frames_within, sent_frames, tx_header, le_bytes_four, le_bytes_two],
        by simp [data_frames, sent_frames, tx_header, le_bytes_four, le_bytes_two],
        tail_tx_16_16 s t c _ _ _⟩
    · exact ⟨_, _, handle_R_eq ht,
        by simp [frames_within, sent_frames, tx_header, le_bytes_four, le_bytes_two],
        by simp [data_frames, sent_frames, tx_header, le_bytes_four, le_bytes_two],
        tail_tx_16 s t c _ _⟩
    · exact ⟨_, _, handle_T_eq ht,
        by simp [frames_within, sent_frames, tx_header, le_bytes_four],
        by simp [data_frames, sent_frames, tx_header, le_bytes_four],
        tail_tx_32_32 s t c _ _ _⟩
    · exact ⟨_, _, handle_D_eq ht,
        by simp [frames_within, sent_frames, tx_header, le_bytes_four, le_bytes_two],
        by simp [data_frames, sent_frames, tx_header, le_bytes_four, le_bytes_two],
        tail_tx_16_16 s t c _ _ _⟩
    · exact ⟨_, _, handle_L_eq ht,
        by simp [frames_within, sent_frames_led, tx_header, le_bytes_four],
        by simp [data_frames, sent_frames_led, tx_header, le_bytes_four],
        tail_tx_8_8 s t c _ _ _⟩
    · exact ⟨_, _, rfl, by simp [frames_within, sent_frames, buffer_print],
        by simp [data_frames, sent_frames, buffer_print], tail_kept_refl s⟩
    · exact ⟨_, _, rfl, by simp [frames_within, sent_frames],
        by simp [data_frames, sent_frames], tail_kept_refl s⟩

theorem frames_within_append {a b : List Effect} (ha : frames_within a) (hb : frames_within b) :
    frames_within (a ++ b) := by
  intro f hf
  rw [sent_frames_append] at hf
  rcases List.mem_append.mp hf with h | h
  · exact ha f h
  · exact hb f h

theorem send_event_frames {clkfreq cnt : Nat} (code : Nat) (v : Int) {s : State} {t : Int}
    {c : Clock} (h : get_time clkfreq cnt s.clock = some (t, c)) :
    ∃ s1 e, send_event clkfreq cnt code v s = some (s1, e) ∧ frames_within e ∧
      tail_kept s s1 :=
  ⟨_, _, send_event_eq code v h, by simp [frames_within, sent_frames, tx_header, le_bytes_four],
    tail_tx_8 s t c code v⟩

theorem check_whiskers_frames (clkfreq : Nat) (inp : Input) (s : State) (hc : 1000 ≤ clkfreq) :
    ∃ s1 e, check_whiskers clkfreq inp s = some (s1, e) ∧ frames_within e ∧ tail_kept s s1 := by
  obtain ⟨t, c, ht⟩ := get_time_some clkfreq inp.cnt_whiskers s.clock hc
  unfold check_whiskers
  by_cases h : s.whiskers ≠ whiskers_value inp
  · rw [if_pos h]
    exact send_event_frames (s := { s with whiskers := whiskers_value inp }) _ _ ht
  · rw [if_neg h]
    exact ⟨s, [], rfl, by simp [frames_within, sent_frames], tail_kept_refl s⟩

theorem check_button_frames (clkfreq : Nat) (inp : Input) (s : State) (hc : 1000 ≤ clkfreq) :
    ∃ s1 e, check_button clkfreq inp s = some (s1, e) ∧ frames_within e ∧ tail_kept s s1 := by
  obtain ⟨t, c, ht⟩ := get_time_some clkfreq inp.cnt_button s.clock hc
  unfold check_button
  simp only []
  by_cases h : ofInt32 s.button ≠ input inp.button_level
  · rw [if_pos h]
    exact send_event_frames
      (s := { s with buttonState := input inp.button_level,
                     button := toInt32 (input inp.button_level) }) _ _ ht
  · rw [if_neg h]
    exact ⟨_, [], rfl, by simp [frames_within, sent_frames], ⟨fun _ _ => rfl, Or.inl rfl⟩⟩

theorem check_infrared_frames (clkfreq : Nat) (inp : Input) (s : State) (hc : 1000 ≤ clkfreq) :
    ∃ s1 e, check_infrared clkfreq inp s = some (s1, e) ∧ frames_within e ∧ tail_kept s s1 := by
  obtain ⟨t, c, ht⟩ := get_time_some clkfreq inp.cnt_infrared s.clock hc
  unfold check_infrared
  by_cases h : s.infrared ≠ infrared_value inp
  · rw [if_pos h]
    exact send_event_frames (s := { s with infrared := infrared_value inp }) _ _ ht
  · rw [if_neg h]
    exact ⟨s, [], rfl, by simp [frames_within, sent_frames], tail_kept_refl s⟩

theorem sensors_frames (clkfreq : Nat) (inp : Input) (s : State) (hc : 1000 ≤ clkfreq) :
    ∃ s1 e, sensors clkfreq inp s = some (s1, e) ∧ frames_within e ∧ tail_kept s s1 := by
  obtain ⟨sa, ew, hw, fw, tw⟩ := check_whiskers_frames clkfreq inp s hc
  obtain ⟨sb, ep, hp, fp, tp⟩ := check_button_frames clkfreq inp sa hc
  obtain ⟨sc, ei, hi, fi, ti⟩ := check_infrared_frames clkfreq inp sb hc
  refine ⟨sc, ew ++ ep ++ ei, ?_, frames_within_append (frames_within_append fw fp) fi,
    tail_kept_trans (tail_kept_trans tw tp) ti⟩
  unfold sensors
  rw [hw, and_then_some hp, and_then_some hi]

theorem button_detect_frames (clkfreq : Nat) (inp : Input) (s : State) (hc : 1000 ≤ clkfreq) :
    ∃ s1 e, button_detect clkfreq inp s = some (s1, e) ∧ sent_frames e = [] ∧
      s1.buffer = s.buffer ∧ s1.buffer_len = s.buffer_len := by
  obtain ⟨t, c, ht⟩ := get_time_some clkfreq inp.cnt_hold s.clock hc
  rw [button_detect_eq ht]
  split
  · split
    · exact ⟨_, _, rfl, rfl, rfl, rfl⟩
    · refine ⟨_, _, rfl, ?_, rfl, rfl⟩
      split <;> rfl
  · exact ⟨_, _, rfl, rfl, rfl, rfl⟩

/-- C13: with a tick frequency of at least 1000, every loop iteration returns, its effects
being those of the dispatch step, the sensor blocks and the button detector, and every
frame it hands to `xbee_send_api` (each reply `B G S R T D L`, each event `W P F`, the
heartbeat `I`, and the transport commands) has at most 31 bytes, which is below the buffer
capacity of 200. For a frame built in the shared buffer that length is the write cursor
`buffer_len`; after each step the cursor is what it was or lies between 23 and 31, and no
byte of the buffer from index 31 on has changed, so no write of `write_le16`, `write_le32`
or `buffer[buffer_len++]` lands at index 31 or above. -/
theorem outbound_frames_fit (clkfreq : Nat) (inp : Input) (s : State) (hc : 1000 ≤ clkfreq) :
    ∃ s1 e1 s2 e2 s3 e3,
      dispatch clkfreq inp (xbee_recv inp s) = some (s1, e1) ∧
      sensors clkfreq inp s1 = some (s2, e2) ∧
      button_detect clkfreq inp s2 = some (s3, e3) ∧
      loop_iteration clkfreq inp s = some (s3, e1 ++ e2 ++ e3) ∧
      (∀ f ∈ sent_frames (e1 ++ e2 ++ e3), f.length ≤ 31) ∧ 31 ≤ BUFFER_SIZE ∧
      tail_kept (xbee_recv inp s) s1 ∧ tail_kept s1 s2 ∧ tail_kept s2 s3 := by
  obtain ⟨s1, e1, hd, f1, _, t1⟩ := dispatch_frames clkfreq inp (xbee_recv inp s) hc
  obtain ⟨s2, e2, hs, f2, t2⟩ := sensors_frames clkfreq inp s1 hc
  obtain ⟨s3, e3, hb, f3, hbuf, hlen⟩ := button_detect_frames clkfreq inp s2 hc
  have f3' : frames_within e3 := by
    intro f hf; rw [f3] at hf; exact absurd hf (List.not_mem_nil f)
  refine ⟨s1, e1, s2, e2, s3, e3, hd, hs, hb, ?_,
    frames_within_append (frames_within_append f1 f2) f3', by decide, t1, t2,
    ⟨fun i _ => by rw [hbuf], Or.inl hlen⟩⟩
  unfold loop_iteration
  rw [hd, and_then_some hs, and_then_some hb]

/-- C13 at 80 MHz for an iteration that receives the `T` frame, from the initial state. -/
theorem outbound_frames_fit_witness :
    ∃ s3 e, loop_iteration clkfreq_80MHz ticks_input State.init = some (s3, e) ∧
      ∀ f ∈ sent_frames e, f.length ≤ 31 := by
  obtain ⟨_, e1, _, e2, s3, e3, _, _, _, h, hf, _⟩ :=
    outbound_frames_fit clkfreq_80MHz ticks_input State.init (by decide)
  exact ⟨s3, e1 ++ e2 ++ e3, h, hf⟩

/-- C17: with a tick frequency of at least 1000 and `button` holding an `int`, whatever the
receive result, every loop iteration runs the dispatch step, then the sensor blocks, then
the button detector, and each of them returns. Its effects are, in this order: those of the
dispatch step, among which at most one frame for the peer (first byte `0x20`), never with
code `W`, `P` or `F`; then at most one `W` frame, at most one `P` frame and at most one `F`
frame, in that order; then the effects of the button detector, which sends no frame. -/
theorem iteration_order (clkfreq : Nat) (inp : Input) (s : State) (hc : 1000 ≤ clkfreq)
    (h1 : -2 ^ 31 ≤ s.button) (h2 : s.button < 2 ^ 31) :
    ∃ s1 s2 s3 ed ew ep ei eb,
      dispatch clkfreq inp (xbee_recv inp s) = some (s1, ed) ∧
      sensors clkfreq inp s1 = some (s2, ew ++ ep ++ ei) ∧
      button_detect clkfreq inp s2 = some (s3, eb) ∧
      loop_iteration clkfreq inp s = some (s3, ed ++ (ew ++ ep ++ ei) ++ eb) ∧
      (data_frames ed).length ≤ 1 ∧ no_event_code ed ∧
      event_frames (s.whiskers ≠ whiskers_value inp) 0x57 (whiskers_value inp).toNat ew ∧
      event_frames (s.button ≠ (input inp.button_level : Int)) 0x50 (input inp.button_level) ep ∧
      event_frames (s.infrared ≠ infrared_value inp) 0x46 (infrared_value inp).toNat ei ∧
      sent_frames eb = [] := by
  obtain ⟨sa, ed, hd, hsa, _, _⟩ := dispatch_spec clkfreq inp (xbee_recv inp s) hc
  obtain ⟨sa', ed', hd', _, hdata, _⟩ := dispatch_frames clkfreq inp (xbee_recv inp s) hc
  rw [hd] at hd'
  simp only [Option.some.injEq, Prod.mk.injEq] at hd'
  obtain ⟨_, rfl⟩ := hd'
  have hab : sa.button = s.button := hsa.2.1
  have haw : sa.whiskers = s.whiskers := hsa.1
  have hai : sa.infrared = s.infrared := hsa.2.2.1
  obtain ⟨sb, ew, ep, ei, hs, _, _, hew, hep, hei, _⟩ :=
    sensors_spec clkfreq inp sa hc (by rw [hab]; exact h1) (by rw [hab]; exact h2)
  obtain ⟨sc, eb, hb, _, _, _, _, hfb⟩ := button_detect_spec clkfreq inp sb hc
  rw [haw] at hew
  rw [hab] at hep
  rw [hai] at hei
  refine ⟨sa, sb, sc, ed, ew, ep, ei, eb, hd, hs, hb, ?_, hdata,
    dispatch_no_event clkfreq inp _ hc sa ed hd, hew, hep, hei, hfb⟩
  unfold loop_iteration
  rw [hd, and_then_some hs, and_then_some hb]

/-- C17 at 80 MHz for the first iteration, which receives the `B` frame while the button
reads released: the frames sent are the `B` reply and then the `P` event. -/
theorem iteration_order_witness :
    ∃ s3 e, loop_iteration clkfreq_80MHz (frame_input beep_frame 160000) State.init =
        some (s3, e) ∧
      (sent_frames e).map (fun f => f.get? 22) = [some 0x42, some 0x50] := by
  obtain ⟨_, _, s3, ed, ew, ep, ei, eb, _, _, _, h, _⟩ :=
    iteration_order clkfreq_80MHz (frame_input beep_frame 160000) State.init (by decide)
      (by decide) (by decide)
  refine ⟨s3, _, h, ?_⟩
  have h2 : (loop_iteration clkfreq_80MHz (frame_input beep_frame 160000) State.init).map
      (fun r => (sent_frames r.2).map (fun f => f.get? 22)) =
      some [some 0x42, some 0x50] := by decide
  rw [h] at h2
  simpa using h2

theorem forget_buffer_tx {s s2 : State} (h : forget_buffer s = forget_buffer s2) (t : Int)
    (c : Clock) (cmd : Nat) :
    forget_buffer (tx_state s t c cmd) = forget_buffer (tx_state s2 t c cmd) := by
  cases s; cases s2
  simp only [forget_buffer, State.mk.injEq, true_and] at h
  simp only [forget_buffer, tx_state, State.mk.injEq, true_and]
  obtain ⟨h1, h2, h3, h4, h5, h6, h7, h8, h9, h10, h11, h12, h13, h14, h15⟩ := h
  exact ⟨h2, h3, h4, h6, h7, h8, h9, h10, h11, h12, h13, h14, h15⟩

theorem forget_buffer_16 {s s2 : State} (h : forget_buffer s = forget_buffer s2) (v : Int) :
    forget_buffer (write_le16 v s) = forget_buffer (write_le16 v s2) := by
  cases s; cases s2
  simp only [forget_buffer, State.mk.injEq, true_and] at h
  simp only [forget_buffer, write_le16, State.mk.injEq, true_and]
  obtain ⟨h1, h2, h3, h4, h5, h6, h7, h8, h9, h10, h11, h12, h13, h14, h15⟩ := h
  exact ⟨by rw [h1], h2, h3, h4, h5, h6, h7, h8, h9, h10, h11, h12, h13, h14, h15⟩

theorem forget_buffer_32 {s s2 : State} (h : forget_buffer s = forget_buffer s2) (v : Int) :
    forget_buffer (write_le32 v s) = forget_buffer (write_le32 v s2) := by
  cases s; cases s2
  simp only [forget_buffer, State.mk.injEq, true_and] at h
  simp only [forget_buffer, write_le32, State.mk.injEq, true_and]
  obtain ⟨h1, h2, h3, h4, h5, h6, h7, h8, h9, h10, h11, h12, h13, h14, h15⟩ := h
  exact ⟨by rw [h1], h2, h3, h4, h5, h6, h7, h8, h9, h10, h11, h12, h13, h14, h15⟩

theorem forget_buffer_8 {s s2 : State} (h : forget_buffer s = forget_buffer s2) (v : Int) :
    forget_buffer (push_byte v s) = forget_buffer (push_byte v s2) := by
  cases s; cases s2
  simp only [forget_buffer, State.mk.injEq, true_and] at h
  simp only [forget_buffer, push_byte, State.mk.injEq, true_and]
  obtain ⟨h1, h2, h3, h4, h5, h6, h7, h8, h9, h10, h11, h12, h13, h14, h15⟩ := h
  exact ⟨by rw [h1], h2, h3, h4, h5, h6, h7, h8, h9, h10, h11, h12, h13, h14, h15⟩

theorem forget_buffer_fields {s s2 : State} (h : forget_buffer s = forget_buffer s2) :
    s.buffer_len = s2.buffer_len ∧ s.mac_addr = s2.mac_addr ∧ s.ip4_addr = s2.ip4_addr ∧
      s.ip4_port = s2.ip4_port ∧ s.clock = s2.clock ∧ s.slower = s2.slower :=
  ⟨(congrArg State.buffer_len h : (forget_buffer s).buffer_len = (forget_buffer s2).buffer_len),
    (congrArg State.mac_addr h : (forget_buffer s).mac_addr = (forget_buffer s2).mac_addr),
    (congrArg State.ip4_addr h : (forget_buffer s).ip4_addr = (forget_buffer s2).ip4_addr),
    (congrArg State.ip4_port h : (forget_buffer s).ip4_port = (forget_buffer s2).ip4_port),
    (congrArg State.clock h : (forget_buffer s).clock = (forget_buffer s2).clock),
    (congrArg State.slower h : (forget_buffer s).slower = (forget_buffer s2).slower)⟩

theorem tx_header_congr {s s2 : State} (h : forget_buffer s = forget_buffer s2) (t : Int)
    (cmd : Nat) : tx_header s t cmd = tx_header s2 t cmd := by
  obtain ⟨_, hm, _, hp, _, _⟩ := forget_buffer_fields h
  simp only [tx_header, hm, hp]

theorem bytes_at_congr {m m2 : Mem} (off n : Nat) (h : ∀ i, i < n → m (off + i) = m2 (off + i)) :
    bytes_at m off n = bytes_at m2 off n := by
  unfold bytes_at
  apply List.map_congr_left
  intro i hi
  exact h i (List.mem_range.mp hi)

theorem handle_B_ni (clkfreq : Nat) (inp : Input) {s s2 : State}
    (h : forget_buffer s = forget_buffer s2) (h12 : s.buffer 12 = s2.buffer 12)
    (h13 : s.buffer 13 = s2.buffer 13) (h14 : s.buffer 14 = s2.buffer 14)
    (h15 : s.buffer 15 = s2.buffer 15) :
    observable (handle_B clkfreq inp s) = observable (handle_B clkfreq inp s2) := by
  have hck : s.clock = s2.clock := (forget_buffer_fields h).2.2.2.2.1
  cases hgt : get_time clkfreq inp.cnt_dispatch s.clock with
  | none =>
    have hgt2 := hgt
    rw [hck] at hgt2
    simp [handle_B, set_tx_headers, hgt, hgt2]
  | some r =>
    obtain ⟨t, c⟩ := r
    have hgt2 := hgt
    rw [hck] at hgt2
    rw [handle_B_eq hgt, handle_B_eq hgt2]
    simp only [observable, Option.map, read_short, h12, h13, h14, h15, tx_header_congr h,
      forget_buffer_16 (forget_buffer_16 (forget_buffer_tx h t c 0x42) _) _]

theorem handle_S_ni (clkfreq : Nat) (inp : Input) {s s2 : State}
    (h : forget_buffer s = forget_buffer s2) (h12 : s.buffer 12 = s2.buffer 12)
    (h13 : s.buffer 13 = s2.buffer 13) (h14 : s.buffer 14 = s2.buffer 14)
    (h15 : s.buffer 15 = s2.buffer 15) :
    observable (handle_S clkfreq inp s) = observable (handle_S clkfreq inp s2) := by
  have hck : s.clock = s2.clock := (forget_buffer_fields h).2.2.2.2.1
  cases hgt : get_time clkfreq inp.cnt_dispatch s.clock with
  | none =>
    have hgt2 := hgt
    rw [hck] at hgt2
    simp [handle_S, set_tx_headers, hgt, hgt2]
  | some r =>
    obtain ⟨t, c⟩ := r
    have hgt2 := hgt
    rw [hck] at hgt2
    rw [handle_S_eq hgt, handle_S_eq hgt2]
    simp only [observable, Option.map, read_short, h12, h13, h14, h15, tx_header_congr h,
      forget_buffer_16 (forget_buffer_16 (forget_buffer_tx h t c 0x53) _) _]

theorem handle_D_ni (clkfreq : Nat) (inp : Input) {s s2 : State}
    (h : forget_buffer s = forget_buffer s2) (h12 : s.buffer 12 = s2.buffer 12)
    (h13 : s.buffer 13 = s2.buffer 13) (h14 : s.buffer 14 = s2.buffer 14)
    (h15 : s.buffer 15 = s2.buffer 15) :
    observable (handle_D clkfreq inp s) = observable (handle_D clkfreq inp s2) := by
  have hck : s.clock = s2.clock := (forget_buffer_fields h).2.2.2.2.1
  cases hgt : get_time clkfreq inp.cnt_dispatch s.clock with
  | none =>
    have hgt2 := hgt
    rw [hck] at hgt2
    simp [handle_D, set_tx_headers, hgt, hgt2]
  | some r =>
    obtain ⟨t, c⟩ := r
    have hgt2 := hgt
    rw [hck] at hgt2
    rw [handle_D_eq hgt, handle_D_eq hgt2]
    simp only [observable, Option.map, read_short, h12, h13, h14, h15, tx_header_congr h,
      forget_buffer_16 (forget_buffer_16 (forget_buffer_tx h t c 0x44) _) _]

theorem handle_G_ni (clkfreq : Nat) (inp : Input) {s s2 : State}
    (h : forget_buffer s = forget_buffer s2) (h12 : s.buffer 12 = s2.buffer 12)
    (h13 : s.buffer 13 = s2.buffer 13) (h14 : s.buffer 14 = s2.buffer 14) :
    observable (handle_G clkfreq inp s) = observable (handle_G clkfreq inp s2) := by
  have hck : s.clock = s2.clock := (forget_buffer_fields h).2.2.2.2.1
  cases hgt : get_time clkfreq inp.cnt_dispatch s.clock with
  | none =>
    have hgt2 := hgt
    rw [hck] at hgt2
    simp [handle_G, set_tx_headers, hgt, hgt2]
  | some r =>
    obtain ⟨t, c⟩ := r
    have hgt2 := hgt
    rw [hck] at hgt2
    rw [handle_G_eq hgt, handle_G_eq hgt2]
    simp only [observable, Option.map, read_short, h12, h13, h14, tx_header_congr h,
      forget_buffer_8 (forget_buffer_16 (forget_buffer_tx h t c 0x47) _) _]

theorem handle_L_ni (clkfreq : Nat) (inp : Input) {s s2 : State}
    (h : forget_buffer s = forget_buffer s2) (h12 : s.buffer 12 = s2.buffer 12)
    (h13 : s.buffer 13 = s2.buffer 13) :
    observable (handle_L clkfreq inp s) = observable (handle_L clkfreq inp s2) := by
  have hck : s.clock = s2.clock := (forget_buffer_fields h).2.2.2.2.1
  cases hgt : get_time clkfreq inp.cnt_dispatch s.clock with
  | none =>
    have hgt2 := hgt
    rw [hck] at hgt2
    simp [handle_L, set_tx_headers, hgt, hgt2]
  | some r =>
    obtain ⟨t, c⟩ := r
    have hgt2 := hgt
    rw [hck] at hgt2
    rw [handle_L_eq hgt, handle_L_eq hgt2]
    simp only [observable, Option.map, h12, h13, tx_header_congr h,
      forget_buffer_8 (forget_buffer_8 (forget_buffer_tx h t c 0x4c) _) _]

theorem handle_R_ni (clkfreq : Nat) (inp : Input) {s s2 : State}
    (h : forget_buffer s = forget_buffer s2) :
    observable (handle_R clkfreq inp s) = observable (handle_R clkfreq inp s2) := by
  have hck : s.clock = s2.clock := (forget_buffer_fields h).2.2.2.2.1
  cases hgt : get_time clkfreq inp.cnt_dispatch s.clock with
  | none =>
    have hgt2 := hgt
    rw [hck] at hgt2
    simp [handle_R, set_tx_headers, hgt, hgt2]
  | some r =>
    obtain ⟨t, c⟩ := r
    have hgt2 := hgt
    rw [hck] at hgt2
    rw [handle_R_eq hgt, handle_R_eq hgt2]
    simp only [observable, Option.map, tx_header_congr h,
      forget_buffer_16 (forget_buffer_tx h t c 0x52) _]

theorem handle_T_ni (clkfreq : Nat) (inp : Input) {s s2 : State}
    (h : forget_buffer s = forget_buffer s2) :
    observable (handle_T clkfreq inp s) = observable (handle_T clkfreq inp s2) := by
  have hck : s.clock = s2.clock := (forget_buffer_fields h).2.2.2.2.1
  cases hgt : get_time clkfreq inp.cnt_dispatch s.clock with
  | none =>
    have hgt2 := hgt
    rw [hck] at hgt2
    simp [handle_T, set_tx_headers, hgt, hgt2]
  | some r =>
    obtain ⟨t, c⟩ := r
    have hgt2 := hgt
    rw [hck] at hgt2
    rw [handle_T_eq hgt, handle_T_eq hgt2]
    simp only [observable, Option.map, tx_header_congr h,
      forget_buffer_32 (forget_buffer_32 (forget_buffer_tx h t c 0x54) _) _]

theorem forget_buffer_slower {s s2 : State} (h : forget_buffer s = forget_buffer s2) (v : Int) :
    forget_buffer { s with slower := v } = forget_buffer { s2 with slower := v } := by
  cases s; cases s2
  simp only [forget_buffer, State.mk.injEq, true_and] at h
  simp only [forget_buffer, State.mk.injEq, true_and]
  obtain ⟨h1, h2, h3, h4, h5, h6, h7, h8, h9, h10, h11, h12, h13, h14, h15⟩ := h
  exact ⟨h1, h2, h3, h4, h5, h6, h7, h8, h9, h10, h11, h12, h13, h14, trivial⟩

theorem handle_timeout_ni (clkfreq : Nat) (inp : Input) {s s2 : State}
    (h : forget_buffer s = forget_buffer s2) :
    observable (handle_timeout clkfreq inp s) = observable (handle_timeout clkfreq inp s2) := by
  have hck : s.clock = s2.clock := (forget_buffer_fields h).2.2.2.2.1
  have hsl : s.slower = s2.slower := (forget_buffer_fields h).2.2.2.2.2
  cases hgt : get_time clkfreq inp.cnt_dispatch s.clock with
  | none =>
    have hgt2 := hgt
    rw [hck] at hgt2
    unfold handle_timeout
    simp only [set_tx_headers, hgt, hgt2, ← hsl]
    split
    · rfl
    · simp only [observable, Option.map, forget_buffer_slower h]
  | some r =>
    obtain ⟨t, c⟩ := r
    have hgt2 := hgt
    rw [hck] at hgt2
    rw [handle_timeout_eq hgt, handle_timeout_eq hgt2, ← hsl]
    split
    · simp only [observable, Option.map, tx_header_congr h,
        forget_buffer_tx (forget_buffer_slower h 0) t c 0x49]
    · simp only [observable, Option.map, forget_buffer_slower h]

theorem handle_AI_ni {s s2 : State} (h : forget_buffer s = forget_buffer s2)
    (h5 : s.buffer 5 = s2.buffer 5) :
    observable (some (handle_AI s)) = observable (some (handle_AI s2)) := by
  unfold handle_AI
  rw [h5]
  split <;> simp only [observable, Option.map, h]

theorem forget_buffer_mac {s s2 : State} (h : forget_buffer s = forget_buffer s2)
    (f : Mem → Mem) :
    forget_buffer { s with mac_addr := f s.mac_addr } =
      forget_buffer { s2 with mac_addr := f s2.mac_addr } := by
  cases s; cases s2
  simp only [forget_buffer, State.mk.injEq, true_and] at h
  simp only [forget_buffer, State.mk.injEq, true_and]
  obtain ⟨h1, h2, h3, h4, h5, h6, h7, h8, h9, h10, h11, h12, h13, h14, h15⟩ := h
  exact ⟨h1, by rw [h2], h3, h4, h5, h6, h7, h8, h9, h10, h11, h12, h13, h14, h15⟩

theorem forget_buffer_port {s s2 : State} (h : forget_buffer s = forget_buffer s2)
    (f : Mem → Mem) :
    forget_buffer { s with ip4_port := f s.ip4_port } =
      forget_buffer { s2 with ip4_port := f s2.ip4_port } := by
  cases s; cases s2
  simp only [forget_buffer, State.mk.injEq, true_and] at h
  simp only [forget_buffer, State.mk.injEq, true_and]
  obtain ⟨h1, h2, h3, h4, h5, h6, h7, h8, h9, h10, h11, h12, h13, h14, h15⟩ := h
  exact ⟨h1, h2, h3, by rw [h4], h5, h6, h7, h8, h9, h10, h11, h12, h13, h14, h15⟩

theorem forget_buffer_addr {s s2 : State} (h : forget_buffer s = forget_buffer s2)
    (f : Mem → Mem) :
    forget_buffer { s with ip4_addr := f s.ip4_addr } =
      forget_buffer { s2 with ip4_addr := f s2.ip4_addr } := by
  cases s; cases s2
  simp only [forget_buffer, State.mk.injEq, true_and] at h
  simp only [forget_buffer, State.mk.injEq, true_and]
  obtain ⟨h1, h2, h3, h4, h5, h6, h7, h8, h9, h10, h11, h12, h13, h14, h15⟩ := h
  exact ⟨h1, h2, by rw [h3], h4, h5, h6, h7, h8, h9, h10, h11, h12, h13, h14, h15⟩

theorem handle_SL_ni {s s2 : State} (h : forget_buffer s = forget_buffer s2)
    (hb : bytes_at s.buffer 5 4 = bytes_at s2.buffer 5 4) :
    observable (some (handle_SL s)) = observable (some (handle_SL s2)) := by
  simp only [handle_SL, observable, Option.map, hb,
    forget_buffer_mac h (fun m => memcpy m 2 (bytes_at s2.buffer 5 4))]

theorem handle_SH_ni {s s2 : State} (h : forget_buffer s = forget_buffer s2)
    (hb : bytes_at s.buffer 5 2 = bytes_at s2.buffer 5 2) :
    observable (some (handle_SH s)) = observable (some (handle_SH s2)) := by
  have hm : s.mac_addr = s2.mac_addr := (forget_buffer_fields h).2.1
  simp only [handle_SH, observable, Option.map, hb, hm,
    forget_buffer_mac h (fun m => memcpy m 0 (bytes_at s2.buffer 5 2))]
  rw [← hm, forget_buffer_mac h (fun m => memcpy m 0 (bytes_at s2.buffer 5 2)), hm]

theorem handle_C0_ni {s s2 : State} (h : forget_buffer s = forget_buffer s2)
    (hb : bytes_at s.buffer 5 2 = bytes_at s2.buffer 5 2) :
    observable (some (handle_C0 s)) = observable (some (handle_C0 s2)) := by
  simp only [handle_C0, observable, Option.map, hb,
    forget_buffer_port h (fun m => memcpy m 0 (bytes_at s2.buffer 5 2))]

theorem handle_MY_ni {s s2 : State} (h : forget_buffer s = forget_buffer s2)
    (hb : bytes_at s.buffer 5 4 = bytes_at s2.buffer 5 4) :
    observable (some (handle_MY s)) = observable (some (handle_MY s2)) := by
  cases s; cases s2
  simp only [forget_buffer, State.mk.injEq, true_and] at h
  obtain ⟨h1, h2, h3, h4, h5, h6, h7, h8, h9, h10, h11, h12, h13, h14, h15⟩ := h
  subst_vars
  simp only at hb
  simp only [handle_MY, observable, Option.map, forget_buffer, hb]

theorem cmp_api_response_ni {s s2 : State} (hlen : s.buffer_len = s2.buffer_len)
    (hbuf : ∀ i : Nat, (i : Int) < s.buffer_len → s.buffer i = s2.buffer i)
    (len : Int) (h5 : 5 ≤ len) (p0 p1 p2 p3 p4 : Nat) :
    cmp_api_response s len [p0, p1, p2, p3, p4] = true ↔
      cmp_api_response s2 len [p0, p1, p2, p3, p4] = true := by
  rw [cmp_api_response_iff, cmp_api_response_iff]
  constructor
  · rintro ⟨hl, a0, a1, a2, a3, a4⟩
    have b : ∀ i : Nat, (i : Int) < 5 → s.buffer i = s2.buffer i :=
      fun i hi => hbuf i (by rw [hl]; omega)
    exact ⟨hlen ▸ hl, b 0 (by norm_num) ▸ a0, b 1 (by norm_num) ▸ a1, b 2 (by norm_num) ▸ a2,
      b 3 (by norm_num) ▸ a3, b 4 (by norm_num) ▸ a4⟩
  · rintro ⟨hl, a0, a1, a2, a3, a4⟩
    have hl1 : s.buffer_len = len := hlen.trans hl
    have b : ∀ i : Nat, (i : Int) < 5 → s.buffer i = s2.buffer i :=
      fun i hi => hbuf i (by rw [hl1]; omega)
    exact ⟨hl1, (b 0 (by norm_num)).trans a0, (b 1 (by norm_num)).trans a1,
      (b 2 (by norm_num)).trans a2, (b 3 (by norm_num)).trans a3, (b 4 (by norm_num)).trans a4⟩

theorem cmp_rx_headers_ni {s s2 : State} (hlen : s.buffer_len = s2.buffer_len)
    (hbuf : ∀ i : Nat, (i : Int) < s.buffer_len → s.buffer i = s2.buffer i)
    (len : Int) (h12 : 12 ≤ len) (cmd : Nat) :
    cmp_rx_headers s len cmd = true ↔ cmp_rx_headers s2 len cmd = true := by
  rw [cmp_rx_headers_iff, cmp_rx_headers_iff]
  constructor
  · rintro ⟨hl, a0, a11⟩
    have b : ∀ i : Nat, (i : Int) < 12 → s.buffer i = s2.buffer i :=
      fun i hi => hbuf i (by rw [hl]; omega)
    exact ⟨hlen ▸ hl, b 0 (by norm_num) ▸ a0, b 11 (by norm_num) ▸ a11⟩
  · rintro ⟨hl, a0, a11⟩
    have hl1 : s.buffer_len = len := hlen.trans hl
    have b : ∀ i : Nat, (i : Int) < 12 → s.buffer i = s2.buffer i :=
      fun i hi => hbuf i (by rw [hl1]; omega)
    exact ⟨hl1, (b 0 (by norm_num)).trans a0, (b 11 (by norm_num)).trans a11⟩

theorem dispatch_ni (clkfreq : Nat) (inp : Input) (s s2 : State)
    (h : forget_buffer s = forget_buffer s2)
    (hbuf : ∀ i : Nat, (i : Int) < s.buffer_len → s.buffer i = s2.buffer i) :
    observable (dispatch clkfreq inp s) = observable (dispatch clkfreq inp s2) := by
  have hlen : s.buffer_len = s2.buffer_len := (forget_buffer_fields h).1
  by_cases h1 : s.buffer_len = -1
  · have k1 : s2.buffer_len = -1 := hlen ▸ h1
    simp only [dispatch, h1, k1, if_true]
    exact handle_timeout_ni clkfreq inp h
  have k1 : ¬ s2.buffer_len = -1 := fun x => h1 (hlen.trans x)
  have iAI := cmp_api_response_ni hlen hbuf 6 (by norm_num) 0x88 0x05 0x41 0x49 0x00
  have iSL := cmp_api_response_ni hlen hbuf 9 (by norm_num) 0x88 0x01 0x53 0x4c 0x00
  have iSH := cmp_api_response_ni hlen hbuf 7 (by norm_num) 0x88 0x02 0x53 0x48 0x00
  have iC0 := cmp_api_response_ni hlen hbuf 7 (by norm_num) 0x88 0x03 0x43 0x30 0x00
  have iMY := cmp_api_response_ni hlen hbuf 9 (by norm_num) 0x88 0x04 0x4d 0x59 0x00
  have iB := cmp_rx_headers_ni hlen hbuf 16 (by norm_num) 0x42
  have iG := cmp_rx_headers_ni hlen hbuf 15 (by norm_num) 0x47
  have iS := cmp_rx_headers_ni hlen hbuf 16 (by norm_num) 0x53
  have iR := cmp_rx_headers_ni hlen hbuf 12 (by norm_num) 0x52
  have iT := cmp_rx_headers_ni hlen hbuf 12 (by norm_num) 0x54
  have iD := cmp_rx_headers_ni hlen hbuf 16 (by norm_num) 0x44
  have iL := cmp_rx_headers_ni hlen hbuf 14 (by norm_num) 0x4c
  by_cases hAI : cmp_api_response s 6 [0x88, 0x05, 0x41, 0x49, 0x00] = true
  · have kAI : cmp_api_response s2 6 [0x88, 0x05, 0x41, 0x49, 0x00] = true := iAI.mp hAI
    simp only [dispatch, h1, k1, hAI, kAI, if_true, if_false, Bool.false_eq_true]
    have hl := ((cmp_api_response_iff s _ _ _ _ _ _).mp hAI).1
    exact handle_AI_ni h (hbuf 5 (by rw [hl]; norm_num))
  have kAI : ¬ cmp_api_response s2 6 [0x88, 0x05, 0x41, 0x49, 0x00] = true := fun x => hAI (iAI.mpr x)
  by_cases hSL : cmp_api_response s 9 [0x88, 0x01, 0x53, 0x4c, 0x00] = true
  · have kSL : cmp_api_response s2 9 [0x88, 0x01, 0x53, 0x4c, 0x00] = true := iSL.mp hSL
    simp only [dispatch, h1, k1, hAI, kAI, hSL, kSL, if_true, if_false, Bool.false_eq_true]
    have hl := ((cmp_api_response_iff s _ _ _ _ _ _).mp hSL).1
    exact handle_SL_ni h (bytes_at_congr 5 4 (fun i hi => hbuf (5 + i) (by rw [hl]; omega)))
  have kSL : ¬ cmp_api_response s2 9 [0x88, 0x01, 0x53, 0x4c, 0x00] = true := fun x => hSL (iSL.mpr x)
  by_cases hSH : cmp_api_response s 7 [0x88, 0x02, 0x53, 0x48, 0x00] = true
  · have kSH : cmp_api_response s2 7 [0x88, 0x02, 0x53, 0x48, 0x00] = true := iSH.mp hSH
    simp only [dispatch, h1, k1, hAI, kAI, hSL, kSL, hSH, kSH, if_true, if_false, Bool.false_eq_true]
    have hl := ((cmp_api_response_iff s _ _ _ _ _ _).mp hSH).1
    exact handle_SH_ni h (bytes_at_congr 5 2 (fun i hi => hbuf (5 + i) (by rw [hl]; omega)))
  have kSH : ¬ cmp_api_response s2 7 [0x88, 0x02, 0x53, 0x48, 0x00] = true := fun x => hSH (iSH.mpr x)
  by_cases hC0 : cmp_api_response s 7 [0x88, 0x03, 0x43, 0x30, 0x00] = true
  · have kC0 : cmp_api_response s2 7 [0x88, 0x03, 0x43, 0x30, 0x00] = true := iC0.mp hC0
    simp only [dispatch, h1, k1, hAI, kAI, hSL, kSL, hSH, kSH, hC0, kC0, if_true, if_false, Bool.false_eq_true]
    have hl := ((cmp_api_response_iff s _ _ _ _ _ _).mp hC0).1
    exact handle_C0_ni h (bytes_at_congr 5 2 (fun i hi => hbuf (5 + i) (by rw [hl]; omega)))
  have kC0 : ¬ cmp_api_response s2 7 [0x88, 0x03, 0x43, 0x30, 0x00] = true := fun x => hC0 (iC0.mpr x)
  by_cases hMY : cmp_api_response s 9 [0x88, 0x04, 0x4d, 0x59, 0x00] = true
  · have kMY : cmp_api_response s2 9 [0x88, 0x04, 0x4d, 0x59, 0x00] = true := iMY.mp hMY
    simp only [dispatch, h1, k1, hAI, kAI, hSL, kSL, hSH, kSH, hC0, kC0, hMY, kMY, if_true, if_false, Bool.false_eq_true]
    have hl := ((cmp_api_response_iff s _ _ _ _ _ _).mp hMY).1
    exact handle_MY_ni h (bytes_at_congr 5 4 (fun i hi => hbuf (5 + i) (by rw [hl]; omega)))
  have kMY : ¬ cmp_api_response s2 9 [0x88, 0x04, 0x4d, 0x59, 0x00] = true := fun x => hMY (iMY.mpr x)
  by_cases hB : cmp_rx_headers s 16 0x42 = true
  · have kB : cmp_rx_headers s2 16 0x42 = true := iB.mp hB
    simp only [dispatch, h1, k1, hAI, kAI, hSL, kSL, hSH, kSH, hC0, kC0, hMY, kMY, hB, kB, if_true, if_false, Bool.false_eq_true]
    have hl := ((cmp_rx_headers_iff s _ _).mp hB).1
    exact handle_B_ni clkfreq inp h (hbuf 12 (by rw [hl]; norm_num)) (hbuf 13 (by rw [hl]; norm_num)) (hbuf 14 (by rw [hl]; norm_num)) (hbuf 15 (by rw [hl]; norm_num))
  have kB : ¬ cmp_rx_headers s2 16 0x42 = true := fun x => hB (iB.mpr x)
  by_cases hG : cmp_rx_headers s 15 0x47 = true
  · have kG : cmp_rx_headers s2 15 0x47 = true := iG.mp hG
    simp only [dispatch, h1, k1, hAI, kAI, hSL, kSL, hSH, kSH, hC0, kC0, hMY, kMY, hB, kB, hG, kG, if_true, if_false, Bool.false_eq_true]
    have hl := ((cmp_rx_headers_iff s _ _).mp hG).1
    exact handle_G_ni clkfreq inp h (hbuf 12 (by rw [hl]; norm_num)) (hbuf 13 (by rw [hl]; norm_num)) (hbuf 14 (by rw [hl]; norm_num))
  have kG : ¬ cmp_rx_headers s2 15 0x47 = true := fun x => hG (iG.mpr x)
  by_cases hS : cmp_rx_headers s 16 0x53 = true
  · have kS : cmp_rx_headers s2 16 0x53 = true := iS.mp hS
    simp only [dispatch, h1, k1, hAI, kAI, hSL, kSL, hSH, kSH, hC0, kC0, hMY, kMY, hB, kB, hG, kG, hS, kS, if_true, if_false, Bool.false_eq_true]
    have hl := ((cmp_rx_headers_iff s _ _).mp hS).1
    exact handle_S_ni clkfreq inp h (hbuf 12 (by rw [hl]; norm_num)) (hbuf 13 (by rw [hl]; norm_num)) (hbuf 14 (by rw [hl]; norm_num)) (hbuf 15 (by rw [hl]; norm_num))
  have kS : ¬ cmp_rx_headers s2 16 0x53 = true := fun x => hS (iS.mpr x)
  by_cases hR : cmp_rx_headers s 12 0x52 = true
  · have kR : cmp_rx_headers s2 12 0x52 = true := iR.mp hR
    simp only [dispatch, h1, k1, hAI, kAI, hSL, kSL, hSH, kSH, hC0, kC0, hMY, kMY, hB, kB, hG, kG, hS, kS, hR, kR, if_true, if_false, Bool.false_eq_true]
    have hl := ((cmp_rx_headers_iff s _ _).mp hR).1
    exact handle_R_ni clkfreq inp h
  have kR : ¬ cmp_rx_headers s2 12 0x52 = true := fun x => hR (iR.mpr x)
  by_cases hT : cmp_rx_headers s 12 0x54 = true
  · have kT : cmp_rx_headers s2 12 0x54 = true := iT.mp hT
    simp only [dispatch, h1, k1, hAI, kAI, hSL, kSL, hSH, kSH, hC0, kC0, hMY, kMY, hB, kB, hG, kG, hS, kS, hR, kR, hT, kT, if_true, if_false, Bool.false_eq_true]
    have hl := ((cmp_rx_headers_iff s _ _).mp hT).1
    exact handle_T_ni clkfreq inp h
  have kT : ¬ cmp_rx_headers s2 12 0x54 = true := fun x => hT (iT.mpr x)
  by_cases hD : cmp_rx_headers s 16 0x44 = true
  · have kD : cmp_rx_headers s2 16 0x44 = true := iD.mp hD
    simp only [dispatch, h1, k1, hAI, kAI, hSL, kSL, hSH, kSH, hC0, kC0, hMY, kMY, hB, kB, hG, kG, hS, kS, hR, kR, hT, kT, hD, kD, if_true, if_false, Bool.false_eq_true]
    have hl := ((cmp_rx_headers_iff s _ _).mp hD).1
    exact handle_D_ni clkfreq inp h (hbuf 12 (by rw [hl]; norm_num)) (hbuf 13 (by rw [hl]; norm_num)) (hbuf 14 (by rw [hl]; norm_num)) (hbuf 15 (by rw [hl]; norm_num))
  have kD : ¬ cmp_rx_headers s2 16 0x44 = true := fun x => hD (iD.mpr x)
  by_cases hL : cmp_rx_headers s 14 0x4c = true
  · have kL : cmp_rx_headers s2 14 0x4c = true := iL.mp hL
    simp only [dispatch, h1, k1, hAI, kAI, hSL, kSL, hSH, kSH, hC0, kC0, hMY, kMY, hB, kB, hG, kG, hS, kS, hR, kR, hT, kT, hD, kD, hL, kL, if_true, if_false, Bool.false_eq_true]
    have hl := ((cmp_rx_headers_iff s _ _).mp hL).1
    exact handle_L_ni clkfreq inp h (hbuf 12 (by rw [hl]; norm_num)) (hbuf 13 (by rw [hl]; norm_num))
  have kL : ¬ cmp_rx_headers s2 14 0x4c = true := fun x => hL (iL.mpr x)
  by_cases hU : s.buffer_len ≥ (0 : Int)
  · have kU : s2.buffer_len ≥ (0 : Int) := hlen ▸ hU
    simp only [dispatch, h1, k1, hAI, kAI, hSL, kSL, hSH, kSH, hC0, kC0, hMY, kMY, hB, kB, hG, kG, hS, kS, hR, kR, hT, kT, hD, kD, hL, kL, hU, kU, if_true, if_false, Bool.false_eq_true]
    have hb : bytes_at s.buffer 0 (min s.buffer_len.toNat BUFFER_SIZE) =
        bytes_at s2.buffer 0 (min s.buffer_len.toNat BUFFER_SIZE) :=
      bytes_at_congr 0 _ (fun i hi => by
        rw [Nat.zero_add]
        exact hbuf i (by have := Nat.min_le_left s.buffer_len.toNat BUFFER_SIZE; omega))
    simp only [observable, Option.map, buffer_print, ← hlen, hb, h]
  have kU : ¬ s2.buffer_len ≥ (0 : Int) := fun x => hU (hlen ▸ x)
  simp only [dispatch, h1, k1, hAI, kAI, hSL, kSL, hSH, kSH, hC0, kC0, hMY, kMY, hB, kB, hG, kG, hS, kS, hR, kR, hT, kT, hD, kD, hL, kL, hU, kU, if_true, if_false, Bool.false_eq_true]
  simp only [observable, Option.map, h]

theorem forget_buffer_recv {s s2 : State} (h : forget_buffer s = forget_buffer s2) (inp : Input) :
    forget_buffer (xbee_recv inp s) = forget_buffer (xbee_recv inp s2) := by
  cases s; cases s2
  simp only [forget_buffer, State.mk.injEq, true_and] at h
  simp only [forget_buffer, xbee_recv, State.mk.injEq, true_and]
  obtain ⟨h1, h2, h3, h4, h5, h6, h7, h8, h9, h10, h11, h12, h13, h14, h15⟩ := h
  exact ⟨h2, h3, h4, h5, h6, h7, h8, h9, h10, h11, h12, h13, h14, h15⟩

/-- C19: the dispatch step reads no buffer byte at or beyond the received length. Let two
states agree on everything except the contents of the buffer. If their buffers agree at
every index below `buffer_len`, the dispatch step behaves the same in both: it returns in
both or in neither, with the same effects (hardware calls, frames sent, bytes printed) and
the same resulting cursor, identity, clock and loop variables. In particular, after
`xbee_recv_api` has stored at least the bytes it reports, the dispatch step does not depend
on what the buffer held before, be it an earlier received or transmitted frame. -/
theorem dispatch_ignores_stale_bytes (clkfreq : Nat) (inp : Input) (s s2 : State)
    (h : forget_buffer s = forget_buffer s2) :
    ((∀ i : Nat, (i : Int) < s.buffer_len → s.buffer i = s2.buffer i) →
      observable (dispatch clkfreq inp s) = observable (dispatch clkfreq inp s2)) ∧
    (inp.recv_ret ≤ (inp.recv_data.length : Int) →
      observable (dispatch clkfreq inp (xbee_recv inp s)) =
        observable (dispatch clkfreq inp (xbee_recv inp s2))) := by
  refine ⟨dispatch_ni clkfreq inp s s2 h, fun hr => ?_⟩
  refine dispatch_ni clkfreq inp _ _ (forget_buffer_recv h inp) (fun i hi => ?_)
  have hi2 : i < inp.recv_data.length := by
    have : (i : Int) < inp.recv_ret := hi
    omega
  simp [xbee_recv, memcpy, hi2]

/-- C19 at 80 MHz for the `L` frame received into a buffer of zeros and into a buffer
filled with `0xff`: the dispatch step behaves the same. -/
theorem dispatch_ignores_stale_bytes_witness :
    observable (dispatch clkfreq_80MHz (frame_input led_frame 160000)
        (xbee_recv (frame_input led_frame 160000) State.init)) =
      observable (dispatch clkfreq_80MHz (frame_input led_frame 160000)
        (xbee_recv (frame_input led_frame 160000)
          { State.init with buffer := fun _ => 0xff })) :=
  (dispatch_ignores_stale_bytes clkfreq_80MHz (frame_input led_frame 160000) State.init
    { State.init with buffer := fun _ => 0xff } rfl).2 (by decide)

end Roboscape
